import Mathlib

/-!
Ephemeris: a verification development of `Ephemeris.cpp`.

The C++ functions of `Ephemeris.cpp` are embedded as Lean functions over `CFloat`, a model of
the C `float` and `double` values in exact arithmetic: a value is either a real number or the
not-a-number value `nan`.  Rounding to single or double precision is not modelled there, so every
arithmetic operation on numbers is the exact real operation; `nan` propagates through every
operation as in IEEE 754, and every comparison with `nan` except `!=` is false.  The
infinities are not represented: a division by zero yields `nan`.  The integer types are the
unbounded integers.

The function-like macros of the source are textual: where a macro is applied to a compound
expression the embedding writes the expansion the preprocessor produces, not the expression the
macro's name suggests.

What the source file uses without defining it is a parameter or is modelled from its uses: the
VSOP87 coefficient tables (`VSOP87Tables`), the enumeration of the bodies
(`SolarSystemObjectIndex`) and the structs.  A variable the source reads without having
initialised it is a parameter too (`Uninitialised`, and `uninit` of
`planetayOrbitForPlanetAndT`).  A `while` loop is run with a fuel, and the statements about it
give a fuel that suffices.

Two definitions follow the words of the specification instead of the source,
`planetAberrationSpec` and `nutationSeriesSpec`: they are there to be compared with the
functions of the source.

Where a rounding decides a claim, the functions concerned are embedded a second time, in the
namespace `Single`, over the real numbers with the rounding `roundF32` of IEEE 754 binary32
(round to nearest, ties to even, subnormal numbers included, no overflow) applied where the
compiled code rounds: at every single-precision operation and at every store of a
double-precision value in a `float`.  Double-precision arithmetic and the functions of `math.h`
are taken as exact there.

The file has the definitions first, then lemmas on the model, then one theorem per claim
(`C1`, `C2`, ...), each with the claim it settles in its comment.
-/

noncomputable section

namespace Ephemeris

/-! ## Floating-point values -/

/-- A C floating-point value in exact arithmetic: a real number, or not-a-number. -/
inductive CFloat where
  | nan : CFloat
  | num (x : ℝ) : CFloat

namespace CFloat

/-- Lift a real function: the result is `nan` on `nan`. -/
def map (f : ℝ → ℝ) : CFloat → CFloat
  | num x => num (f x)
  | nan => nan

/-- Lift a binary real function: the result is `nan` when an operand is. -/
def map₂ (f : ℝ → ℝ → ℝ) : CFloat → CFloat → CFloat
  | num x, num y => num (f x y)
  | _, _ => nan

instance : Inhabited CFloat := ⟨nan⟩
instance : Add CFloat := ⟨map₂ (· + ·)⟩
instance : Sub CFloat := ⟨map₂ (· - ·)⟩
instance : Mul CFloat := ⟨map₂ (· * ·)⟩
instance : Neg CFloat := ⟨map (fun x => -x)⟩

/-- Division.  The infinities are not represented: a division by zero yields `nan`. -/
def div : CFloat → CFloat → CFloat
  | num x, num y => if y = 0 then nan else num (x / y)
  | _, _ => nan

instance : Div CFloat := ⟨div⟩
instance : Zero CFloat := ⟨num 0⟩
instance : One CFloat := ⟨num 1⟩
instance : NatCast CFloat := ⟨fun n => num (n : ℝ)⟩
instance : OfScientific CFloat := ⟨fun m s e => num (OfScientific.ofScientific m s e)⟩

/-- Addition of `CFloat` is associative and commutative with neutral element `0`: `nan` is
absorbing, and on numbers it is the addition of the reals. -/
instance : AddCommMonoid CFloat where
  add_assoc a b c := by
    cases a <;> cases b <;> cases c <;>
      first | rfl | exact congrArg num (add_assoc _ _ _)
  zero_add a := by
    cases a
    · rfl
    · exact congrArg num (zero_add _)
  add_zero a := by
    cases a
    · rfl
    · exact congrArg num (add_zero _)
  add_comm a b := by
    cases a <;> cases b <;> first | rfl | exact congrArg num (add_comm _ _)
  nsmul := nsmulRec

/-- Multiplication of `CFloat` is associative and commutative with neutral element `1`. -/
instance : CommMonoid CFloat where
  mul_assoc a b c := by
    cases a <;> cases b <;> cases c <;>
      first | rfl | exact congrArg num (mul_assoc _ _ _)
  one_mul a := by
    cases a
    · rfl
    · exact congrArg num (one_mul _)
  mul_one a := by
    cases a
    · rfl
    · exact congrArg num (mul_one _)
  mul_comm a b := by
    cases a <;> cases b <;> first | rfl | exact congrArg num (mul_comm _ _)
  npow := npowRec

/-- Conversion of an integer (`int`, `long`) to floating point. -/
def ofInt (n : ℤ) : CFloat := num (n : ℝ)

/-- Conversion to an integer type, `(int)x` or `(long)x`: truncation toward zero.  Integers are
unbounded here.  The conversion of `nan` is not defined by C++; it is taken to be `0`. -/
def toInt : CFloat → ℤ
  | num x => if 0 ≤ x then ⌊x⌋ else ⌈x⌉
  | nan => 0

/-- The test `isnan(x)`. -/
def isnan : CFloat → Bool
  | nan => true
  | num _ => false

/-- The comparison `a >= b`: false when an operand is `nan`. -/
def ge : CFloat → CFloat → Prop
  | num x, num y => y ≤ x
  | _, _ => False

/-- The comparison `a != b`: true when an operand is `nan`. -/
def ne : CFloat → CFloat → Prop
  | num x, num y => x ≠ y
  | _, _ => True

/-- The comparison `a == b`: false when an operand is `nan`. -/
def eq : CFloat → CFloat → Prop
  | num x, num y => x = y
  | _, _ => False

instance : DecidableRel ge := fun _ _ => Classical.propDecidable _
instance : DecidableRel ne := fun _ _ => Classical.propDecidable _
instance : DecidableRel eq := fun _ _ => Classical.propDecidable _

/-- The function `sin` of `math.h`. -/
def sin : CFloat → CFloat := map Real.sin

/-- The function `cos` of `math.h`. -/
def cos : CFloat → CFloat := map Real.cos

/-- The function `tan` of `math.h`.  It is `Real.tan`, whose value is `0` where the cosine
vanishes; such a point is an odd multiple of `π/2`, which no floating-point number is. -/
def tan : CFloat → CFloat := map Real.tan

/-- The function `atan` of `math.h`. -/
def atan : CFloat → CFloat := map Real.arctan

/-- The function `asin` of `math.h`: `nan` outside `[-1, 1]`. -/
def asin : CFloat → CFloat
  | num x => if -1 ≤ x ∧ x ≤ 1 then num (Real.arcsin x) else nan
  | nan => nan

/-- The function `sqrtf` of `math.h`: `nan` on a negative number. -/
def sqrt : CFloat → CFloat
  | num x => if 0 ≤ x then num (Real.sqrt x) else nan
  | nan => nan

/-- The function `atan2(y, x)` of `math.h`: the argument of the point `(x, y)`, in `(-π, π]`,
and `0` at the origin. -/
def atan2 : CFloat → CFloat → CFloat
  | num y, num x => num (Complex.arg ⟨x, y⟩)
  | _, _ => nan

end CFloat

open CFloat

/-! ## Constants and macros -/

/-- The constant `PI` as the source defines it when the platform does not. -/
def PI : CFloat := 3.1415926535

/-- Macro `SIND(value)`, `sin((value*PI)/180)`, for an argument that is a single operand. -/
def SIND (value : CFloat) : CFloat := sin ((value * PI) / 180)

/-- Macro `COSD(value)`, `cos((value*PI)/180)`, for an argument that is a single operand. -/
def COSD (value : CFloat) : CFloat := cos ((value * PI) / 180)

/-- Macro `TAND(value)`, `tan((value*PI)/180)`, for an argument that is a single operand. -/
def TAND (value : CFloat) : CFloat := tan ((value * PI) / 180)

/-- Macro `LIMIT_DEGREES_TO_360(value)`:
`value >= 0 ? (value-(long)(value/360)*360) : ((value-(long)(value/360)*360)+360)`. -/
def LIMIT_DEGREES_TO_360 (value : CFloat) : CFloat :=
  if CFloat.ge value 0 then value - ofInt (toInt (value / 360) * 360)
  else (value - ofInt (toInt (value / 360) * 360)) + 360

/-- Macro `LIMIT_HOURS_TO_24(value)`: `value >= 0 ? (value-(long)(value/24)*24) : value+24`. -/
def LIMIT_HOURS_TO_24 (value : CFloat) : CFloat :=
  if CFloat.ge value 0 then value - ofInt (toInt (value / 24) * 24)
  else value + 24

/-- Macro `DEGREES_TO_RADIANS(value)`: `(value*PI/180)`. -/
def DEGREES_TO_RADIANS (value : CFloat) : CFloat := value * PI / 180

/-- Macro `DEGREES_MINUTES_SECONDES_TO_SECONDS(deg,min,sec)`:
`((float)deg*3600+(float)min*60+(float)sec)`. -/
def DEGREES_MINUTES_SECONDES_TO_SECONDS (deg min sec : CFloat) : CFloat :=
  deg * 3600 + min * 60 + sec

/-- Macro `DEGREES_MINUTES_SECONDS_TO_DECIMAL_DEGREES(deg,min,sec)`:
`deg >= 0 ? ((float)deg+(float)min/60+(float)sec/3600)
          : ((float)deg-(float)min/60-(float)sec/3600)`. -/
def DEGREES_MINUTES_SECONDS_TO_DECIMAL_DEGREES (deg min sec : CFloat) : CFloat :=
  if CFloat.ge deg 0 then deg + min / 60 + sec / 3600 else deg - min / 60 - sec / 3600

/-- Macro `RADIANS_TO_DEGREES(value)`: `(value*180/PI)`. -/
def RADIANS_TO_DEGREES (value : CFloat) : CFloat := value * 180 / PI

/-- Macro `RADIANS_TO_HOURS(value)`: `(value*3.81971863)`. -/
def RADIANS_TO_HOURS (value : CFloat) : CFloat := value * 3.81971863

/-- Macro `HOURS_MINUTES_SECONDS_TO_DECIMAL_HOURS(hour,min,sec)`:
`((float)hour+(float)min/60+(float)sec/3600)`. -/
def HOURS_MINUTES_SECONDS_TO_DECIMAL_HOURS (hour min sec : CFloat) : CFloat :=
  hour + min / 60 + sec / 3600

/-- Macro `SECONDS_TO_DECIMAL_DEGREES(value)`: `((float)value/3600)`. -/
def SECONDS_TO_DECIMAL_DEGREES (value : CFloat) : CFloat := value / 3600

/-! ## Angle conversions -/

/-- Function `floatingHoursToHoursMinutesSeconds`: the values stored through the three output
pointers `(hours, minutes, seconds)`.  `minutes` is an `int`: the assignment truncates. -/
def floatingHoursToHoursMinutesSeconds (floatingHours : CFloat) : ℤ × ℤ × CFloat :=
  if CFloat.ge floatingHours 0 then
    let hours := toInt floatingHours
    let minutes := toInt (floatingHours * 60 - ofInt (hours * 60))
    let seconds := floatingHours * 3600 - ofInt (hours * 3600) - ofInt (minutes * 60)
    (hours, minutes, seconds)
  else
    let floatingHours := floatingHours * ofInt (-1)
    let hours := toInt floatingHours
    let minutes := toInt (floatingHours * 60 - ofInt (hours * 60))
    let seconds := floatingHours * 3600 - ofInt (hours * 3600) - ofInt (minutes * 60)
    (hours * -1, minutes, seconds)

/-- Function `hoursMinutesSecondsToFloatingHours`. -/
def hoursMinutesSecondsToFloatingHours (degrees minutes : ℤ) (seconds : CFloat) : CFloat :=
  HOURS_MINUTES_SECONDS_TO_DECIMAL_HOURS (ofInt degrees) (ofInt minutes) seconds

/-- Function `floatingDegreesToDegreesMinutesSeconds`: the values stored through the three
output pointers `(degree, minute, second)`.  The cast `(unsigned int)` is applied to a value
that is not negative and the result is stored in an `int`: it is the truncation. -/
def floatingDegreesToDegreesMinutesSeconds (floatintDegrees : CFloat) : ℤ × ℤ × CFloat :=
  if CFloat.ge floatintDegrees 0 then
    let degree := toInt floatintDegrees
    let minute := toInt (floatintDegrees * 60 - ofInt (degree * 60))
    let second := floatintDegrees * 3600 - ofInt (degree * 3600) - ofInt (minute * 60)
    (degree, minute, second)
  else
    let floatintDegrees := floatintDegrees * ofInt (-1)
    let degree := toInt floatintDegrees
    let minute := toInt (floatintDegrees * 60 - ofInt (degree * 60))
    let second := floatintDegrees * 3600 - ofInt (degree * 3600) - ofInt (minute * 60)
    (degree * -1, minute, second)

/-- Function `degreesMinutesSecondsToFloatingDegrees`.  The macro tests its first argument as
written, the `int` parameter `degrees`. -/
def degreesMinutesSecondsToFloatingDegrees (degrees minutes : ℤ) (seconds : CFloat) : CFloat :=
  DEGREES_MINUTES_SECONDS_TO_DECIMAL_DEGREES (ofInt degrees) (ofInt minutes) seconds

/-! ## Kepler's equation -/

/-- The `for` loop of `kepler`, with `n` iterations left: one Newton step, then the test
`previousE == E` that leaves the loop. -/
def keplerLoop (M e : CFloat) : ℕ → CFloat → CFloat → CFloat
  | 0, E, _ => E
  | n + 1, E, previousE =>
    let E := E + (M + e * sin E - E) / (1 - e * cos E)
    if CFloat.eq previousE E then E else keplerLoop M e n E E

/-- Function `kepler`. -/
def kepler (M e : CFloat) : CFloat :=
  let M := DEGREES_TO_RADIANS M
  let E := M
  let previousE := E + 1
  RADIANS_TO_DEGREES (keplerLoop M e 10 E previousE)

/-! ## VSOP87 series -/

/-- One term of a VSOP87 series (`struct VSOP87Coefficient`, declared in a header that is not
part of the source file): the fields `A`, `B` and `C` read by `sumVSOP87Coefs`. -/
structure VSOP87Coefficient where
  A : CFloat
  B : CFloat
  C : CFloat

/-- Function `sumVSOP87Coefs`.  The pointer `valuePlanetCoefficients` and the count `coefCount`
are the list of the `coefCount` terms the loop reads, in order. -/
def sumVSOP87Coefs (valuePlanetCoefficients : List VSOP87Coefficient) (T : CFloat) : CFloat :=
  valuePlanetCoefficients.foldl
    (fun value coef =>
      let res := cos (coef.B + coef.C * T)
      let res := res * coef.A
      let res := res * coef.A
      value + res)
    0

/-- The identifier of a body (`enum SolarSystemObjectIndex`, declared in a header that is not
part of the source file): the nine bodies the source names in its `case` labels, and `other`
for every other value of the type, which reaches the `default` labels. -/
inductive SolarSystemObjectIndex where
  | Sun | Mercury | Venus | Earth | Mars | Jupiter | Saturn | Uranus | Neptune
  | other (code : ℕ)

/-- The names of the VSOP87 coefficient tables, arrays defined in a header that is not part of
the source file. -/
inductive VSOP87Table where
  | L0MercuryCoefficients | L1MercuryCoefficients | L2MercuryCoefficients | L3MercuryCoefficients
  | L4MercuryCoefficients | L5MercuryCoefficients | B0MercuryCoefficients | B1MercuryCoefficients
  | B2MercuryCoefficients | B3MercuryCoefficients | B4MercuryCoefficients | R0MercuryCoefficients
  | R1MercuryCoefficients | R2MercuryCoefficients | R3MercuryCoefficients | L0VenusCoefficients
  | L1VenusCoefficients | L2VenusCoefficients | L3VenusCoefficients | L4VenusCoefficients
  | L5VenusCoefficients | B0VenusCoefficients | B1VenusCoefficients | B2VenusCoefficients
  | B3VenusCoefficients | B4VenusCoefficients | R0VenusCoefficients | R1VenusCoefficients
  | R2VenusCoefficients | R3VenusCoefficients | R4VenusCoefficients | L0EarthCoefficients
  | L1EarthCoefficients | L2EarthCoefficients | L3EarthCoefficients | L4EarthCoefficients
  | L5EarthCoefficients | B0EarthCoefficients | B1EarthCoefficients | R0EarthCoefficients
  | R1EarthCoefficients | R2EarthCoefficients | R3EarthCoefficients | L0MarsCoefficients
  | L1MarsCoefficients | L2MarsCoefficients | L3MarsCoefficients | L4MarsCoefficients
  | L5MarsCoefficients | B0MarsCoefficients | B1MarsCoefficients | B2MarsCoefficients
  | B3MarsCoefficients | B4MarsCoefficients | R0MarsCoefficients | R1MarsCoefficients
  | R2MarsCoefficients | R3MarsCoefficients | R4MarsCoefficients | L0JupiterCoefficients
  | L1JupiterCoefficients | L2JupiterCoefficients | L3JupiterCoefficients | L4JupiterCoefficients
  | L5JupiterCoefficients | B0JupiterCoefficients | B1JupiterCoefficients | B2JupiterCoefficients
  | B3JupiterCoefficients | B4JupiterCoefficients | B5JupiterCoefficients | R0JupiterCoefficients
  | R1JupiterCoefficients | R2JupiterCoefficients | R3JupiterCoefficients | R4JupiterCoefficients
  | R5JupiterCoefficients | L0SaturnCoefficients | L1SaturnCoefficients | L2SaturnCoefficients
  | L3SaturnCoefficients | L4SaturnCoefficients | L5SaturnCoefficients | B0SaturnCoefficients
  | B1SaturnCoefficients | B2SaturnCoefficients | B3SaturnCoefficients | B4SaturnCoefficients
  | B5SaturnCoefficients | R0SaturnCoefficients | R1SaturnCoefficients | R2SaturnCoefficients
  | R3SaturnCoefficients | R4SaturnCoefficients | R5SaturnCoefficients | L0UranusCoefficients
  | L1UranusCoefficients | L2UranusCoefficients | L3UranusCoefficients | L4UranusCoefficients
  | B0UranusCoefficients | B1UranusCoefficients | B2UranusCoefficients | B3UranusCoefficients
  | B4UranusCoefficients | R0UranusCoefficients | R1UranusCoefficients | R2UranusCoefficients
  | R3UranusCoefficients | R4UranusCoefficients | L0NeptuneCoefficients | L1NeptuneCoefficients
  | L2NeptuneCoefficients | L3NeptuneCoefficients | L4NeptuneCoefficients | B0NeptuneCoefficients
  | B1NeptuneCoefficients | B2NeptuneCoefficients | B3NeptuneCoefficients | B4NeptuneCoefficients
  | R0NeptuneCoefficients | R1NeptuneCoefficients | R2NeptuneCoefficients | R3NeptuneCoefficients

/-- The VSOP87 coefficient tables, a list of terms for each name: they are a parameter of the
functions that read them. -/
abbrev VSOP87Tables := VSOP87Table → List VSOP87Coefficient

/-- Struct `HeliocentricCoordinates`. -/
structure HeliocentricCoordinates where
  lon : CFloat
  lat : CFloat
  radius : CFloat

/-- The eighteen local sums `l0..l5`, `b0..b5`, `r0..r5` of
`heliocentricCoordinatesForPlanetAndT`, each initialised to `0`. -/
structure SeriesSums where
  l0 : CFloat := 0
  l1 : CFloat := 0
  l2 : CFloat := 0
  l3 : CFloat := 0
  l4 : CFloat := 0
  l5 : CFloat := 0
  b0 : CFloat := 0
  b1 : CFloat := 0
  b2 : CFloat := 0
  b3 : CFloat := 0
  b4 : CFloat := 0
  b5 : CFloat := 0
  r0 : CFloat := 0
  r1 : CFloat := 0
  r2 : CFloat := 0
  r3 : CFloat := 0
  r4 : CFloat := 0
  r5 : CFloat := 0

/-- Function `heliocentricCoordinatesForPlanetAndT`. -/
def heliocentricCoordinatesForPlanetAndT (tb : VSOP87Tables)
    (solarSystemObjectIndex : SolarSystemObjectIndex) (T : CFloat) : HeliocentricCoordinates :=
  let T := T / 10
  let TSquared := T * T
  let TCubed := TSquared * T
  let T4 := TCubed * T
  let T5 := T4 * T
  let s : SeriesSums :=
    match solarSystemObjectIndex with
    | .Sun => {}
    | .Mercury =>
      {
        l0 := sumVSOP87Coefs (tb .L0MercuryCoefficients) T
        l1 := sumVSOP87Coefs (tb .L1MercuryCoefficients) T
        l2 := sumVSOP87Coefs (tb .L2MercuryCoefficients) T
        l3 := sumVSOP87Coefs (tb .L3MercuryCoefficients) T
        l4 := sumVSOP87Coefs (tb .L4MercuryCoefficients) T
        l5 := sumVSOP87Coefs (tb .L5MercuryCoefficients) T
        b0 := sumVSOP87Coefs (tb .B0MercuryCoefficients) T
        b1 := sumVSOP87Coefs (tb .B1MercuryCoefficients) T
        b2 := sumVSOP87Coefs (tb .B2MercuryCoefficients) T
        b3 := sumVSOP87Coefs (tb .B3MercuryCoefficients) T
        b4 := sumVSOP87Coefs (tb .B4MercuryCoefficients) T
        r0 := sumVSOP87Coefs (tb .R0MercuryCoefficients) T
        r1 := sumVSOP87Coefs (tb .R1MercuryCoefficients) T
        r2 := sumVSOP87Coefs (tb .R2MercuryCoefficients) T
        r3 := sumVSOP87Coefs (tb .R3MercuryCoefficients) T
      }
    | .Venus =>
      {
        l0 := sumVSOP87Coefs (tb .L0VenusCoefficients) T
        l1 := sumVSOP87Coefs (tb .L1VenusCoefficients) T
        l2 := sumVSOP87Coefs (tb .L2VenusCoefficients) T
        l3 := sumVSOP87Coefs (tb .L3VenusCoefficients) T
        l4 := sumVSOP87Coefs (tb .L4VenusCoefficients) T
        l5 := sumVSOP87Coefs (tb .L5VenusCoefficients) T
        b0 := sumVSOP87Coefs (tb .B0VenusCoefficients) T
        b1 := sumVSOP87Coefs (tb .B1VenusCoefficients) T
        b2 := sumVSOP87Coefs (tb .B2VenusCoefficients) T
        b3 := sumVSOP87Coefs (tb .B3VenusCoefficients) T
        b4 := sumVSOP87Coefs (tb .B4VenusCoefficients) T
        r0 := sumVSOP87Coefs (tb .R0VenusCoefficients) T
        r1 := sumVSOP87Coefs (tb .R1VenusCoefficients) T
        r2 := sumVSOP87Coefs (tb .R2VenusCoefficients) T
        r3 := sumVSOP87Coefs (tb .R3VenusCoefficients) T
        r4 := sumVSOP87Coefs (tb .R4VenusCoefficients) T
      }
    | .Earth =>
      {
        l0 := sumVSOP87Coefs (tb .L0EarthCoefficients) T
        l1 := sumVSOP87Coefs (tb .L1EarthCoefficients) T
        l2 := sumVSOP87Coefs (tb .L2EarthCoefficients) T
        l3 := sumVSOP87Coefs (tb .L3EarthCoefficients) T
        l4 := sumVSOP87Coefs (tb .L4EarthCoefficients) T
        l5 := sumVSOP87Coefs (tb .L5EarthCoefficients) T
        b0 := sumVSOP87Coefs (tb .B0EarthCoefficients) T
        b1 := sumVSOP87Coefs (tb .B1EarthCoefficients) T
        r0 := sumVSOP87Coefs (tb .R0EarthCoefficients) T
        r1 := sumVSOP87Coefs (tb .R1EarthCoefficients) T
        r2 := sumVSOP87Coefs (tb .R2EarthCoefficients) T
        r3 := sumVSOP87Coefs (tb .R3EarthCoefficients) T
      }
    | .Mars =>
      {
        l0 := sumVSOP87Coefs (tb .L0MarsCoefficients) T
        l1 := sumVSOP87Coefs (tb .L1MarsCoefficients) T
        l2 := sumVSOP87Coefs (tb .L2MarsCoefficients) T
        l3 := sumVSOP87Coefs (tb .L3MarsCoefficients) T
        l4 := sumVSOP87Coefs (tb .L4MarsCoefficients) T
        l5 := sumVSOP87Coefs (tb .L5MarsCoefficients) T
        b0 := sumVSOP87Coefs (tb .B0MarsCoefficients) T
        b1 := sumVSOP87Coefs (tb .B1MarsCoefficients) T
        b2 := sumVSOP87Coefs (tb .B2MarsCoefficients) T
        b3 := sumVSOP87Coefs (tb .B3MarsCoefficients) T
        b4 := sumVSOP87Coefs (tb .B4MarsCoefficients) T
        r0 := sumVSOP87Coefs (tb .R0MarsCoefficients) T
        r1 := sumVSOP87Coefs (tb .R1MarsCoefficients) T
        r2 := sumVSOP87Coefs (tb .R2MarsCoefficients) T
        r3 := sumVSOP87Coefs (tb .R3MarsCoefficients) T
        r4 := sumVSOP87Coefs (tb .R4MarsCoefficients) T
      }
    | .Jupiter =>
      {
        l0 := sumVSOP87Coefs (tb .L0JupiterCoefficients) T
        l1 := sumVSOP87Coefs (tb .L1JupiterCoefficients) T
        l2 := sumVSOP87Coefs (tb .L2JupiterCoefficients) T
        l3 := sumVSOP87Coefs (tb .L3JupiterCoefficients) T
        l4 := sumVSOP87Coefs (tb .L4JupiterCoefficients) T
        l5 := sumVSOP87Coefs (tb .L5JupiterCoefficients) T
        b0 := sumVSOP87Coefs (tb .B0JupiterCoefficients) T
        b1 := sumVSOP87Coefs (tb .B1JupiterCoefficients) T
        b2 := sumVSOP87Coefs (tb .B2JupiterCoefficients) T
        b3 := sumVSOP87Coefs (tb .B3JupiterCoefficients) T
        b4 := sumVSOP87Coefs (tb .B4JupiterCoefficients) T
        b5 := sumVSOP87Coefs (tb .B5JupiterCoefficients) T
        r0 := sumVSOP87Coefs (tb .R0JupiterCoefficients) T
        r1 := sumVSOP87Coefs (tb .R1JupiterCoefficients) T
        r2 := sumVSOP87Coefs (tb .R2JupiterCoefficients) T
        r3 := sumVSOP87Coefs (tb .R3JupiterCoefficients) T
        r4 := sumVSOP87Coefs (tb .R4JupiterCoefficients) T
        r5 := sumVSOP87Coefs (tb .R5JupiterCoefficients) T
      }
    | .Saturn =>
      {
        l0 := sumVSOP87Coefs (tb .L0SaturnCoefficients) T
        l1 := sumVSOP87Coefs (tb .L1SaturnCoefficients) T
        l2 := sumVSOP87Coefs (tb .L2SaturnCoefficients) T
        l3 := sumVSOP87Coefs (tb .L3SaturnCoefficients) T
        l4 := sumVSOP87Coefs (tb .L4SaturnCoefficients) T
        l5 := sumVSOP87Coefs (tb .L5SaturnCoefficients) T
        b0 := sumVSOP87Coefs (tb .B0SaturnCoefficients) T
        b1 := sumVSOP87Coefs (tb .B1SaturnCoefficients) T
        b2 := sumVSOP87Coefs (tb .B2SaturnCoefficients) T
        b3 := sumVSOP87Coefs (tb .B3SaturnCoefficients) T
        b4 := sumVSOP87Coefs (tb .B4SaturnCoefficients) T
        b5 := sumVSOP87Coefs (tb .B5SaturnCoefficients) T
        r0 := sumVSOP87Coefs (tb .R0SaturnCoefficients) T
        r1 := sumVSOP87Coefs (tb .R1SaturnCoefficients) T
        r2 := sumVSOP87Coefs (tb .R2SaturnCoefficients) T
        r3 := sumVSOP87Coefs (tb .R3SaturnCoefficients) T
        r4 := sumVSOP87Coefs (tb .R4SaturnCoefficients) T
        r5 := sumVSOP87Coefs (tb .R5SaturnCoefficients) T
      }
    | .Uranus =>
      {
        l0 := sumVSOP87Coefs (tb .L0UranusCoefficients) T
        l1 := sumVSOP87Coefs (tb .L1UranusCoefficients) T
        l2 := sumVSOP87Coefs (tb .L2UranusCoefficients) T
        l3 := sumVSOP87Coefs (tb .L3UranusCoefficients) T
        l4 := sumVSOP87Coefs (tb .L4UranusCoefficients) T
        b0 := sumVSOP87Coefs (tb .B0UranusCoefficients) T
        b1 := sumVSOP87Coefs (tb .B1UranusCoefficients) T
        b2 := sumVSOP87Coefs (tb .B2UranusCoefficients) T
        b3 := sumVSOP87Coefs (tb .B3UranusCoefficients) T
        b4 := sumVSOP87Coefs (tb .B4UranusCoefficients) T
        r0 := sumVSOP87Coefs (tb .R0UranusCoefficients) T
        r1 := sumVSOP87Coefs (tb .R1UranusCoefficients) T
        r2 := sumVSOP87Coefs (tb .R2UranusCoefficients) T
        r3 := sumVSOP87Coefs (tb .R3UranusCoefficients) T
        r4 := sumVSOP87Coefs (tb .R4UranusCoefficients) T
      }
    | .Neptune =>
      {
        l0 := sumVSOP87Coefs (tb .L0NeptuneCoefficients) T
        l1 := sumVSOP87Coefs (tb .L1NeptuneCoefficients) T
        l2 := sumVSOP87Coefs (tb .L2NeptuneCoefficients) T
        l3 := sumVSOP87Coefs (tb .L3NeptuneCoefficients) T
        l4 := sumVSOP87Coefs (tb .L4NeptuneCoefficients) T
        b0 := sumVSOP87Coefs (tb .B0NeptuneCoefficients) T
        b1 := sumVSOP87Coefs (tb .B1NeptuneCoefficients) T
        b2 := sumVSOP87Coefs (tb .B2NeptuneCoefficients) T
        b3 := sumVSOP87Coefs (tb .B3NeptuneCoefficients) T
        b4 := sumVSOP87Coefs (tb .B4NeptuneCoefficients) T
        r0 := sumVSOP87Coefs (tb .R0NeptuneCoefficients) T
        r1 := sumVSOP87Coefs (tb .R1NeptuneCoefficients) T
        r2 := sumVSOP87Coefs (tb .R2NeptuneCoefficients) T
        r3 := sumVSOP87Coefs (tb .R3NeptuneCoefficients) T
      }
    | .other _ =>
      { l0 := nan, l1 := nan, l2 := nan, l3 := nan, l4 := nan, l5 := nan,
        b0 := nan, b1 := nan, b2 := nan, b3 := nan, b4 := nan, b5 := nan,
        r0 := nan, r1 := nan, r2 := nan, r3 := nan, r4 := nan, r5 := nan }
  let lon := (s.l0 + s.l1 * T + s.l2 * TSquared + s.l3 * TCubed + s.l4 * T4 + s.l5 * T5)
    / 100000000.0
  let lon := RADIANS_TO_DEGREES lon
  let lon := LIMIT_DEGREES_TO_360 lon
  let lat := (s.b0 + s.b1 * T + s.b2 * TSquared + s.b3 * TCubed + s.b4 * T4 + s.b5 * T5)
    / 100000000.0
  let lat := RADIANS_TO_DEGREES lat
  let radius := (s.r0 + s.r1 * T + s.r2 * TSquared + s.r3 * TCubed + s.r4 * T4 + s.r5 * T5)
    / 100000000.0
  { lon := lon, lat := lat, radius := radius }

/-- The coordinate a VSOP87 table contributes to: longitude, latitude or radius. -/
inductive SeriesKind where
  | L | B | R

/-- The tables `heliocentricCoordinatesForPlanetAndT` reads for a body and a coordinate, listed
by order (order 0 first), as the `case` of that body names them; the empty list for the Sun and
for a body that is not one of the nine.  It serves to state what the function computes. -/
def planetTables (tb : VSOP87Tables) :
    SolarSystemObjectIndex → SeriesKind → List (List VSOP87Coefficient)
  | .Mercury, .L =>
    [tb .L0MercuryCoefficients, tb .L1MercuryCoefficients, tb .L2MercuryCoefficients,
     tb .L3MercuryCoefficients, tb .L4MercuryCoefficients, tb .L5MercuryCoefficients]
  | .Mercury, .B =>
    [tb .B0MercuryCoefficients, tb .B1MercuryCoefficients, tb .B2MercuryCoefficients,
     tb .B3MercuryCoefficients, tb .B4MercuryCoefficients]
  | .Mercury, .R =>
    [tb .R0MercuryCoefficients, tb .R1MercuryCoefficients, tb .R2MercuryCoefficients,
     tb .R3MercuryCoefficients]
  | .Venus, .L =>
    [tb .L0VenusCoefficients, tb .L1VenusCoefficients, tb .L2VenusCoefficients,
     tb .L3VenusCoefficients, tb .L4VenusCoefficients, tb .L5VenusCoefficients]
  | .Venus, .B =>
    [tb .B0VenusCoefficients, tb .B1VenusCoefficients, tb .B2VenusCoefficients,
     tb .B3VenusCoefficients, tb .B4VenusCoefficients]
  | .Venus, .R =>
    [tb .R0VenusCoefficients, tb .R1VenusCoefficients, tb .R2VenusCoefficients,
     tb .R3VenusCoefficients, tb .R4VenusCoefficients]
  | .Earth, .L =>
    [tb .L0EarthCoefficients, tb .L1EarthCoefficients, tb .L2EarthCoefficients,
     tb .L3EarthCoefficients, tb .L4EarthCoefficients, tb .L5EarthCoefficients]
  | .Earth, .B =>
    [tb .B0EarthCoefficients, tb .B1EarthCoefficients]
  | .Earth, .R =>
    [tb .R0EarthCoefficients, tb .R1EarthCoefficients, tb .R2EarthCoefficients,
     tb .R3EarthCoefficients]
  | .Mars, .L =>
    [tb .L0MarsCoefficients, tb .L1MarsCoefficients, tb .L2MarsCoefficients,
     tb .L3MarsCoefficients, tb .L4MarsCoefficients, tb .L5MarsCoefficients]
  | .Mars, .B =>
    [tb .B0MarsCoefficients, tb .B1MarsCoefficients, tb .B2MarsCoefficients,
     tb .B3MarsCoefficients, tb .B4MarsCoefficients]
  | .Mars, .R =>
    [tb .R0MarsCoefficients, tb .R1MarsCoefficients, tb .R2MarsCoefficients,
     tb .R3MarsCoefficients, tb .R4MarsCoefficients]
  | .Jupiter, .L =>
    [tb .L0JupiterCoefficients, tb .L1JupiterCoefficients, tb .L2JupiterCoefficients,
     tb .L3JupiterCoefficients, tb .L4JupiterCoefficients, tb .L5JupiterCoefficients]
  | .Jupiter, .B =>
    [tb .B0JupiterCoefficients, tb .B1JupiterCoefficients, tb .B2JupiterCoefficients,
     tb .B3JupiterCoefficients, tb .B4JupiterCoefficients, tb .B5JupiterCoefficients]
  | .Jupiter, .R =>
    [tb .R0JupiterCoefficients, tb .R1JupiterCoefficients, tb .R2JupiterCoefficients,
     tb .R3JupiterCoefficients, tb .R4JupiterCoefficients, tb .R5JupiterCoefficients]
  | .Saturn, .L =>
    [tb .L0SaturnCoefficients, tb .L1SaturnCoefficients, tb .L2SaturnCoefficients,
     tb .L3SaturnCoefficients, tb .L4SaturnCoefficients, tb .L5SaturnCoefficients]
  | .Saturn, .B =>
    [tb .B0SaturnCoefficients, tb .B1SaturnCoefficients, tb .B2SaturnCoefficients,
     tb .B3SaturnCoefficients, tb .B4SaturnCoefficients, tb .B5SaturnCoefficients]
  | .Saturn, .R =>
    [tb .R0SaturnCoefficients, tb .R1SaturnCoefficients, tb .R2SaturnCoefficients,
     tb .R3SaturnCoefficients, tb .R4SaturnCoefficients, tb .R5SaturnCoefficients]
  | .Uranus, .L =>
    [tb .L0UranusCoefficients, tb .L1UranusCoefficients, tb .L2UranusCoefficients,
     tb .L3UranusCoefficients, tb .L4UranusCoefficients]
  | .Uranus, .B =>
    [tb .B0UranusCoefficients, tb .B1UranusCoefficients, tb .B2UranusCoefficients,
     tb .B3UranusCoefficients, tb .B4UranusCoefficients]
  | .Uranus, .R =>
    [tb .R0UranusCoefficients, tb .R1UranusCoefficients, tb .R2UranusCoefficients,
     tb .R3UranusCoefficients, tb .R4UranusCoefficients]
  | .Neptune, .L =>
    [tb .L0NeptuneCoefficients, tb .L1NeptuneCoefficients, tb .L2NeptuneCoefficients,
     tb .L3NeptuneCoefficients, tb .L4NeptuneCoefficients]
  | .Neptune, .B =>
    [tb .B0NeptuneCoefficients, tb .B1NeptuneCoefficients, tb .B2NeptuneCoefficients,
     tb .B3NeptuneCoefficients, tb .B4NeptuneCoefficients]
  | .Neptune, .R =>
    [tb .R0NeptuneCoefficients, tb .R1NeptuneCoefficients, tb .R2NeptuneCoefficients,
     tb .R3NeptuneCoefficients]
  | _, _ => []

/-- The sum of the table of order `k` at `T`, and `0` when the list has no table of that
order. -/
def orderSum (tables : List (List VSOP87Coefficient)) (k : ℕ) (T : CFloat) : CFloat :=
  match tables.get? k with
  | some table => sumVSOP87Coefs table T
  | none => 0

/-- The recombination `(s0 + s1*T + s2*T^2 + s3*T^3 + s4*T^4 + s5*T^5)/10^8` of the sums
`s0..s5` of the tables of orders 0 to 5, each evaluated at `T`. -/
def seriesPolynomial (tables : List (List VSOP87Coefficient)) (T : CFloat) : CFloat :=
  (orderSum tables 0 T + orderSum tables 1 T * T + orderSum tables 2 T * T ^ 2
    + orderSum tables 3 T * T ^ 3 + orderSum tables 4 T * T ^ 4 + orderSum tables 5 T * T ^ 5)
    / num (10 ^ 8)

/-- The tables that all hold the same list of terms `t`. -/
def VSOP87Tables.const (t : List VSOP87Coefficient) : VSOP87Tables :=
  fun _ => t

/-- Tables for concrete evaluations: every table empty, except the order-0 radius table of Mars,
whose single term has stored amplitude `10000` (true amplitude `10^8`), phase `0` and
frequency `0`.  With them Mars is at radius `1` and the Earth at radius `0`. -/
def sampleTables : VSOP87Tables
  | .R0MarsCoefficients => [⟨10000, 0, 0⟩]
  | _ => []

/-! ## Orbital elements, nutation and frame changes -/

/-- Struct `PlanetayOrbit`. -/
structure PlanetayOrbit where
  L : CFloat
  a : CFloat
  e : CFloat
  i : CFloat
  omega : CFloat
  pi : CFloat
  M : CFloat
  w : CFloat

/-- Function `planetayOrbitForPlanetAndT`.  `uninit` is the content of the local
`planetayOrbit` before the `switch`: the source does not initialise it, and the `default` label
leaves it as it is. -/
def planetayOrbitForPlanetAndT (uninit : PlanetayOrbit)
    (solarSystemObjectIndex : SolarSystemObjectIndex) (T : CFloat) : PlanetayOrbit :=
  let TSquared := T * T
  let TCubed := TSquared * T
  let planetayOrbit : PlanetayOrbit :=
    match solarSystemObjectIndex with
    | .Mercury =>
      { uninit with
        L := 252.250906 + 149474.0722491*T + 0.00030350*TSquared + 0.000000018*TCubed
        a := 0.387098310
        e := 0.20563175 + 0.000020407*T - 0.0000000283*TSquared - 0.00000000018*TCubed
        i := 7.004986 + 0.0018215*T - 0.00001810*TSquared + 0.000000056*TCubed
        omega := 48.330893 + 1.1861883*T + 0.00017542*TSquared + 0.000000215*TCubed
        pi := 77.456119 + 1.5564776*T + 0.00029544*TSquared + 0.000000009*TCubed
      }
    | .Venus =>
      { uninit with
        L := 181.979801 + 58519.2130302*T + 0.00031014*TSquared + 0.000000015*TCubed
        a := 0.723329820
        e := 0.00677192 - 0.000047765*T + 0.0000000981*TSquared + 0.00000000046*TCubed
        i := 3.394662 + 0.0010037*T - 0.00000088*TSquared - 0.000000007*TCubed
        omega := 76.679920 + 0.9011206*T + 0.00040618*TSquared - 0.000000093*TCubed
        pi := 131.563703 + 1.4022288*T - 0.00107618*TSquared - 0.000005678*TCubed
      }
    | .Earth =>
      { uninit with
        L := 100.466457 + 36000.7698278*T + 0.00030322*TSquared + 0.000000020*TCubed
        a := 1.000001018
        e := 0.01670863 - 0.000042037*T - 0.0000001267*TSquared + 0.00000000014*TCubed
        i := 0
        omega := nan
        pi := 102.937348 + 1.17195366*T + 0.00045688*TSquared - 0.000000018*TCubed
      }
    | .Mars =>
      { uninit with
        L := 355.433000 + 19141.6964471*T + 0.00031052*TSquared + 0.000000016*TCubed
        a := 1.523679342
        e := 0.09340065 + 0.000090484*T - 0.0000000806*TSquared - 0.00000000025*TCubed
        i := 1.849726 - 0.0006011*T + 0.00001276*TSquared - 0.000000007*TCubed
        omega := 49.588093 + 0.7720959*T + 0.00001557*TSquared + 0.000002267*TCubed
        pi := 336.060234 + 1.8410449*T + 0.00013477*TSquared + 0.000000536*TCubed
      }
    | .Jupiter =>
      { uninit with
        L := 34.351519 + 3036.3027748*T + 0.00022330*TSquared + 0.000000037*TCubed
        a := 5.202603209 + 0.0000001913*T
        e := 0.04849793 + 0.000163225*T - 0.0000004714*TSquared - 0.00000000201*TCubed
        i := 1.303267 - 0.0054965*T + 0.00000466*TSquared - 0.000000002*TCubed
        omega := 100.464407 + 1.0209774*T + 0.00040315*TSquared + 0.000000404*TCubed
        pi := 14.331207 + 1.6126352*T + 0.00103042*TSquared - 0.000004464*TCubed
      }
    | .Saturn =>
      { uninit with
        L := 50.077444 + 1223.5110686*T + 0.00051908*TSquared - 0.000000030*TCubed
        a := 9.554909192 - 0.0000021390*T + 0.000000004*TSquared
        e := 0.05554814 - 0.0003446641*T - 0.0000006436*TSquared + 0.00000000340*TCubed
        i := 2.488879 - 0.0037362*T - 0.00001519*TSquared + 0.000000087*TCubed
        omega := 113.665503 + 0.8770880*T - 0.00012176*TSquared - 0.000002249*TCubed
        pi := 93.057237 + 1.9637613*T + 0.00083753*TSquared + 0.000004928*TCubed
      }
    | .Uranus =>
      { uninit with
        L := 314.055005 + 429.8640561*T + 0.00030390*TSquared + 0.000000026*TCubed
        a := 19.218446062 - 0.0000000372*T + 0.00000000098*TSquared
        e := 0.04638122 - 0.000027293*T + 0.0000000789*TSquared + 0.00000000024*TCubed
        i := 0.773197 + 0.0007744*T + 0.00003749*TSquared - 0.000000092*TCubed
        omega := 74.005957 + 0.5211278*T + 0.00133947*TSquared + 0.000018484*TCubed
        pi := 173.005291 + 1.4863790*T + 0.00021406*TSquared + 0.000000434*TCubed
      }
    | .Neptune =>
      { uninit with
        L := 304.348665 + 219.8833092*T + 0.00030882*TSquared + 0.000000018*TCubed
        a := 30.110386869 - 0.0000001663*T + 0.00000000069*TSquared
        e := 0.00945575 + 0.000006033*T - 0.00000000005*TCubed
        i := 1.769953 - 0.0093082*T - 0.00000708*TSquared + 0.000000027*TCubed
        omega := 131.784057 + 1.1022039*T + 0.00025952*TSquared - 0.000000637*TCubed
        pi := 48.120276 + 1.4262957*T + 0.00038434*TSquared + 0.000000020*TCubed
      }
    | _ => uninit
  let L := LIMIT_DEGREES_TO_360 planetayOrbit.L
  let i := LIMIT_DEGREES_TO_360 planetayOrbit.i
  let omega := LIMIT_DEGREES_TO_360 planetayOrbit.omega
  let pi := LIMIT_DEGREES_TO_360 planetayOrbit.pi
  let M := L - pi
  let M := LIMIT_DEGREES_TO_360 M
  let w := pi - omega
  let w := LIMIT_DEGREES_TO_360 w
  { planetayOrbit with L := L, i := i, omega := omega, pi := pi, M := M, w := w }

/-- Function `obliquityAndNutationForT`: the returned obliquity, and the values `dObliquity`
and `dNutation` stored through `deltaObliquity` and `deltaNutation`.  Each use of `SIND` and
`COSD` is written as the preprocessor expands it: the argument text is followed by `*PI`
inside `sin((...)/180)`, without parentheses around the argument. -/
def obliquityAndNutationForT (T : CFloat) : CFloat × CFloat × CFloat :=
  let TSquared := T * T
  let TCubed := TSquared * T
  let Ls := 280.4565 + T*36000.7698 + TSquared*0.000303
  let Ls := LIMIT_DEGREES_TO_360 Ls
  let Lm := 218.3164 + T*481267.8812 - TSquared*0.001599
  let Lm := LIMIT_DEGREES_TO_360 Lm
  let Ms := 357.5291 + T*35999.0503 - TSquared*0.000154
  let Ms := LIMIT_DEGREES_TO_360 Ms
  let Mm := 134.9634 + T*477198.8675 + TSquared*0.008721
  let Mm := LIMIT_DEGREES_TO_360 Mm
  let omega := 125.0443 - T*1934.1363 + TSquared*0.008721
  let omega := LIMIT_DEGREES_TO_360 omega
  let dNutation :=
    -(17.1996 + 0.01742*T) * sin ((omega*PI)/180)
    -(1.3187 + 0.00016*T) * sin ((2*Ls*PI)/180)
    - 0.2274 * sin ((2*Lm*PI)/180)
    + 0.2062 * sin ((2*omega*PI)/180)
    +(0.1426 - 0.00034*T) * sin ((Ms*PI)/180)
    + 0.0712 * sin ((Mm*PI)/180)
    -(0.0517 - 0.00012*T) * sin ((2*Ls+Ms*PI)/180)
    - 0.0386 * sin ((2*Lm-omega*PI)/180)
    - 0.0301 * sin ((2*Lm+Mm*PI)/180)
    + 0.0217 * sin ((2*Ls-Ms*PI)/180)
    - 0.0158 * sin ((2*Ls-2*Lm+Mm*PI)/180)
    + 0.0129 * sin ((2*Ls-omega*PI)/180)
    + 0.0123 * sin ((2*Lm-Mm*PI)/180)
  let dObliquity :=
    (9.2025 + 0.00089*T) * cos ((omega*PI)/180)
    +(0.5736 - 0.00031*T) * cos ((2*Ls*PI)/180)
    + 0.0977 * cos ((2*Lm*PI)/180)
    - 0.0895 * cos ((2*omega*PI)/180)
    + 0.0224 * cos ((2*Ls+Ms*PI)/180)
    + 0.0200 * cos ((2*Lm-omega*PI)/180)
    + 0.0129 * cos ((2*Lm + Mm*PI)/180)
    - 0.0095 * cos ((2*Ls-Ms*PI)/180)
    - 0.0070 * cos ((2*Ls-omega*PI)/180)
  let eps0 := DEGREES_MINUTES_SECONDES_TO_SECONDS 23 26 21.448
    - T*46.8150 - TSquared*0.00059 + TCubed*0.001813
  let obliquity := eps0 + dObliquity
  let obliquity := SECONDS_TO_DECIMAL_DEGREES obliquity
  (obliquity, dObliquity, dNutation)

/-- The two nutation series as the specification words them: the series of
`obliquityAndNutationForT` in which every sine and cosine takes its complete argument, the
whole combination of `Ls`, `Lm`, `Ms`, `Mm` and `omega`, in degrees.  The result is the pair of
the nutation in obliquity and the nutation in longitude. -/
def nutationSeriesSpec (T : CFloat) : CFloat × CFloat :=
  let TSquared := T * T
  let Ls := 280.4565 + T*36000.7698 + TSquared*0.000303
  let Ls := LIMIT_DEGREES_TO_360 Ls
  let Lm := 218.3164 + T*481267.8812 - TSquared*0.001599
  let Lm := LIMIT_DEGREES_TO_360 Lm
  let Ms := 357.5291 + T*35999.0503 - TSquared*0.000154
  let Ms := LIMIT_DEGREES_TO_360 Ms
  let Mm := 134.9634 + T*477198.8675 + TSquared*0.008721
  let Mm := LIMIT_DEGREES_TO_360 Mm
  let omega := 125.0443 - T*1934.1363 + TSquared*0.008721
  let omega := LIMIT_DEGREES_TO_360 omega
  let dNutation :=
    -(17.1996 + 0.01742*T) * SIND omega
    -(1.3187 + 0.00016*T) * SIND (2*Ls)
    - 0.2274 * SIND (2*Lm)
    + 0.2062 * SIND (2*omega)
    +(0.1426 - 0.00034*T) * SIND Ms
    + 0.0712 * SIND Mm
    -(0.0517 - 0.00012*T) * SIND (2*Ls+Ms)
    - 0.0386 * SIND (2*Lm-omega)
    - 0.0301 * SIND (2*Lm+Mm)
    + 0.0217 * SIND (2*Ls-Ms)
    - 0.0158 * SIND (2*Ls-2*Lm+Mm)
    + 0.0129 * SIND (2*Ls-omega)
    + 0.0123 * SIND (2*Lm-Mm)
  let dObliquity :=
    (9.2025 + 0.00089*T) * COSD omega
    +(0.5736 - 0.00031*T) * COSD (2*Ls)
    + 0.0977 * COSD (2*Lm)
    - 0.0895 * COSD (2*omega)
    + 0.0224 * COSD (2*Ls+Ms)
    + 0.0200 * COSD (2*Lm-omega)
    + 0.0129 * COSD (2*Lm + Mm)
    - 0.0095 * COSD (2*Ls-Ms)
    - 0.0070 * COSD (2*Ls-omega)
  (dObliquity, dNutation)

/-- Struct `EquatorialCoordinates`. -/
structure EquatorialCoordinates where
  ra : CFloat
  dec : CFloat

/-- Struct `RectangularCoordinates`. -/
structure RectangularCoordinates where
  x : CFloat
  y : CFloat
  z : CFloat

/-- Struct `GeocentricCoordinates`. -/
structure GeocentricCoordinates where
  lon : CFloat
  lat : CFloat

/-- Function `EclipticToEquatorial`. -/
def EclipticToEquatorial (lambda beta epsilon : CFloat) : EquatorialCoordinates :=
  let lambda := DEGREES_TO_RADIANS lambda
  let beta := DEGREES_TO_RADIANS beta
  let epsilon := DEGREES_TO_RADIANS epsilon
  let ra := atan2 (sin lambda * cos epsilon - tan beta * sin epsilon) (cos lambda)
  let ra := RADIANS_TO_HOURS ra
  let ra := LIMIT_HOURS_TO_24 ra
  let dec := asin (sin beta * cos epsilon + cos beta * sin epsilon * sin lambda)
  let dec := RADIANS_TO_DEGREES dec
  { ra := ra, dec := dec }

/-- Function `HeliocentricToRectangular`. -/
def HeliocentricToRectangular (hc hc0 : HeliocentricCoordinates) : RectangularCoordinates :=
  { x := hc.radius * COSD hc.lat * COSD hc.lon - hc0.radius * COSD hc0.lat * COSD hc0.lon
    y := hc.radius * COSD hc.lat * SIND hc.lon - hc0.radius * COSD hc0.lat * SIND hc0.lon
    z := hc.radius * SIND hc.lat - hc0.radius * SIND hc0.lat }

/-! ## Geocentric position of a planet -/

/-- Struct `JulianDay` (declared by the calendar component, which is not part of the source
file): an integer day count and the fraction of the day. -/
structure JulianDay where
  day : ℤ
  time : CFloat

/-- The variables of `equatorialCoordinatesForPlanetAtJD` that its light-time loop reads or
writes, the content `distance` of the cell the pointer `distance` designates, and the number
`passes` of times the loop body has been entered (a counter added for the statements below; the
code does not read it). -/
structure LightTimeState where
  T : CFloat
  lastT : CFloat
  TLight : CFloat
  hcPlanet : HeliocentricCoordinates
  hcEarth : HeliocentricCoordinates
  rectPlanet : RectangularCoordinates
  x2 : CFloat
  y2 : CFloat
  z2 : CFloat
  distance : CFloat
  passes : ℕ

/-- What `equatorialCoordinatesForPlanetAtJD` finds in the variables it declares without an
initial value (`hcPlanet`, `hcEarth`, `rectPlanet`, `x2`, `y2`, `z2`) and in the cell
`distance` points to. -/
structure Uninitialised where
  hcPlanet : HeliocentricCoordinates
  hcEarth : HeliocentricCoordinates
  rectPlanet : RectangularCoordinates
  x2 : CFloat
  y2 : CFloat
  z2 : CFloat
  distance : CFloat

/-- The state of `equatorialCoordinatesForPlanetAtJD` when it reaches its `while` loop. -/
def lightTimeInit (jd : JulianDay) (u : Uninitialised) : LightTimeState :=
  { T := (ofInt jd.day - 2451545.0 + jd.time) / 36525
    lastT := 0
    TLight := 0
    hcPlanet := u.hcPlanet
    hcEarth := u.hcEarth
    rectPlanet := u.rectPlanet
    x2 := u.x2
    y2 := u.y2
    z2 := u.z2
    distance := u.distance
    passes := 0 }

/-- One pass through the body of the `while` loop: the state it leaves, and whether it left
through `break`. -/
def lightTimeBody (tb : VSOP87Tables) (solarSystemObjectIndex : SolarSystemObjectIndex)
    (jd : JulianDay) (s : LightTimeState) : LightTimeState × Bool :=
  let lastT := s.T
  let jd2 := (ofInt jd.day + jd.time) - s.TLight
  let T := (jd2 - 2451545.0) / 36525
  let hcPlanet := heliocentricCoordinatesForPlanetAndT tb solarSystemObjectIndex T
  if isnan hcPlanet.radius then
    ({ s with lastT := lastT, T := T, hcPlanet := hcPlanet, passes := s.passes + 1 }, true)
  else
    let hcEarth := heliocentricCoordinatesForPlanetAndT tb .Earth T
    let rectPlanet := HeliocentricToRectangular hcPlanet hcEarth
    let x2 := rectPlanet.x * rectPlanet.x
    let y2 := rectPlanet.y * rectPlanet.y
    let z2 := rectPlanet.z * rectPlanet.z
    let delta := sqrt (x2 + y2 + z2)
    ({ T := T, lastT := lastT, TLight := delta * 0.0057755183, hcPlanet := hcPlanet,
       hcEarth := hcEarth, rectPlanet := rectPlanet, x2 := x2, y2 := y2, z2 := z2,
       distance := delta, passes := s.passes + 1 }, false)

/-- The loop `while (T != lastT) { ... }`, run for at most `fuel` evaluations of its condition:
`none` when they do not suffice. -/
def lightTimeLoop (tb : VSOP87Tables) (solarSystemObjectIndex : SolarSystemObjectIndex)
    (jd : JulianDay) : ℕ → LightTimeState → Option LightTimeState
  | 0, _ => none
  | fuel + 1, s =>
    if CFloat.ne s.T s.lastT then
      let r := lightTimeBody tb solarSystemObjectIndex jd s
      if r.2 then some r.1 else lightTimeLoop tb solarSystemObjectIndex jd fuel r.1
    else some s

/-- What a call of `equatorialCoordinatesForPlanetAtJD` with two non-null pointers leaves: the
returned coordinates, the contents of the cells `distance` and `gCoordinates` point to, and the
number of passes made through the loop body. -/
structure PlanetPosition where
  coordinates : EquatorialCoordinates
  distance : CFloat
  gCoordinates : GeocentricCoordinates
  passes : ℕ

/-- The part of `equatorialCoordinatesForPlanetAtJD` that follows the loop.  The uses of `COSD`
and `SIND` on a difference are written as the preprocessor expands them. -/
def planetPositionAfterLoop (s : LightTimeState) : PlanetPosition :=
  let T := s.T
  let rectPlanet := s.rectPlanet
  let lambda := atan2 rectPlanet.y rectPlanet.x
  let lambda := RADIANS_TO_DEGREES lambda
  let lambda := LIMIT_DEGREES_TO_360 lambda
  let beta := rectPlanet.z / sqrt (s.x2 + s.y2)
  let beta := RADIANS_TO_DEGREES beta
  let earthOrbit := planetayOrbitForPlanetAndT ⟨nan, nan, nan, nan, nan, nan, nan, nan⟩ .Earth T
  let TSquared := T * T
  let L0 := 280.46646 + T*36000.76983 + TSquared*0.0003032
  let L0 := LIMIT_DEGREES_TO_360 L0
  let M := 357.52911 + T*35999.05029 - TSquared*0.0001537
  let M := LIMIT_DEGREES_TO_360 M
  let C :=
    (1.914602 - T*0.004817 - TSquared*0.000014) * sin ((M*PI)/180)
    +(0.019993 - T*0.000101 ) * sin ((2*M*PI)/180)
    + 0.000289 * sin ((3*M*PI)/180)
  let O := L0 + C
  let k : CFloat := 20.49552
  let xAberration := (-k*cos ((O - lambda*PI)/180)
    + earthOrbit.e*k*cos ((earthOrbit.pi - lambda*PI)/180)) / cos ((beta*PI)/180)/3600
  let yAberration := -k*sin ((beta*PI)/180)*(sin ((O - lambda*PI)/180)
    - earthOrbit.e*sin ((earthOrbit.pi - lambda*PI)/180))/3600
  let lambda := lambda - xAberration
  let beta := beta - yAberration
  let gCoordinates : GeocentricCoordinates := { lon := lambda, lat := beta }
  let obl := obliquityAndNutationForT T
  let epsilon := obl.1
  let deltaNutation := obl.2.2
  let lambda := lambda + deltaNutation / 3600
  { coordinates := EclipticToEquatorial lambda beta epsilon
    distance := s.distance
    gCoordinates := gCoordinates
    passes := s.passes }

/-- The lines of `equatorialCoordinatesForPlanetAtJD` that compute the geocentric latitude
before the aberration is removed: `beta = rectPlanet.z/sqrtf(x2+y2)`, then
`beta = RADIANS_TO_DEGREES(beta)`. -/
def geocentricLatitude (rectPlanet : RectangularCoordinates) (x2 y2 : CFloat) : CFloat :=
  let beta := rectPlanet.z / sqrt (x2 + y2)
  RADIANS_TO_DEGREES beta

/-- The lines of `equatorialCoordinatesForPlanetAtJD` under "Remove aberration": the values of
`xAberration` and `yAberration` at the epoch `T`, for the geocentric longitude `lambda` and
latitude `beta`.  The uses of `COSD` and `SIND` on a difference are written as the preprocessor
expands them, as in `planetPositionAfterLoop`. -/
def planetAberration (T lambda beta : CFloat) : CFloat × CFloat :=
  let earthOrbit := planetayOrbitForPlanetAndT ⟨nan, nan, nan, nan, nan, nan, nan, nan⟩ .Earth T
  let TSquared := T * T
  let L0 := 280.46646 + T*36000.76983 + TSquared*0.0003032
  let L0 := LIMIT_DEGREES_TO_360 L0
  let M := 357.52911 + T*35999.05029 - TSquared*0.0001537
  let M := LIMIT_DEGREES_TO_360 M
  let C :=
    (1.914602 - T*0.004817 - TSquared*0.000014) * sin ((M*PI)/180)
    +(0.019993 - T*0.000101 ) * sin ((2*M*PI)/180)
    + 0.000289 * sin ((3*M*PI)/180)
  let O := L0 + C
  let k : CFloat := 20.49552
  let xAberration := (-k*cos ((O - lambda*PI)/180)
    + earthOrbit.e*k*cos ((earthOrbit.pi - lambda*PI)/180)) / cos ((beta*PI)/180)/3600
  let yAberration := -k*sin ((beta*PI)/180)*(sin ((O - lambda*PI)/180)
    - earthOrbit.e*sin ((earthOrbit.pi - lambda*PI)/180))/3600
  (xAberration, yAberration)

/-- The aberration terms as the specification words them: the formulas of `planetAberration`
in which every sine and cosine takes its complete argument, the difference of the two angles,
in degrees. -/
def planetAberrationSpec (T lambda beta : CFloat) : CFloat × CFloat :=
  let earthOrbit := planetayOrbitForPlanetAndT ⟨nan, nan, nan, nan, nan, nan, nan, nan⟩ .Earth T
  let TSquared := T * T
  let L0 := 280.46646 + T*36000.76983 + TSquared*0.0003032
  let L0 := LIMIT_DEGREES_TO_360 L0
  let M := 357.52911 + T*35999.05029 - TSquared*0.0001537
  let M := LIMIT_DEGREES_TO_360 M
  let C :=
    (1.914602 - T*0.004817 - TSquared*0.000014) * SIND M
    +(0.019993 - T*0.000101 ) * SIND (2*M)
    + 0.000289 * SIND (3*M)
  let O := L0 + C
  let k : CFloat := 20.49552
  let xAberration := (-k*COSD (O - lambda)
    + earthOrbit.e*k*COSD (earthOrbit.pi - lambda)) / COSD beta/3600
  let yAberration := -k*SIND beta*(SIND (O - lambda)
    - earthOrbit.e*SIND (earthOrbit.pi - lambda))/3600
  (xAberration, yAberration)

/-- Function `equatorialCoordinatesForPlanetAtJD`, called with non-null `distance` and
`gCoordinates`, its loop run with `fuel`: `none` when the loop has not ended by then. -/
def equatorialCoordinatesForPlanetAtJD (tb : VSOP87Tables) (fuel : ℕ)
    (solarSystemObjectIndex : SolarSystemObjectIndex) (jd : JulianDay) (u : Uninitialised) :
    Option PlanetPosition :=
  (lightTimeLoop tb solarSystemObjectIndex jd fuel (lightTimeInit jd u)).map
    planetPositionAfterLoop


/-- Contents of the uninitialised variables for concrete evaluations: the rectangular vector
`(1, 0, 0)` with `x2 = 1`, `y2 = 0`, `z2 = 0`, and `0` everywhere else. -/
def sampleUninit : Uninitialised :=
  { hcPlanet := ⟨0, 0, 0⟩
    hcEarth := ⟨0, 0, 0⟩
    rectPlanet := ⟨1, 0, 0⟩
    x2 := 1
    y2 := 0
    z2 := 0
    distance := 0 }

/-! ## Sidereal time, the Sun, the horizon and the position of a body -/

/-- Conversion of an `unsigned int` to floating point. -/
def CFloat.ofUInt (n : ℕ) : CFloat := num (n : ℝ)

/-- Macro `DEGREES_TO_FLOATING_HOURS(value)`: `(value/15.0)`. -/
def DEGREES_TO_FLOATING_HOURS (value : CFloat) : CFloat := value / 15.0

/-- Macro `HOURS_MINUTES_SECONDS_TO_SECONDS(hour,min,sec)`:
`((float)hour*3600+(float)min*60+(float)sec)`. -/
def HOURS_MINUTES_SECONDS_TO_SECONDS (hour min sec : CFloat) : CFloat :=
  hour * 3600 + min * 60 + sec

/-- Macro `SECONDS_TO_DECIMAL_HOURS(value)`: `((float)value/3600)`. -/
def SECONDS_TO_DECIMAL_HOURS (value : CFloat) : CFloat := value / 3600

/-- The two functions of the calendar component that the source file calls,
`Calendar::julianDayForDate(day, month, year)` and
`Calendar::julianDayForDateAndTime(day, month, year, hours, minutes, seconds)`.  The component
is not part of the source file: it is a parameter of the functions that call it. -/
structure Calendar where
  julianDayForDate : ℕ → ℕ → ℕ → JulianDay
  julianDayForDateAndTime : ℕ → ℕ → ℕ → ℕ → ℕ → ℕ → JulianDay

/-- Function `apparentSideralTime`. -/
def apparentSideralTime (cal : Calendar) (day month year hours minutes seconds : ℕ) : CFloat :=
  let jd := cal.julianDayForDate day month year
  let T := (ofInt jd.day - 2451545.0 + jd.time) / 36525
  let TSquared := T * T
  let TCubed := TSquared * T
  let theta0 := 100.46061837 + T*36000.770053608 + TSquared*0.000387933 - TCubed/38710000
  let theta0 := LIMIT_DEGREES_TO_360 theta0
  let theta0 := DEGREES_TO_FLOATING_HOURS theta0
  let time := HOURS_MINUTES_SECONDS_TO_DECIMAL_HOURS (ofUInt hours) (ofUInt minutes)
    (ofUInt seconds)
  let apparentSideralTime := theta0 + 1.00273790935 * time
  LIMIT_HOURS_TO_24 apparentSideralTime

/-- Function `equatorialCoordinatesForSunAtJD`, called with a non-null `distance`: the returned
coordinates and the value stored through `distance`.  The parameter `gCoordinates` is not used
by the function. -/
def equatorialCoordinatesForSunAtJD (jd : JulianDay) : EquatorialCoordinates × CFloat :=
  let T := (ofInt jd.day - 2451545.0 + jd.time) / 36525
  let TSquared := T * T
  let L0 := 280.46646 + T*36000.76983 + TSquared*0.0003032
  let L0 := LIMIT_DEGREES_TO_360 L0
  let M := 357.52911 + T*35999.05029 - TSquared*0.0001537
  let M := LIMIT_DEGREES_TO_360 M
  let e := 0.016708634 - T*0.000042037 - TSquared*0.0000001267
  let C :=
    (1.914602 - T*0.004817 - TSquared*0.000014) * sin ((M*PI)/180)
    +(0.019993 - T*0.000101 ) * sin ((2*M*PI)/180)
    + 0.000289 * sin ((3*M*PI)/180)
  let O := L0 + C
  let v := M + C
  let Av := 351.52 + 22518.4428*T
  let Bv := 253.14 + 45036.8857*T
  let Cj := 157.23 + 32964.4673*T
  let Dm := 297.85 + 445267.1117*T
  let E := 252.08 + 20.19 *T
  let O := O + (
    0.00134 * cos ((Av*PI)/180)
    + 0.00153 * cos ((Bv*PI)/180)
    + 0.00200 * cos ((Cj*PI)/180)
    + 0.00180 * sin ((Dm*PI)/180)
    + 0.00196 * sin ((E*PI)/180))
  let distance := (1.000001018*(1-e*e))/(1+e*cos ((v*PI)/180))
  let omega := 125.04 - 1934.136*T
  let lambda := O - 0.00569 - 0.00478 * sin ((omega*PI)/180)
  let eps := (obliquityAndNutationForT T).1
  let eps := eps + 0.00256*cos ((omega*PI)/180)
  let ra := atan (cos ((eps*PI)/180)*tan ((lambda*PI)/180))*12/PI
  let ra := LIMIT_HOURS_TO_24 ra
  let dec := asin (sin ((eps*PI)/180)*sin ((lambda*PI)/180))*180.0/PI
  ({ ra := ra, dec := dec }, distance)

/-- Struct `HorizontalCoordinates`. -/
structure HorizontalCoordinates where
  azi : CFloat
  alt : CFloat

/-- Function `equatorialToHorizontal`. -/
def equatorialToHorizontal (H delta phi : CFloat) : HorizontalCoordinates :=
  let azi := atan2 (SIND H) (COSD H * SIND phi - TAND delta * COSD phi)
  let azi := RADIANS_TO_DEGREES azi + 180
  let azi := LIMIT_DEGREES_TO_360 azi
  let alt := asin (SIND phi * SIND delta + COSD phi * COSD delta * COSD H)
  let alt := RADIANS_TO_DEGREES alt
  { azi := azi, alt := alt }

/-- Function `meanGreenwichSiderealTimeAtDateAndTime`. -/
def meanGreenwichSiderealTimeAtDateAndTime (cal : Calendar)
    (day month year hours minutes seconds : ℕ) : CFloat :=
  let jd0 := cal.julianDayForDateAndTime day month year 0 0 0
  let T0 := ofInt jd0.day / 36525.0 - 2451545.0 / 36525.0 + jd0.time / 36525.0
  let T0Squared := T0 * T0
  let T0Cubed := T0Squared * T0
  let theta0 := 100.46061837 + (36000.770053608*T0) + (0.000387933*T0Squared)
    - (T0Cubed/38710000)
  let theta0 := LIMIT_DEGREES_TO_360 theta0
  let theta0 := DEGREES_TO_FLOATING_HOURS theta0
  let thetaH := 1.00273790935 * HOURS_MINUTES_SECONDS_TO_SECONDS (ofUInt hours)
    (ofUInt minutes) (ofUInt seconds)
  let thetaH := SECONDS_TO_DECIMAL_HOURS thetaH
  let meanGreenwichSiderealTime := theta0 + thetaH
  LIMIT_HOURS_TO_24 meanGreenwichSiderealTime

/-- The two static variables `latitudeOnEarth` and `longitudeOnEarth`, the observer's
coordinates on Earth. -/
structure ObserverLocation where
  latitudeOnEarth : CFloat
  longitudeOnEarth : CFloat

/-- The initial value of the two static variables: `NAN`. -/
def initialObserver : ObserverLocation :=
  { latitudeOnEarth := nan, longitudeOnEarth := nan }

/-- Function `setLocationOnEarth(floatingLatitude, floatingLongitude)`: the static variables
after the call. -/
def setLocationOnEarth (floatingLatitude floatingLongitude : CFloat) : ObserverLocation :=
  { latitudeOnEarth := floatingLatitude, longitudeOnEarth := floatingLongitude }

/-- Function `setLocationOnEarth` with six parameters, degrees, minutes and seconds of the
latitude and of the longitude: the static variables after the call. -/
def setLocationOnEarthDMS (latDegrees latMinutes latSeconds lonDegrees lonMinutes
    lonSeconds : CFloat) : ObserverLocation :=
  { latitudeOnEarth :=
      DEGREES_MINUTES_SECONDS_TO_DECIMAL_DEGREES latDegrees latMinutes latSeconds
    longitudeOnEarth :=
      DEGREES_MINUTES_SECONDS_TO_DECIMAL_DEGREES lonDegrees lonMinutes lonSeconds }

/-- Struct `SolarSystemObject`. -/
structure SolarSystemObject where
  equaCoordinates : EquatorialCoordinates
  horiCoordinates : HorizontalCoordinates
  diameter : CFloat
  distance : CFloat

/-- The `switch` of `solarSystemObjectAtDateAndTime` that sets `diameter`, which is
initialised to `0` and kept for an identifier that has no `case`. -/
def apparentDiameterAtOneAU : SolarSystemObjectIndex → CFloat
  | .Mercury => 6.728
  | .Venus => 16.688
  | .Earth => nan
  | .Mars => 9.364
  | .Jupiter => 197.146
  | .Saturn => 166.197
  | .Uranus => 70.476
  | .Neptune => 68.285
  | .Sun => 1919.26
  | .other _ => 0

/-- The part of `solarSystemObjectAtDateAndTime` that follows the computation of the equatorial
coordinates `equaCoordinates` and of the distance `distance`: the diameter, the sidereal time
and the horizontal coordinates. -/
def solarSystemObjectFrom (cal : Calendar) (obs : ObserverLocation)
    (solarSystemObjectIndex : SolarSystemObjectIndex)
    (day month year hours minutes seconds : ℕ)
    (equaCoordinates : EquatorialCoordinates) (distance : CFloat) : SolarSystemObject :=
  let jd := cal.julianDayForDateAndTime day month year hours minutes seconds
  let T := ofInt jd.day / 36525.0 - 2451545.0 / 36525.0 + jd.time / 36525.0
  let diameter := apparentDiameterAtOneAU solarSystemObjectIndex
  let diameter := diameter / distance / 60
  let meanSideralTime :=
    meanGreenwichSiderealTimeAtDateAndTime cal day month year hours minutes seconds
  let obl := obliquityAndNutationForT T
  let deltaNutation := obl.2.2
  let epsilon := obl.1
  let theta0 := meanSideralTime + (deltaNutation / 15 * COSD epsilon) / 3600
  let horiCoordinates : HorizontalCoordinates :=
    if isnan obs.longitudeOnEarth = false ∧ isnan obs.latitudeOnEarth = false then
      let L := DEGREES_TO_FLOATING_HOURS obs.longitudeOnEarth
      let phi := obs.latitudeOnEarth
      let H := (theta0 - L - equaCoordinates.ra) * 15
      equatorialToHorizontal H equaCoordinates.dec phi
    else
      { alt := nan, azi := nan }
  { equaCoordinates := equaCoordinates
    horiCoordinates := horiCoordinates
    diameter := diameter
    distance := distance }

/-- Function `solarSystemObjectAtDateAndTime`, with the static variables `obs`, the light-time
loop of `equatorialCoordinatesForPlanetAtJD` run with `fuel`, and `u` for what that function
finds in its uninitialised variables and in `solarSystemObject.distance`: `none` when the loop
has not ended with that fuel. -/
def solarSystemObjectAtDateAndTime (cal : Calendar) (tb : VSOP87Tables)
    (obs : ObserverLocation) (fuel : ℕ) (u : Uninitialised)
    (solarSystemObjectIndex : SolarSystemObjectIndex)
    (day month year hours minutes seconds : ℕ) : Option SolarSystemObject :=
  let jd := cal.julianDayForDateAndTime day month year hours minutes seconds
  let equatorial : Option (EquatorialCoordinates × CFloat) :=
    match solarSystemObjectIndex with
    | .Sun => some (equatorialCoordinatesForSunAtJD jd)
    | _ =>
      (equatorialCoordinatesForPlanetAtJD tb fuel solarSystemObjectIndex jd u).map
        (fun p => (p.coordinates, p.distance))
  equatorial.map fun ed =>
    solarSystemObjectFrom cal obs solarSystemObjectIndex day month year hours minutes seconds
      ed.1 ed.2

/-- The calendar that gives the Julian Day `jd` to every date, and to every date and time. -/
def Calendar.const (jd : JulianDay) : Calendar :=
  { julianDayForDate := fun _ _ _ => jd
    julianDayForDateAndTime := fun _ _ _ _ _ _ => jd }

/-- A calendar for concrete evaluations: every Julian Day is `jd.day = 2451546`,
`jd.time = 0`, one day after J2000.0. -/
def sampleCalendar : Calendar := Calendar.const ⟨2451546, 0⟩

/-- A calendar for concrete evaluations at J2000.0: the Julian Day of a date, and of a date at
0h 0m 0s, is `2451544` and half a day; the Julian Day of a date at any other time is `2451545`
with no fraction, the one of 1 January 2000 at 12h. -/
def j2000Calendar : Calendar :=
  { julianDayForDate := fun _ _ _ => ⟨2451544, 0.5⟩
    julianDayForDateAndTime := fun _ _ _ hours minutes seconds =>
      if hours = 0 ∧ minutes = 0 ∧ seconds = 0 then ⟨2451544, 0.5⟩ else ⟨2451545, 0⟩ }

/-! ## Single precision -/

/-- Rounding of a real number to the nearest integer, a tie going to the even neighbour
(the rounding of the significand in IEEE 754 round-to-nearest-even). -/
def roundHalfEven (y : ℝ) : ℤ :=
  if Int.fract y < 1 / 2 then ⌊y⌋
  else if 1 / 2 < Int.fract y then ⌊y⌋ + 1
  else if Even ⌊y⌋ then ⌊y⌋ else ⌊y⌋ + 1

/-- Exponent of the unit in the last place of the binary32 numbers around `x`: a 24-bit
significand, and the fixed exponent `-149` below the smallest normal number `2 ^ (-126)`. -/
def f32Exponent (x : ℝ) : ℤ := max (Int.log 2 |x|) (-126) - 23

/-- The value a C `float` (IEEE 754 binary32, as on x86-64 and on the Arduino boards) holds
after a store or a single-precision operation whose exact result is `x`: the nearest
multiple of the unit in the last place, ties to even. The exponent has no upper limit here:
a result of magnitude `2 ^ 128` or more, which the machine turns into an infinity, stays
finite, and the statements below keep away from that range. -/
def roundF32 (x : ℝ) : ℝ := roundHalfEven (x / 2 ^ f32Exponent x) * 2 ^ f32Exponent x

namespace Single

/-! The functions below follow the source on the platform where `float` is binary32 and
`double` is wider (x86-64, gcc): an operation between `float` and integer operands is carried
out in single precision and rounds; the functions of `math.h` applied to a `float` return a
`float`; an expression that contains a `double` operand (the constant `PI`, a decimal
literal) is evaluated in double precision, taken here as exact, and rounds once, when its
value is stored in a `float`.  The functions of `math.h` are taken as correctly rounded.
The machine integers are the integers. -/

/-- The constant `PI` of the source. -/
def PI : ℝ := 3.1415926535

/-- Conversion of a `float` to `long`, `int` or `unsigned int`: the fraction is discarded. -/
def toLong (y : ℝ) : ℤ := if 0 ≤ y then ⌊y⌋ else ⌈y⌉

/-- Macro `LIMIT_HOURS_TO_24(value)`, `value >= 0 ? (value-(long)(value/24)*24) : value+24`,
applied to a `float` variable: the division, the conversion of the `long` product to `float`,
the subtraction and the addition are single-precision operations. -/
def LIMIT_HOURS_TO_24 (value : ℝ) : ℝ :=
  if 0 ≤ value then
    roundF32 (value - roundF32 ((toLong (roundF32 (value / 24)) * 24 : ℤ) : ℝ))
  else roundF32 (value + 24)

/-- Macro `LIMIT_DEGREES_TO_360(value)`,
`value >= 0 ? (value-(long)(value/360)*360) : ((value-(long)(value/360)*360)+360)`,
applied to a `float` variable. -/
def LIMIT_DEGREES_TO_360 (value : ℝ) : ℝ :=
  if 0 ≤ value then
    roundF32 (value - roundF32 ((toLong (roundF32 (value / 360)) * 360 : ℤ) : ℝ))
  else
    roundF32 (roundF32 (value - roundF32 ((toLong (roundF32 (value / 360)) * 360 : ℤ) : ℝ))
      + 360)

/-- Macro `HOURS_MINUTES_SECONDS_TO_DECIMAL_HOURS(hour,min,sec)`,
`((float)hour+(float)min/60+(float)sec/3600)`, applied to three `unsigned int` variables. -/
def HOURS_MINUTES_SECONDS_TO_DECIMAL_HOURS (hour min sec : ℕ) : ℝ :=
  roundF32 (roundF32 (roundF32 hour + roundF32 (roundF32 min / 60))
    + roundF32 (roundF32 sec / 3600))

/-- The last three statements of `apparentSideralTime`, from the value `theta0` its variable
`theta0` holds (the sidereal time at 0h of the date, in hours):
`float time = HOURS_MINUTES_SECONDS_TO_DECIMAL_HOURS(hours,minutes,seconds);`
`float apparentSideralTime = theta0 + 1.00273790935 * time;`
`apparentSideralTime = LIMIT_HOURS_TO_24(apparentSideralTime);`. -/
def apparentSideralTimeFrom (theta0 : ℝ) (hours minutes seconds : ℕ) : ℝ :=
  let time := HOURS_MINUTES_SECONDS_TO_DECIMAL_HOURS hours minutes seconds
  let apparentSideralTime := roundF32 (theta0 + 1.00273790935 * time)
  LIMIT_HOURS_TO_24 apparentSideralTime

/-- Function `floatingHoursToHoursMinutesSeconds`: the values stored through the three output
pointers `(hours, minutes, seconds)`.  Each product of the `float` by `60` or `3600`, each
conversion of an `int` product and each subtraction is a single-precision operation. -/
def floatingHoursToHoursMinutesSeconds (floatingHours : ℝ) : ℤ × ℤ × ℝ :=
  if 0 ≤ floatingHours then
    let hours := toLong floatingHours
    let minutes :=
      toLong (roundF32 (roundF32 (floatingHours * 60) - roundF32 ((hours * 60 : ℤ) : ℝ)))
    let seconds :=
      roundF32 (roundF32 (roundF32 (floatingHours * 3600) - roundF32 ((hours * 3600 : ℤ) : ℝ))
        - roundF32 ((minutes * 60 : ℤ) : ℝ))
    (hours, minutes, seconds)
  else
    let floatingHours := roundF32 (floatingHours * -1)
    let hours := toLong floatingHours
    let minutes :=
      toLong (roundF32 (roundF32 (floatingHours * 60) - roundF32 ((hours * 60 : ℤ) : ℝ)))
    let seconds :=
      roundF32 (roundF32 (roundF32 (floatingHours * 3600) - roundF32 ((hours * 3600 : ℤ) : ℝ))
        - roundF32 ((minutes * 60 : ℤ) : ℝ))
    (hours * -1, minutes, seconds)

/-- Function `floatingDegreesToDegreesMinutesSeconds`: the values stored through the three
output pointers `(degree, minute, second)`. -/
def floatingDegreesToDegreesMinutesSeconds (floatintDegrees : ℝ) : ℤ × ℤ × ℝ :=
  if 0 ≤ floatintDegrees then
    let degree := toLong floatintDegrees
    let minute :=
      toLong (roundF32 (roundF32 (floatintDegrees * 60) - roundF32 ((degree * 60 : ℤ) : ℝ)))
    let second :=
      roundF32 (roundF32 (roundF32 (floatintDegrees * 3600)
        - roundF32 ((degree * 3600 : ℤ) : ℝ)) - roundF32 ((minute * 60 : ℤ) : ℝ))
    (degree, minute, second)
  else
    let floatintDegrees := roundF32 (floatintDegrees * -1)
    let degree := toLong floatintDegrees
    let minute :=
      toLong (roundF32 (roundF32 (floatintDegrees * 60) - roundF32 ((degree * 60 : ℤ) : ℝ)))
    let second :=
      roundF32 (roundF32 (roundF32 (floatintDegrees * 3600)
        - roundF32 ((degree * 3600 : ℤ) : ℝ)) - roundF32 ((minute * 60 : ℤ) : ℝ))
    (degree * -1, minute, second)

/-- The right ascension `EclipticToEquatorial` returns.  The three conversions to radians
contain `PI` and round when stored; `sin`, `cos`, `tan` and `atan2` are applied to `float`
operands, and the products and the difference are single-precision operations;
`RADIANS_TO_HOURS` multiplies by a `double` literal and rounds when stored.
`atan2 y x` is the argument of `x + i y`. -/
def EclipticToEquatorial_ra (lambda beta epsilon : ℝ) : ℝ :=
  let lambda := roundF32 (lambda * PI / 180)
  let beta := roundF32 (beta * PI / 180)
  let epsilon := roundF32 (epsilon * PI / 180)
  let y :=
    roundF32 (roundF32 (roundF32 (Real.sin lambda) * roundF32 (Real.cos epsilon))
      - roundF32 (roundF32 (Real.tan beta) * roundF32 (Real.sin epsilon)))
  let x := roundF32 (Real.cos lambda)
  let ra := roundF32 (Complex.arg ⟨x, y⟩)
  let ra := roundF32 (ra * 3.81971863)
  LIMIT_HOURS_TO_24 ra

/-- The azimuth `equatorialToHorizontal` returns.  `SIND`, `COSD` and `TAND` contain `PI`:
the argument of `atan2` and `atan2` itself are in double precision, and the result rounds
when stored in `coordinates.azi`; so does `RADIANS_TO_DEGREES(coordinates.azi)+180`. -/
def equatorialToHorizontal_azi (H delta phi : ℝ) : ℝ :=
  let y := Real.sin (H * PI / 180)
  let x := Real.cos (H * PI / 180) * Real.sin (phi * PI / 180)
    - Real.tan (delta * PI / 180) * Real.cos (phi * PI / 180)
  let azi := roundF32 (Complex.arg ⟨x, y⟩)
  let azi := roundF32 (azi * 180 / PI + 180)
  LIMIT_DEGREES_TO_360 azi

/-- The right ascension `equatorialCoordinatesForSunAtJD` returns, from the values its
variables `eps` and `lambda` hold:
`sunCoordinates.ra = atan(COSD(eps)*TAND(lambda))*12/PI;`
`sunCoordinates.ra = LIMIT_HOURS_TO_24(sunCoordinates.ra);`. -/
def sunRightAscension (eps lambda : ℝ) : ℝ :=
  let ra := roundF32 (Real.arctan (Real.cos (eps * PI / 180) * Real.tan (lambda * PI / 180))
    * 12 / PI)
  LIMIT_HOURS_TO_24 ra

/-- The `for` loop of `kepler`, with `n` iterations left and `steps` iterations made: one
Newton step, in which every operation is a single-precision one, then the test
`previousE == E` that leaves the loop.  The result is the value of `E` and the number of
iterations made. -/
def keplerLoop (M e : ℝ) : ℕ → ℝ → ℝ → ℕ → ℝ × ℕ
  | 0, E, _, steps => (E, steps)
  | n + 1, E, previousE, steps =>
    let E := roundF32 (E
      + roundF32 (roundF32 (roundF32 (M + roundF32 (e * roundF32 (Real.sin E))) - E)
          / roundF32 (1 - roundF32 (e * roundF32 (Real.cos E)))))
    if previousE = E then (E, steps + 1) else keplerLoop M e n E E (steps + 1)

/-- Function `kepler`, with the number of iterations its loop makes.  `DEGREES_TO_RADIANS`
and `RADIANS_TO_DEGREES` contain `PI` and round when stored or returned. -/
def kepler (M e : ℝ) : ℝ × ℕ :=
  let M := roundF32 (M * PI / 180)
  let E := M
  let previousE := roundF32 (E + 1)
  let r := keplerLoop M e 10 E previousE 0
  (roundF32 (r.1 * 180 / PI), r.2)

/-- The term `sumVSOP87Coefs` adds for the coefficient `coef = (A, B, C)`:
`float res = cos(coef.B + coef.C*T); res *= coef.A; res *= coef.A;`. -/
def vsop87Term (coef : ℝ × ℝ × ℝ) (T : ℝ) : ℝ :=
  let res := roundF32 (Real.cos (roundF32 (coef.2.1 + roundF32 (coef.2.2 * T))))
  let res := roundF32 (res * coef.1)
  roundF32 (res * coef.1)

/-- Function `sumVSOP87Coefs` on a table of coefficients `(A, B, C)`: `value += res` is a
single-precision addition. -/
def sumVSOP87Coefs (valuePlanetCoefficients : List (ℝ × ℝ × ℝ)) (T : ℝ) : ℝ :=
  valuePlanetCoefficients.foldl (fun value coef => roundF32 (value + vsop87Term coef T)) 0

end Single

/-- The value a `float` variable holds after a value of the number model is stored in it:
rounded to single precision, and NaN for NaN. -/
def CFloat.roundSingle : CFloat → CFloat
  | num x => num (roundF32 x)
  | nan => nan

namespace Single

/-- The state of `equatorialCoordinatesForPlanetAtJD` when it reaches its `while` loop, the
initial value of `T` being rounded when stored:
`float T = (jd.day-2451545.0+jd.time)/36525;`. -/
def lightTimeInit (jd : JulianDay) (u : Uninitialised) : LightTimeState :=
  { Ephemeris.lightTimeInit jd u with
    T := CFloat.roundSingle ((ofInt jd.day - 2451545.0 + jd.time) / 36525) }

/-- One pass through the body of the `while` loop, with the rounding of the values the loop
condition depends on: `jd.day+jd.time` is a single-precision sum (the conversion of
`jd.day` to `float` is exact below `2 ^ 24`), and so is its difference
with `TLight`, stored in the `float jd2`; `T` and `TLight` are computed in double precision
and rounded when stored.  The position computed in between
(`heliocentricCoordinatesForPlanetAndT`, `HeliocentricToRectangular`, `sqrtf`) is taken in
exact arithmetic, as in `lightTimeBody` above. -/
def lightTimeBody (tb : VSOP87Tables) (solarSystemObjectIndex : SolarSystemObjectIndex)
    (jd : JulianDay) (s : LightTimeState) : LightTimeState × Bool :=
  let lastT := s.T
  let jd2 := CFloat.roundSingle (CFloat.roundSingle (ofInt jd.day + jd.time) - s.TLight)
  let T := CFloat.roundSingle ((jd2 - 2451545.0) / 36525)
  let hcPlanet := heliocentricCoordinatesForPlanetAndT tb solarSystemObjectIndex T
  if isnan hcPlanet.radius then
    ({ s with lastT := lastT, T := T, hcPlanet := hcPlanet, passes := s.passes + 1 }, true)
  else
    let hcEarth := heliocentricCoordinatesForPlanetAndT tb .Earth T
    let rectPlanet := HeliocentricToRectangular hcPlanet hcEarth
    let x2 := rectPlanet.x * rectPlanet.x
    let y2 := rectPlanet.y * rectPlanet.y
    let z2 := rectPlanet.z * rectPlanet.z
    let delta := sqrt (x2 + y2 + z2)
    ({ T := T, lastT := lastT, TLight := CFloat.roundSingle (delta * 0.0057755183),
       hcPlanet := hcPlanet, hcEarth := hcEarth, rectPlanet := rectPlanet, x2 := x2, y2 := y2,
       z2 := z2, distance := delta, passes := s.passes + 1 }, false)

/-- The loop `while (T != lastT) { ... }` with the body above, run for at most `fuel`
evaluations of its condition: `none` when they do not suffice. -/
def lightTimeLoop (tb : VSOP87Tables) (solarSystemObjectIndex : SolarSystemObjectIndex)
    (jd : JulianDay) : ℕ → LightTimeState → Option LightTimeState
  | 0, _ => none
  | fuel + 1, s =>
    if CFloat.ne s.T s.lastT then
      let r := lightTimeBody tb solarSystemObjectIndex jd s
      if r.2 then some r.1 else lightTimeLoop tb solarSystemObjectIndex jd fuel r.1
    else some s

end Single

/-- Tables for which the light-time loop does not settle: every table the single term
`{0, 0, 0}`, except two
radius tables of Mars, `R0MarsCoefficients = {{123000, 3, 0}}` and
`R1MarsCoefficients = {{74500000, 0, 0}}`.  With them the Earth is at radius 0 and Mars at
the radius `151.29 * cos 3 + 5550250 * T`, about 40 at `T = 1.25/36525` and about 2 at
`T = 1/36525`. -/
def oscillatingTables : VSOP87Tables
  | .R0MarsCoefficients => [⟨123000, 3, 0⟩]
  | .R1MarsCoefficients => [⟨74500000, 0, 0⟩]
  | _ => [⟨0, 0, 0⟩]

/-! ## Basic facts about `CFloat` -/

namespace CFloat

@[simp] theorem num_add (x y : ℝ) : num x + num y = num (x + y) := rfl
@[simp] theorem num_sub (x y : ℝ) : num x - num y = num (x - y) := rfl
@[simp] theorem num_mul (x y : ℝ) : num x * num y = num (x * y) := rfl
@[simp] theorem neg_num (x : ℝ) : -num x = num (-x) := rfl
@[simp] theorem nan_add (a : CFloat) : nan + a = nan := rfl
@[simp] theorem add_nan (a : CFloat) : a + nan = nan := by cases a <;> rfl
@[simp] theorem nan_sub (a : CFloat) : nan - a = nan := rfl
@[simp] theorem sub_nan (a : CFloat) : a - nan = nan := by cases a <;> rfl
@[simp] theorem nan_mul (a : CFloat) : nan * a = nan := rfl
@[simp] theorem mul_nan (a : CFloat) : a * nan = nan := by cases a <;> rfl
@[simp] theorem nan_div (a : CFloat) : nan / a = nan := rfl
@[simp] theorem div_nan (a : CFloat) : a / nan = nan := by cases a <;> rfl
@[simp] theorem neg_nan : -nan = nan := rfl

@[simp] theorem add_num_zero (a : CFloat) : a + num 0 = a := add_zero a
@[simp] theorem num_zero_add (a : CFloat) : num 0 + a = a := zero_add a
@[simp] theorem mul_num_one (a : CFloat) : a * num 1 = a := mul_one a
@[simp] theorem num_one_mul (a : CFloat) : num 1 * a = a := one_mul a

@[simp] theorem num_pow (x : ℝ) (n : ℕ) : num x ^ n = num (x ^ n) := by
  induction n with
  | zero => rfl
  | succ n ih => rw [pow_succ, pow_succ, ih]; rfl

@[simp] theorem nan_pow_succ (n : ℕ) : (nan : CFloat) ^ (n + 1) = nan := by
  rw [pow_succ]; exact mul_nan _

/-- Division of two numbers. -/
theorem num_div (x y : ℝ) : num x / num y = if y = 0 then nan else num (x / y) := rfl

@[simp] theorem num_div_of_ne (x : ℝ) {y : ℝ} (h : y ≠ 0) : num x / num y = num (x / y) := by
  rw [num_div, if_neg h]

@[simp] theorem zero_eq : (0 : CFloat) = num 0 := rfl
@[simp] theorem one_eq : (1 : CFloat) = num 1 := rfl

@[simp] theorem ofNat_eq (n : ℕ) [n.AtLeastTwo] :
    (OfNat.ofNat n : CFloat) = num (OfNat.ofNat n) := rfl

@[simp] theorem ofScientific_eq (m : ℕ) (s : Bool) (e : ℕ) :
    (OfScientific.ofScientific m s e : CFloat) = num (OfScientific.ofScientific m s e) := rfl

@[simp] theorem ofInt_eq (n : ℤ) : ofInt n = num (n : ℝ) := rfl

@[simp] theorem ge_num (x y : ℝ) : CFloat.ge (num x) (num y) ↔ y ≤ x := Iff.rfl
@[simp] theorem ge_nan_left (a : CFloat) : ¬ CFloat.ge nan a := fun h => h
@[simp] theorem ge_nan_right (a : CFloat) : ¬ CFloat.ge a nan := by cases a <;> exact fun h => h
@[simp] theorem ne_num (x y : ℝ) : CFloat.ne (num x) (num y) ↔ x ≠ y := Iff.rfl
@[simp] theorem ne_nan_left (a : CFloat) : CFloat.ne nan a := trivial
@[simp] theorem ne_nan_right (a : CFloat) : CFloat.ne a nan := by cases a <;> trivial
@[simp] theorem eq_num (x y : ℝ) : CFloat.eq (num x) (num y) ↔ x = y := Iff.rfl
@[simp] theorem eq_nan_left (a : CFloat) : ¬ CFloat.eq nan a := fun h => h
@[simp] theorem eq_nan_right (a : CFloat) : ¬ CFloat.eq a nan := by cases a <;> exact fun h => h
@[simp] theorem isnan_nan : isnan nan = true := rfl
@[simp] theorem isnan_num (x : ℝ) : isnan (num x) = false := rfl
@[simp] theorem sin_num (x : ℝ) : sin (num x) = num (Real.sin x) := rfl
@[simp] theorem cos_num (x : ℝ) : cos (num x) = num (Real.cos x) := rfl
@[simp] theorem tan_num (x : ℝ) : tan (num x) = num (Real.tan x) := rfl
@[simp] theorem sin_nan : sin nan = nan := rfl
@[simp] theorem cos_nan : cos nan = nan := rfl
@[simp] theorem tan_nan : tan nan = nan := rfl
@[simp] theorem toInt_num (x : ℝ) : toInt (num x) = if 0 ≤ x then ⌊x⌋ else ⌈x⌉ := rfl

@[simp] theorem isnan_add (a b : CFloat) : isnan (a + b) = (isnan a || isnan b) := by
  cases a <;> cases b <;> rfl
@[simp] theorem isnan_sub (a b : CFloat) : isnan (a - b) = (isnan a || isnan b) := by
  cases a <;> cases b <;> rfl
@[simp] theorem isnan_mul (a b : CFloat) : isnan (a * b) = (isnan a || isnan b) := by
  cases a <;> cases b <;> rfl
@[simp] theorem isnan_neg (a : CFloat) : isnan (-a) = isnan a := by
  cases a <;> rfl
@[simp] theorem isnan_sin (a : CFloat) : isnan (sin a) = isnan a := by
  cases a <;> rfl
@[simp] theorem isnan_cos (a : CFloat) : isnan (cos a) = isnan a := by
  cases a <;> rfl
@[simp] theorem isnan_tan (a : CFloat) : isnan (tan a) = isnan a := by
  cases a <;> rfl
@[simp] theorem isnan_atan2 (a b : CFloat) : isnan (atan2 a b) = (isnan a || isnan b) := by
  cases a <;> cases b <;> rfl
@[simp] theorem isnan_div_num (a : CFloat) {y : ℝ} (h : y ≠ 0) : isnan (a / num y) = isnan a := by
  cases a
  · rfl
  · rw [num_div_of_ne _ h]; rfl
@[simp] theorem isnan_ofNat (n : ℕ) [n.AtLeastTwo] : isnan (OfNat.ofNat n : CFloat) = false := rfl
@[simp] theorem isnan_ofScientific (m : ℕ) (s : Bool) (e : ℕ) :
    isnan (OfScientific.ofScientific m s e : CFloat) = false := rfl
@[simp] theorem isnan_div_ofNat (a : CFloat) (n : ℕ) [n.AtLeastTwo] :
    isnan (a / (OfNat.ofNat n : CFloat)) = isnan a :=
  isnan_div_num a (OfNat.ofNat_ne_zero n)

/-- A value is `nan` or a number. -/
theorem eq_nan_or_num (a : CFloat) : a = nan ∨ ∃ x, a = num x := by
  cases a
  · exact Or.inl rfl
  · exact Or.inr ⟨_, rfl⟩

/-- A number is not `!=` to itself. -/
theorem not_ne_self_of_num {a : CFloat} {x : ℝ} (h : a = num x) : ¬ CFloat.ne a a := by
  subst h; simp

end CFloat

/-! ## Propagation of `nan` through the macros -/

@[simp] theorem isnan_PI : isnan PI = false := rfl

@[simp] theorem isnan_div_PI (a : CFloat) : isnan (a / PI) = isnan a :=
  isnan_div_num a (by norm_num)

@[simp] theorem isnan_LIMIT_DEGREES_TO_360 (a : CFloat) :
    isnan (LIMIT_DEGREES_TO_360 a) = isnan a := by
  cases a
  · unfold LIMIT_DEGREES_TO_360
    simp
  · unfold LIMIT_DEGREES_TO_360; split_ifs <;> simp

@[simp] theorem isnan_LIMIT_HOURS_TO_24 (a : CFloat) :
    isnan (LIMIT_HOURS_TO_24 a) = isnan a := by
  cases a
  · unfold LIMIT_HOURS_TO_24
    simp
  · unfold LIMIT_HOURS_TO_24; split_ifs <;> simp

/-- The three results of `obliquityAndNutationForT` are numbers exactly when `T` is. -/
theorem isnan_obliquityAndNutationForT (T : CFloat) :
    isnan (obliquityAndNutationForT T).1 = isnan T
    ∧ isnan (obliquityAndNutationForT T).2.1 = isnan T
    ∧ isnan (obliquityAndNutationForT T).2.2 = isnan T := by
  cases T <;>
  (unfold obliquityAndNutationForT DEGREES_MINUTES_SECONDES_TO_SECONDS SECONDS_TO_DECIMAL_DEGREES;
    simp)

/-! ## Angle conversions: where the round trip holds -/

/-- On a number that is not negative the conversion to degrees, minutes and seconds followed by
the conversion back returns the number. -/
theorem degrees_roundtrip_of_nonneg (x : ℝ) (hx : 0 ≤ x) :
    degreesMinutesSecondsToFloatingDegrees
        (floatingDegreesToDegreesMinutesSeconds (num x)).1
        (floatingDegreesToDegreesMinutesSeconds (num x)).2.1
        (floatingDegreesToDegreesMinutesSeconds (num x)).2.2 = num x := by
  have hfl : (0 : ℝ) ≤ (⌊x⌋ : ℝ) := by exact_mod_cast Int.floor_nonneg.mpr hx
  unfold floatingDegreesToDegreesMinutesSeconds degreesMinutesSecondsToFloatingDegrees
    DEGREES_MINUTES_SECONDS_TO_DECIMAL_DEGREES
  simp [hx, hfl]
  split_ifs <;> ring

/-- On a number that is at most `-1` the conversion to degrees, minutes and seconds followed
by the conversion back returns the number: the degree is negative and carries the sign. -/
theorem degrees_roundtrip_of_le_neg_one (x : ℝ) (hx : x ≤ -1) :
    degreesMinutesSecondsToFloatingDegrees
        (floatingDegreesToDegreesMinutesSeconds (num x)).1
        (floatingDegreesToDegreesMinutesSeconds (num x)).2.1
        (floatingDegreesToDegreesMinutesSeconds (num x)).2.2 = num x := by
  have hneg : ¬ 0 ≤ x := by linarith
  have hpos : (0 : ℝ) ≤ -x := by linarith
  have hfl : (1 : ℤ) ≤ ⌊-x⌋ := Int.le_floor.mpr (by push_cast; linarith)
  have hfl' : ¬ (0 : ℝ) ≤ -(⌊-x⌋ : ℝ) := by
    have : (1 : ℝ) ≤ (⌊-x⌋ : ℝ) := by exact_mod_cast hfl
    linarith
  unfold floatingDegreesToDegreesMinutesSeconds degreesMinutesSecondsToFloatingDegrees
    DEGREES_MINUTES_SECONDS_TO_DECIMAL_DEGREES
  simp [hneg, hpos, hfl']
  split_ifs <;> ring

/-- On a number that is not negative the conversion to hours, minutes and seconds followed by
the conversion back returns the number. -/
theorem hours_roundtrip_of_nonneg (x : ℝ) (hx : 0 ≤ x) :
    hoursMinutesSecondsToFloatingHours
        (floatingHoursToHoursMinutesSeconds (num x)).1
        (floatingHoursToHoursMinutesSeconds (num x)).2.1
        (floatingHoursToHoursMinutesSeconds (num x)).2.2 = num x := by
  unfold floatingHoursToHoursMinutesSeconds hoursMinutesSecondsToFloatingHours
    HOURS_MINUTES_SECONDS_TO_DECIMAL_HOURS
  simp [hx]
  split_ifs <;> ring

/-! ## The series -/

/-- The loop of `sumVSOP87Coefs` started from the value `acc`. -/
theorem sumVSOP87Coefs_foldl (l : List VSOP87Coefficient) (T acc : CFloat) :
    l.foldl (fun value coef => value + cos (coef.B + coef.C * T) * coef.A * coef.A) acc
      = acc + (l.map (fun c => c.A ^ 2 * cos (c.B + c.C * T))).sum := by
  induction l generalizing acc with
  | nil => simp
  | cons c l ih =>
    rw [List.foldl_cons, ih, List.map_cons, List.sum_cons, add_assoc]
    congr 2
    rw [pow_two, mul_assoc, mul_comm]

/-- The result of `sumVSOP87Coefs` as the sum of the list of its terms. -/
theorem sumVSOP87Coefs_eq_sum (table : List VSOP87Coefficient) (T : CFloat) :
    sumVSOP87Coefs table T = (table.map (fun c => c.A ^ 2 * cos (c.B + c.C * T))).sum := by
  unfold sumVSOP87Coefs
  rw [sumVSOP87Coefs_foldl, zero_add]

/-- The constant `100000000.0` is `10^8`. -/
theorem scale_eq : (100000000.0 : CFloat) = num (10 ^ 8) := by
  simp only [ofScientific_eq]; congr 1; norm_num

/-- The three coordinates of a body that is not one of the nine are `nan`. -/
theorem heliocentric_other (tb : VSOP87Tables) (code : ℕ) (T : CFloat) :
    heliocentricCoordinatesForPlanetAndT tb (.other code) T = ⟨nan, nan, nan⟩ := by
  unfold heliocentricCoordinatesForPlanetAndT RADIANS_TO_DEGREES LIMIT_DEGREES_TO_360
  simp

/-- At a `nan` epoch the radius is `nan` for every body. -/
theorem helio_radius_nan (tb : VSOP87Tables) (idx : SolarSystemObjectIndex) :
    (heliocentricCoordinatesForPlanetAndT tb idx nan).radius = nan := by
  unfold heliocentricCoordinatesForPlanetAndT
  simp

/-! ## The light-time loop -/

/-- The epoch the first pass computes, with `TLight = 0`. -/
theorem firstPass_T (jd : JulianDay) :
    ((ofInt jd.day + jd.time) - 0 - 2451545.0) / 36525
      = (ofInt jd.day - 2451545.0 + jd.time) / 36525 := by
  cases h : jd.time with
  | nan => simp
  | num t =>
    simp
    ring

/-- What a pass of the loop body leaves in `T`, `lastT` and the pass counter, whether or not it
leaves through `break`. -/
theorem lightTimeBody_T (tb : VSOP87Tables) (idx : SolarSystemObjectIndex) (jd : JulianDay)
    (s : LightTimeState) :
    (lightTimeBody tb idx jd s).1.T = ((ofInt jd.day + jd.time) - s.TLight - 2451545.0) / 36525
    ∧ (lightTimeBody tb idx jd s).1.lastT = s.T
    ∧ (lightTimeBody tb idx jd s).1.passes = s.passes + 1 := by
  unfold lightTimeBody
  simp only []
  split_ifs <;> simp

/-- A pass whose epoch is `nan` leaves through `break`: the radius at a `nan` epoch is `nan`. -/
theorem lightTimeBody_break_of_nan (tb : VSOP87Tables) (idx : SolarSystemObjectIndex)
    (jd : JulianDay) (s : LightTimeState)
    (h : ((ofInt jd.day + jd.time) - s.TLight - 2451545.0) / 36525 = nan) :
    (lightTimeBody tb idx jd s).2 = true := by
  unfold lightTimeBody
  simp only [h, helio_radius_nan, isnan_nan, if_true]

/-- A pass for a body that is not one of the nine leaves through `break`, having assigned
`lastT`, `T` and `hcPlanet` only. -/
theorem lightTimeBody_other (tb : VSOP87Tables) (code : ℕ) (jd : JulianDay)
    (s : LightTimeState) :
    lightTimeBody tb (.other code) jd s
      = ({ s with
            lastT := s.T
            T := ((ofInt jd.day + jd.time) - s.TLight - 2451545.0) / 36525
            hcPlanet := ⟨nan, nan, nan⟩
            passes := s.passes + 1 }, true) := by
  unfold lightTimeBody
  simp [heliocentric_other]

/-- The loop from the initial state: no pass when `T0 == 0`, and otherwise one pass, after
which `T` is `T0` again (or the pass has left through `break`). -/
theorem lightTimeLoop_init (tb : VSOP87Tables) (idx : SolarSystemObjectIndex) (jd : JulianDay)
    (u : Uninitialised) (fuel : ℕ) :
    lightTimeLoop tb idx jd (fuel + 2) (lightTimeInit jd u)
      = some (if CFloat.ne (lightTimeInit jd u).T 0
          then (lightTimeBody tb idx jd (lightTimeInit jd u)).1 else lightTimeInit jd u) := by
  rw [lightTimeLoop]
  have hl : (lightTimeInit jd u).lastT = 0 := rfl
  rw [hl]
  by_cases hne : CFloat.ne (lightTimeInit jd u).T 0
  · rw [if_pos hne, if_pos hne]
    obtain ⟨hT, hlast, -⟩ := lightTimeBody_T tb idx jd (lightTimeInit jd u)
    have hTL : (lightTimeInit jd u).TLight = 0 := rfl
    rw [hTL, firstPass_T] at hT
    show (if (lightTimeBody tb idx jd (lightTimeInit jd u)).2 = true
        then some (lightTimeBody tb idx jd (lightTimeInit jd u)).1
        else lightTimeLoop tb idx jd (fuel + 1) (lightTimeBody tb idx jd (lightTimeInit jd u)).1)
      = some (lightTimeBody tb idx jd (lightTimeInit jd u)).1
    split_ifs with hb
    · rfl
    · rw [lightTimeLoop]
      have hnot : ¬ CFloat.ne (lightTimeBody tb idx jd (lightTimeInit jd u)).1.T
          (lightTimeBody tb idx jd (lightTimeInit jd u)).1.lastT := by
        rw [hlast, hT]
        rcases eq_nan_or_num ((ofInt jd.day - 2451545.0 + jd.time) / 36525) with hn | ⟨x, hx⟩
        · exact absurd (lightTimeBody_break_of_nan tb idx jd (lightTimeInit jd u)
            (by rw [hTL, firstPass_T]; exact hn)) hb
        · have hT0 : (lightTimeInit jd u).T = (ofInt jd.day - 2451545.0 + jd.time) / 36525 := rfl
          rw [hT0]
          exact not_ne_self_of_num hx
      rw [if_neg hnot]
  · rw [if_neg hne, if_neg hne]

/-- The loop of `equatorialCoordinatesForPlanetAtJD` from its initial state, for any fuel of at
least 2. -/
theorem lightTimeLoop_init_of_le (tb : VSOP87Tables) (idx : SolarSystemObjectIndex)
    (jd : JulianDay) (u : Uninitialised) (fuel : ℕ) (h : 2 ≤ fuel) :
    lightTimeLoop tb idx jd fuel (lightTimeInit jd u)
      = some (if CFloat.ne (lightTimeInit jd u).T 0
          then (lightTimeBody tb idx jd (lightTimeInit jd u)).1 else lightTimeInit jd u) := by
  obtain ⟨n, rfl⟩ := Nat.exists_eq_add_of_le h
  rw [Nat.add_comm]
  exact lightTimeLoop_init tb idx jd u n

/-- For a body that is not one of the nine, the loop ends after at most one pass and leaves
`rectPlanet`, `x2`, `y2` and the cell `distance` as they were before it. -/
theorem lightTimeLoop_other (tb : VSOP87Tables) (code : ℕ) (jd : JulianDay)
    (u : Uninitialised) :
    ∃ s : LightTimeState,
      (∀ fuel, 2 ≤ fuel →
        lightTimeLoop tb (.other code) jd fuel (lightTimeInit jd u) = some s)
      ∧ s.passes ≤ 1 ∧ s.rectPlanet = u.rectPlanet ∧ s.x2 = u.x2 ∧ s.y2 = u.y2
      ∧ s.distance = u.distance := by
  refine ⟨_, fun fuel h => lightTimeLoop_init_of_le tb (.other code) jd u fuel h, ?_⟩
  split_ifs
  · rw [lightTimeBody_other]
    exact ⟨le_refl 1, rfl, rfl, rfl, rfl⟩
  · exact ⟨Nat.zero_le 1, rfl, rfl, rfl, rfl⟩

/-! ## Frame change -/

@[simp] theorem LIMIT_DEGREES_TO_360_num (x : ℝ) :
    LIMIT_DEGREES_TO_360 (num x)
      = num (if 0 ≤ x then x - (⌊x / 360⌋ : ℝ) * 360 else x - (⌈x / 360⌉ : ℝ) * 360 + 360) := by
  unfold LIMIT_DEGREES_TO_360
  have h360 : (0 : ℝ) < 360 := by norm_num
  by_cases h : 0 ≤ x
  · have h' : 0 ≤ x / 360 := div_nonneg h h360.le
    simp [h, h']
  · have h' : ¬ 0 ≤ x / 360 := by
      rw [not_le] at h ⊢
      exact div_neg_of_neg_of_pos h h360
    simp [h, h']

@[simp] theorem LIMIT_HOURS_TO_24_num (x : ℝ) :
    LIMIT_HOURS_TO_24 (num x) = num (if 0 ≤ x then x - (⌊x / 24⌋ : ℝ) * 24 else x + 24) := by
  unfold LIMIT_HOURS_TO_24
  have h24 : (0 : ℝ) < 24 := by norm_num
  by_cases h : 0 ≤ x
  · have h' : 0 ≤ x / 24 := div_nonneg h h24.le
    simp [h, h']
  · simp [h]

/-- The argument of `asin` in `EclipticToEquatorial` lies in `[-1, 1]`. -/
theorem declination_argument_range (β ε lam : ℝ) :
    -1 ≤ Real.sin β * Real.cos ε + Real.cos β * Real.sin ε * Real.sin lam
    ∧ Real.sin β * Real.cos ε + Real.cos β * Real.sin ε * Real.sin lam ≤ 1 := by
  have h1 := Real.sin_sq_add_cos_sq β
  have h2 := Real.sin_sq_add_cos_sq ε
  have h3 := Real.sin_sq_add_cos_sq lam
  have key : (Real.sin β * Real.cos ε + Real.cos β * Real.sin ε * Real.sin lam) ^ 2 ≤ 1 := by
    have e : 1 - (Real.sin β * Real.cos ε + Real.cos β * Real.sin ε * Real.sin lam) ^ 2
        = (Real.sin β * (Real.sin ε * Real.sin lam) - Real.cos β * Real.cos ε) ^ 2
          + (Real.sin ε * Real.cos lam) ^ 2 := by
      linear_combination (-(Real.cos ε ^ 2 + (Real.sin ε * Real.sin lam) ^ 2)) * h1
        - h2 - Real.sin ε ^ 2 * h3
    nlinarith [sq_nonneg (Real.sin β * (Real.sin ε * Real.sin lam) - Real.cos β * Real.cos ε),
      sq_nonneg (Real.sin ε * Real.cos lam)]
  exact abs_le.mp (abs_le_one_iff_mul_self_le_one.mpr (by nlinarith))

/-- On three numbers `EclipticToEquatorial` returns two numbers. -/
theorem EclipticToEquatorial_isnan (lambda beta epsilon : CFloat) (hl : isnan lambda = false)
    (hb : isnan beta = false) (he : isnan epsilon = false) :
    isnan (EclipticToEquatorial lambda beta epsilon).ra = false
    ∧ isnan (EclipticToEquatorial lambda beta epsilon).dec = false := by
  cases lambda with
  | nan => simp at hl
  | num l =>
  cases beta with
  | nan => simp at hb
  | num b =>
  cases epsilon with
  | nan => simp at he
  | num e =>
    constructor
    · unfold EclipticToEquatorial DEGREES_TO_RADIANS RADIANS_TO_HOURS
      simp
    · unfold EclipticToEquatorial DEGREES_TO_RADIANS RADIANS_TO_DEGREES PI
      simp only [ofNat_eq,
        ofScientific_eq, num_mul, num_div, sin_num, cos_num, num_add]
      norm_num
      unfold CFloat.asin
      simp only [if_pos (declination_argument_range _ _ _)]
      simp [num_div]

/-! ## Evaluation on the sample tables and variables -/

/-- With the sample tables Mars is at longitude `0`, latitude `0` and radius `1`. -/
theorem helio_sample_Mars (T : ℝ) :
    heliocentricCoordinatesForPlanetAndT sampleTables .Mars (num T) = ⟨num 0, num 0, num 1⟩ := by
  unfold heliocentricCoordinatesForPlanetAndT sampleTables sumVSOP87Coefs
    RADIANS_TO_DEGREES LIMIT_DEGREES_TO_360 PI
  simp
  norm_num

/-- With the sample tables the Earth is at longitude `0`, latitude `0` and radius `0`. -/
theorem helio_sample_Earth (T : ℝ) :
    heliocentricCoordinatesForPlanetAndT sampleTables .Earth (num T) = ⟨num 0, num 0, num 0⟩ := by
  unfold heliocentricCoordinatesForPlanetAndT sampleTables sumVSOP87Coefs
    RADIANS_TO_DEGREES LIMIT_DEGREES_TO_360 PI
  simp [num_div]
  norm_num

/-- With the sample tables a pass for Mars stores the distance `1`. -/
theorem lightTimeBody_sample (s : LightTimeState) (day : ℤ) (t τ : ℝ) (h : s.TLight = num τ) :
    (lightTimeBody sampleTables .Mars ⟨day, num t⟩ s).1.distance = num 1 := by
  unfold lightTimeBody HeliocentricToRectangular COSD SIND PI CFloat.sqrt
  simp [h, helio_sample_Mars, helio_sample_Earth]

/-- From a state with a numeric `T`, `rectPlanet = (1, 0, 0)`, `x2 = 1` and `y2 = 0`, the code
that follows the loop returns numbers. -/
theorem planetPositionAfterLoop_sample (s : LightTimeState) (T : ℝ) (hT : s.T = num T)
    (hr : s.rectPlanet = ⟨1, 0, 0⟩) (hx : s.x2 = 1) (hy : s.y2 = 0) :
    isnan (planetPositionAfterLoop s).coordinates.ra = false
    ∧ isnan (planetPositionAfterLoop s).coordinates.dec = false
    ∧ isnan (planetPositionAfterLoop s).gCoordinates.lon = false
    ∧ isnan (planetPositionAfterLoop s).gCoordinates.lat = false := by
  have hbeta : RADIANS_TO_DEGREES (s.rectPlanet.z / sqrt (s.x2 + s.y2)) = num 0 := by
    unfold RADIANS_TO_DEGREES CFloat.sqrt PI
    simp [hr, hx, hy, num_div]
    norm_num
  have hobl := isnan_obliquityAndNutationForT (num T)
  have hlon : isnan (planetPositionAfterLoop s).gCoordinates.lon = false := by
    unfold planetPositionAfterLoop
    simp only [hbeta]
    unfold planetayOrbitForPlanetAndT RADIANS_TO_DEGREES PI
    simp [hT, hr, num_div]
    norm_num
  have hlat : isnan (planetPositionAfterLoop s).gCoordinates.lat = false := by
    unfold planetPositionAfterLoop
    simp only [hbeta]
    unfold planetayOrbitForPlanetAndT RADIANS_TO_DEGREES PI
    simp [hT, hr, num_div]
    norm_num
  have hcoord : (planetPositionAfterLoop s).coordinates
      = EclipticToEquatorial
          ((planetPositionAfterLoop s).gCoordinates.lon
            + (obliquityAndNutationForT s.T).2.2 / 3600)
          (planetPositionAfterLoop s).gCoordinates.lat (obliquityAndNutationForT s.T).1 := rfl
  have := EclipticToEquatorial_isnan
    ((planetPositionAfterLoop s).gCoordinates.lon + (obliquityAndNutationForT s.T).2.2 / 3600)
    (planetPositionAfterLoop s).gCoordinates.lat (obliquityAndNutationForT s.T).1
    (by rw [hT]; simp [hlon, hobl.2.2, hT]) hlat (by rw [hT]; exact hobl.1)
  rw [hcoord]
  exact ⟨this.1, this.2, hlon, hlat⟩

/-! ## The first Newton step of `kepler` at `M = π/4`, `e = √2/2` -/

/-- At `E = M = π/4` and `e = √2/2` the Newton step of `kepler` adds exactly `1`. -/
theorem kepler_collision_step :
    Real.pi / 4 + (Real.pi / 4 + √2 / 2 * Real.sin (Real.pi / 4) - Real.pi / 4)
      / (1 - √2 / 2 * Real.cos (Real.pi / 4)) = Real.pi / 4 + 1 := by
  rw [Real.sin_pi_div_four, Real.cos_pi_div_four]
  have h : √2 / 2 * (√2 / 2) = 1 / 2 := by
    have := Real.mul_self_sqrt (show (0:ℝ) ≤ 2 by norm_num)
    nlinarith
  rw [h]
  norm_num

/-! ## Claims -/

/-- C1: when `T0` is not zero the loop of `equatorialCoordinatesForPlanetAtJD` makes exactly
one pass, with `TLight = 0`: the epoch of the last evaluation is
`((jd.day + jd.time) - 2451545)/36525`, without light-time delay, and it differs from the
epoch corrected by `tau = 0.0057755183 * Delta` whenever the reported distance `Delta` is a
number other than zero. -/
theorem lightTime_correction_not_applied (tb : VSOP87Tables)
    (solarSystemObjectIndex : SolarSystemObjectIndex) (day : ℤ) (t : ℝ) (u : Uninitialised)
    (hT0 : (day : ℝ) - 2451545 + t ≠ 0) :
    ∃ s : LightTimeState,
      (∀ fuel, 2 ≤ fuel →
        lightTimeLoop tb solarSystemObjectIndex ⟨day, num t⟩ fuel (lightTimeInit ⟨day, num t⟩ u)
          = some s)
      ∧ s.passes = 1
      ∧ s.T = num (((day : ℝ) + t - 2451545) / 36525)
      ∧ ∀ Δ : ℝ, s.distance = num Δ → Δ ≠ 0 →
          s.T ≠ ((ofInt day + num t) - 0.0057755183 * num Δ - 2451545.0) / 36525 := by
  have hT : (lightTimeInit ⟨day, num t⟩ u).T = num (((day : ℝ) - 2451545 + t) / 36525) := by
    unfold lightTimeInit
    simp
    norm_num
  have hne : CFloat.ne (lightTimeInit ⟨day, num t⟩ u).T 0 := by
    rw [hT]
    show ((day : ℝ) - 2451545 + t) / 36525 ≠ 0
    exact div_ne_zero hT0 (by norm_num)
  obtain ⟨h1, -, h3⟩ :=
    lightTimeBody_T tb solarSystemObjectIndex ⟨day, num t⟩ (lightTimeInit ⟨day, num t⟩ u)
  have hTL : (lightTimeInit ⟨day, num t⟩ u).TLight = 0 := rfl
  have hT1 : (lightTimeBody tb solarSystemObjectIndex ⟨day, num t⟩
      (lightTimeInit ⟨day, num t⟩ u)).1.T = num (((day : ℝ) + t - 2451545) / 36525) := by
    rw [h1, hTL]; simp
    norm_num
  refine ⟨(lightTimeBody tb solarSystemObjectIndex ⟨day, num t⟩ (lightTimeInit ⟨day, num t⟩ u)).1,
    fun fuel h => ?_, h3, hT1, fun Δ _ hΔ => ?_⟩
  · rw [lightTimeLoop_init_of_le _ _ _ _ _ h, if_pos hne]
  · rw [hT1]
    simp
    intro h
    have h36525 : (36525 : ℝ) ≠ 0 := by norm_num
    field_simp at h
    have : (0.0057755183 : ℝ) * Δ = 0 := by linarith
    rcases mul_eq_zero.mp this with h0 | h0
    · norm_num at h0
    · exact hΔ h0

/-- Witness of C1: with the sample tables, Mars at `jd.day = 2451546`, `jd.time = 0`; one pass
is made, at `T = 1/36525`, and the distance reported is `1`: `T` is not the epoch delayed by
the light time of that distance. -/
theorem lightTime_correction_not_applied_witness :
    ∃ s : LightTimeState,
      lightTimeLoop sampleTables .Mars ⟨2451546, 0⟩ 2 (lightTimeInit ⟨2451546, 0⟩ sampleUninit)
        = some s
      ∧ s.passes = 1 ∧ s.distance = num 1 ∧ s.T = num (1 / 36525)
      ∧ s.T ≠ ((ofInt 2451546 + num 0) - 0.0057755183 * num 1 - 2451545.0) / 36525 := by
  obtain ⟨s, hloop, hp, hT, hne⟩ :=
    lightTime_correction_not_applied sampleTables .Mars 2451546 0 sampleUninit (by norm_num)
  have h2 := hloop 2 (le_refl 2)
  have hd : s.distance = num 1 := by
    have h := lightTimeLoop_init sampleTables .Mars ⟨2451546, num 0⟩ sampleUninit 0
    rw [h2] at h
    have hcond : CFloat.ne (lightTimeInit ⟨2451546, num 0⟩ sampleUninit).T 0 := by
      unfold lightTimeInit
      simp; norm_num
    rw [if_pos hcond] at h
    rw [Option.some.inj h]
    exact lightTimeBody_sample _ 2451546 0 0 rfl
  refine ⟨s, h2, hp, hd, ?_, hne 1 hd one_ne_zero⟩
  rw [hT]
  norm_num

/-- C2: at J2000.0 exactly (`jd.day = 2451545`, `jd.time = 0`) the loop condition
`T != lastT` is false on entry, for every body and tables: the body of the loop is never
entered, the cell `distance` keeps the content it had before the call, and the coordinates are
computed from the uninitialised `rectPlanet`, `x2` and `y2`. -/
theorem planet_at_J2000_skips_loop (tb : VSOP87Tables)
    (solarSystemObjectIndex : SolarSystemObjectIndex) (u : Uninitialised) (fuel : ℕ) :
    ∃ r : PlanetPosition,
      equatorialCoordinatesForPlanetAtJD tb (fuel + 1) solarSystemObjectIndex ⟨2451545, 0⟩ u
        = some r
      ∧ r.passes = 0 ∧ r.distance = u.distance
      ∧ r = planetPositionAfterLoop (lightTimeInit ⟨2451545, 0⟩ u) := by
  have hT : (lightTimeInit ⟨2451545, 0⟩ u).T = 0 := by
    unfold lightTimeInit
    simp; norm_num
  have hloop : lightTimeLoop tb solarSystemObjectIndex ⟨2451545, 0⟩ (fuel + 1)
      (lightTimeInit ⟨2451545, 0⟩ u) = some (lightTimeInit ⟨2451545, 0⟩ u) := by
    rw [lightTimeLoop, if_neg]
    rw [hT]
    show ¬ CFloat.ne 0 0
    simp
  refine ⟨planetPositionAfterLoop (lightTimeInit ⟨2451545, 0⟩ u), ?_, rfl, rfl, rfl⟩
  unfold equatorialCoordinatesForPlanetAtJD
  rw [hloop]; rfl

/-- C3: for `e = √2/2` (in `[0, 0.9]`) and `M = 45·π/PI` degrees (in `[0, 360)`), so that
`M` is `π/4` radians, the first Newton step adds exactly `1` to `E`, which is the value
`previousE = E + 1` was initialised to: `kepler` leaves its loop after one step and returns
`(π/4 + 1)·180/PI` degrees, which does not satisfy Kepler's equation within `1e-4`. -/
theorem kepler_early_exit_on_first_step :
    CFloat.ge (num (√2 / 2)) 0 ∧ CFloat.ge 0.9 (num (√2 / 2))
    ∧ CFloat.ge (num (45 * Real.pi / 3.1415926535)) 0
    ∧ ¬ CFloat.ge (num (45 * Real.pi / 3.1415926535)) 360
    ∧ kepler (num (45 * Real.pi / 3.1415926535)) (num (√2 / 2))
        = num ((Real.pi / 4 + 1) * 180 / 3.1415926535)
    ∧ ¬ |(Real.pi / 4 + 1) * 180 / 3.1415926535
          - √2 / 2 * (180 / 3.1415926535)
              * Real.sin ((Real.pi / 4 + 1) * 180 / 3.1415926535 * 3.1415926535 / 180)
          - 45 * Real.pi / 3.1415926535| ≤ 1e-4 := by
  have hs2 : √2 / 2 * (√2 / 2) = 1 / 2 := by
    have := Real.mul_self_sqrt (show (0:ℝ) ≤ 2 by norm_num)
    nlinarith
  have hs0 : (0:ℝ) ≤ √2 := Real.sqrt_nonneg 2
  have hs1 : √2 ≤ 1.5 := by
    rw [show (1.5:ℝ) = √(1.5^2) by rw [Real.sqrt_sq (by norm_num)]]
    exact Real.sqrt_le_sqrt (by norm_num)
  have hpi3 := Real.pi_gt_three
  have hpi4 := Real.pi_le_four
  refine ⟨?_, ?_, ?_, ?_, ?_, ?_⟩
  · simp; positivity
  · simp; linarith
  · simp; positivity
  · simp
    rw [div_lt_iff₀ (by norm_num)]
    linarith
  · have hM : DEGREES_TO_RADIANS (num (45 * Real.pi / 3.1415926535)) = num (Real.pi / 4) := by
      unfold DEGREES_TO_RADIANS PI
      simp
      field_simp
      ring
    have hstep : num (Real.pi / 4)
        + (num (Real.pi / 4) + num (√2 / 2) * sin (num (Real.pi / 4)) - num (Real.pi / 4))
          / (1 - num (√2 / 2) * cos (num (Real.pi / 4))) = num (Real.pi / 4 + 1) := by
      have hden : (1:ℝ) - √2 / 2 * Real.cos (Real.pi / 4) ≠ 0 := by
        rw [Real.cos_pi_div_four, hs2]; norm_num
      simp only [sin_num, cos_num, num_mul, num_add, num_sub, one_eq, num_div_of_ne _ hden]
      rw [kepler_collision_step]
    have hprev : num (Real.pi / 4) + 1 = num (Real.pi / 4 + 1) := rfl
    have heq : CFloat.eq (num (Real.pi / 4 + 1)) (num (Real.pi / 4 + 1)) := rfl
    unfold kepler
    simp only [hM, keplerLoop, hstep, hprev, if_pos heq]
    unfold RADIANS_TO_DEGREES PI
    simp only [ofNat_eq, ofScientific_eq, num_mul]
    exact num_div_of_ne _ (by norm_num)
  · have hsin : Real.sin ((Real.pi / 4 + 1) * 180 / 3.1415926535 * 3.1415926535 / 180) ≤ 1 :=
      Real.sin_le_one _
    have hE : (Real.pi / 4 + 1) * 180 / 3.1415926535 - 45 * Real.pi / 3.1415926535
        = 180 / 3.1415926535 := by
      field_simp
      ring
    rw [not_le]
    have hpos : (0:ℝ) < 180 / 3.1415926535 := by norm_num
    have h71 : √2 / 2 ≤ 0.75 := by linarith
    have hres : (Real.pi / 4 + 1) * 180 / 3.1415926535
          - √2 / 2 * (180 / 3.1415926535)
              * Real.sin ((Real.pi / 4 + 1) * 180 / 3.1415926535 * 3.1415926535 / 180)
          - 45 * Real.pi / 3.1415926535
        = 180 / 3.1415926535 * (1 - √2 / 2
              * Real.sin ((Real.pi / 4 + 1) * 180 / 3.1415926535 * 3.1415926535 / 180)) := by
      linear_combination hE
    rw [hres]
    have hge : (0.25:ℝ) ≤ 1 - √2 / 2
        * Real.sin ((Real.pi / 4 + 1) * 180 / 3.1415926535 * 3.1415926535 / 180) := by
      have : √2 / 2 * Real.sin ((Real.pi / 4 + 1) * 180 / 3.1415926535 * 3.1415926535 / 180)
          ≤ √2 / 2 * 1 := mul_le_mul_of_nonneg_left hsin (by positivity)
      linarith
    have hbig : (1:ℝ) ≤ 180 / 3.1415926535 * (1 - √2 / 2
        * Real.sin ((Real.pi / 4 + 1) * 180 / 3.1415926535 * 3.1415926535 / 180)) := by
      have h57 : (57:ℝ) ≤ 180 / 3.1415926535 := by norm_num
      nlinarith
    rw [abs_of_pos (by linarith)]
    linarith

/-- C4: at `x = -0.5`, `floatingDegreesToDegreesMinutesSeconds` stores `(0, 30, 0)`, the sign
being lost with the degree `0`, and `degreesMinutesSecondsToFloatingDegrees` returns `0.5` on
that triple, not `-0.5`. -/
theorem degrees_roundtrip_at_neg_half :
    floatingDegreesToDegreesMinutesSeconds (-0.5) = (0, 30, 0)
    ∧ degreesMinutesSecondsToFloatingDegrees 0 30 0 = 0.5
    ∧ degreesMinutesSecondsToFloatingDegrees 0 30 0 ≠ -0.5 := by
  refine ⟨?_, ?_, ?_⟩
  · unfold floatingDegreesToDegreesMinutesSeconds
    simp
    norm_num
  · unfold degreesMinutesSecondsToFloatingDegrees DEGREES_MINUTES_SECONDS_TO_DECIMAL_DEGREES
    simp
    norm_num
  · unfold degreesMinutesSecondsToFloatingDegrees DEGREES_MINUTES_SECONDS_TO_DECIMAL_DEGREES
    simp
    norm_num

/-- C5: at `x = -1.5`, `floatingHoursToHoursMinutesSeconds` stores `(-1, 30, 0)` and
`hoursMinutesSecondsToFloatingHours` returns `-1 + 30/60 = -0.5` on that triple, not `-1.5`:
the minutes and seconds are added to a negative hour. -/
theorem hours_roundtrip_at_neg_one_and_half :
    floatingHoursToHoursMinutesSeconds (-1.5) = (-1, 30, 0)
    ∧ hoursMinutesSecondsToFloatingHours (-1) 30 0 = -0.5
    ∧ hoursMinutesSecondsToFloatingHours (-1) 30 0 ≠ -1.5 := by
  refine ⟨?_, ?_, ?_⟩
  · unfold floatingHoursToHoursMinutesSeconds
    simp
    norm_num
  · unfold hoursMinutesSecondsToFloatingHours HOURS_MINUTES_SECONDS_TO_DECIMAL_HOURS
    simp
    norm_num
  · unfold hoursMinutesSecondsToFloatingHours HOURS_MINUTES_SECONDS_TO_DECIMAL_HOURS
    simp
    norm_num

/-- C7: for each of the nine bodies of the enumeration and every `T`,
`heliocentricCoordinatesForPlanetAndT` returns as radius the combination
`(r0 + r1*T' + r2*T'^2 + r3*T'^3 + r4*T'^4 + r5*T'^5)/10^8` at `T' = T/10` of the sums of the
body's radius tables (`0` for an order without table), as latitude the same combination of
the `B` tables converted to degrees, and as longitude the same combination of the `L` tables
converted to degrees and reduced by `LIMIT_DEGREES_TO_360`. -/
theorem heliocentricCoordinatesForPlanetAndT_formula (tb : VSOP87Tables)
    (solarSystemObjectIndex : SolarSystemObjectIndex) (T : CFloat)
    (h : ∀ code, solarSystemObjectIndex ≠ .other code) :
    heliocentricCoordinatesForPlanetAndT tb solarSystemObjectIndex T =
      { lon := LIMIT_DEGREES_TO_360 (RADIANS_TO_DEGREES
          (seriesPolynomial (planetTables tb solarSystemObjectIndex .L) (T / 10)))
        lat := RADIANS_TO_DEGREES
          (seriesPolynomial (planetTables tb solarSystemObjectIndex .B) (T / 10))
        radius := seriesPolynomial (planetTables tb solarSystemObjectIndex .R) (T / 10) } := by
  cases solarSystemObjectIndex with
  | other code => exact absurd rfl (h code)
  | _ =>
    unfold heliocentricCoordinatesForPlanetAndT seriesPolynomial planetTables orderSum
    simp only [List.get?, scale_eq, pow_succ, pow_zero, one_mul]

/-- Witness of C7: with the sample tables, the radius of Mars at `T = 10` is `1`. -/
theorem heliocentricCoordinatesForPlanetAndT_formula_witness :
    (heliocentricCoordinatesForPlanetAndT sampleTables .Mars 10).radius = 1 := by
  rw [heliocentricCoordinatesForPlanetAndT_formula sampleTables .Mars 10
    (fun code h => by cases h)]
  unfold seriesPolynomial planetTables orderSum sampleTables sumVSOP87Coefs
  simp
  norm_num

/-- C8: for every body identifier outside the nine of the enumeration and every `T`,
`heliocentricCoordinatesForPlanetAndT` returns `nan` as longitude, latitude and radius. -/
theorem heliocentricCoordinatesForPlanetAndT_other (tb : VSOP87Tables) (code : ℕ) (T : CFloat) :
    heliocentricCoordinatesForPlanetAndT tb (.other code) T = ⟨nan, nan, nan⟩ := by
  unfold heliocentricCoordinatesForPlanetAndT RADIANS_TO_DEGREES LIMIT_DEGREES_TO_360
  simp

/-- C9: for a body that is not one of the nine the call ends after at most one pass of the
loop, which leaves through `break` before `rectPlanet`, `x2`, `y2` and the cell `distance` are
assigned: the outputs are computed from what those variables held before the loop, and
`distance` is never written.  At `jd.day = 2488070`, `jd.time = 0` (`T0 = 1`), with
`rectPlanet = (1, 0, 0)`, `x2 = 1`, `y2 = 0` and the cell `distance` holding `0`, the right
ascension, declination and geocentric longitude and latitude returned are numbers, not `nan`,
and `distance` still holds `0`. -/
theorem unsupported_body_outputs_from_uninitialised (tb : VSOP87Tables) (code : ℕ) :
    (∀ (jd : JulianDay) (u : Uninitialised), ∃ s : LightTimeState,
      (∀ fuel, 2 ≤ fuel →
        equatorialCoordinatesForPlanetAtJD tb fuel (.other code) jd u
          = some (planetPositionAfterLoop s))
      ∧ s.passes ≤ 1 ∧ s.rectPlanet = u.rectPlanet ∧ s.x2 = u.x2 ∧ s.y2 = u.y2
      ∧ (planetPositionAfterLoop s).distance = u.distance)
    ∧ ∃ r : PlanetPosition,
      (∀ fuel, 2 ≤ fuel →
        equatorialCoordinatesForPlanetAtJD tb fuel (.other code) ⟨2488070, 0⟩ sampleUninit
          = some r)
      ∧ r.passes = 1
      ∧ isnan r.coordinates.ra = false ∧ isnan r.coordinates.dec = false
      ∧ isnan r.gCoordinates.lon = false ∧ isnan r.gCoordinates.lat = false
      ∧ r.distance = sampleUninit.distance ∧ isnan r.distance = false := by
  constructor
  · intro jd u
    obtain ⟨s, hs, h1, h2, h3, h4, h5⟩ := lightTimeLoop_other tb code jd u
    refine ⟨s, fun fuel h => ?_, h1, h2, h3, h4, h5⟩
    unfold equatorialCoordinatesForPlanetAtJD
    rw [hs fuel h]
    rfl
  · have hT : (lightTimeInit ⟨2488070, 0⟩ sampleUninit).T = num 1 := by
      unfold lightTimeInit
      simp; norm_num
    have hne : CFloat.ne (lightTimeInit ⟨2488070, 0⟩ sampleUninit).T 0 := by
      rw [hT]; simp
    have hbody := lightTimeBody_other tb code ⟨2488070, 0⟩ (lightTimeInit ⟨2488070, 0⟩ sampleUninit)
    have hT1 : (lightTimeBody tb (.other code) ⟨2488070, 0⟩
        (lightTimeInit ⟨2488070, 0⟩ sampleUninit)).1.T = num 1 := by
      rw [hbody]; (unfold lightTimeInit; simp); norm_num
    refine ⟨planetPositionAfterLoop (lightTimeBody tb (.other code) ⟨2488070, 0⟩
      (lightTimeInit ⟨2488070, 0⟩ sampleUninit)).1, fun fuel h => ?_, ?_, ?_⟩
    · unfold equatorialCoordinatesForPlanetAtJD
      rw [lightTimeLoop_init_of_le _ _ _ _ _ h, if_pos hne]
      rfl
    · rw [hbody]; rfl
    · obtain ⟨h1, h2, h3, h4⟩ := planetPositionAfterLoop_sample
        (lightTimeBody tb (.other code) ⟨2488070, 0⟩ (lightTimeInit ⟨2488070, 0⟩ sampleUninit)).1
        1 hT1 (by rw [hbody]; rfl) (by rw [hbody]; rfl) (by rw [hbody]; rfl)
      refine ⟨h1, h2, h3, h4, ?_, ?_⟩
      · rw [hbody]; rfl
      · rw [hbody]; rfl

/-! ## Ranges of the reduced angles -/

/-- The macros `LIMIT_DEGREES_TO_360` and `LIMIT_HOURS_TO_24` on a number `x`: the first gives
a number of `[0, 360]`; the remainders `x - ⌊x / 360⌋ * 360` and `x - ⌊x / 24⌋ * 24` of their
first branches lie in `[0, 360)` and `[0, 24)`; and the second takes its first branch when `x`
is not negative. -/
theorem limit_ranges (x : ℝ) :
    (∃ y : ℝ, LIMIT_DEGREES_TO_360 (num x) = num y ∧ 0 ≤ y ∧ y ≤ 360)
    ∧ (0 ≤ x - (⌊x / 360⌋ : ℝ) * 360 ∧ x - (⌊x / 360⌋ : ℝ) * 360 < 360)
    ∧ (0 ≤ x - (⌊x / 24⌋ : ℝ) * 24 ∧ x - (⌊x / 24⌋ : ℝ) * 24 < 24)
    ∧ (0 ≤ x → LIMIT_HOURS_TO_24 (num x) = num (x - (⌊x / 24⌋ : ℝ) * 24)) := by
  have h1 := Int.floor_le (x / 360)
  have h2 := Int.lt_floor_add_one (x / 360)
  have h3 := Int.le_ceil (x / 360)
  have h4 := Int.ceil_lt_add_one (x / 360)
  have h5 := Int.floor_le (x / 24)
  have h6 := Int.lt_floor_add_one (x / 24)
  refine ⟨⟨_, LIMIT_DEGREES_TO_360_num x, ?_⟩, ⟨by linarith, by linarith⟩,
    ⟨by linarith, by linarith⟩, fun h => by rw [LIMIT_HOURS_TO_24_num, if_pos h]⟩
  split_ifs <;> constructor <;> linarith

/-- A value that is not `nan` is a number, and so are its sine and its cosine, which lie in
`[-1, 1]`. -/
theorem num_of_isnan {a : CFloat} (h : isnan a = false) :
    (∃ x : ℝ, a = num x)
    ∧ (∃ s : ℝ, sin a = num s ∧ -1 ≤ s ∧ s ≤ 1)
    ∧ (∃ c : ℝ, cos a = num c ∧ -1 ≤ c ∧ c ≤ 1) := by
  cases a with
  | nan => simp at h
  | num x =>
    exact ⟨⟨x, rfl⟩, ⟨_, rfl, Real.neg_one_le_sin x, Real.sin_le_one x⟩,
      ⟨_, rfl, Real.neg_one_le_cos x, Real.cos_le_one x⟩⟩

/-- C16 (refuted): for some real `T` between `-1` and `0` the mean longitude `L` that
`planetayOrbitForPlanetAndT` returns for Mercury is `360`, which is not in `[0, 360)`: the
polynomial takes the value `-360` there and the second branch of `LIMIT_DEGREES_TO_360` adds
`360` to a remainder that is `0`. -/
theorem planetayOrbit_Mercury_L_eq_360 :
    ∃ T : ℝ, -1 ≤ T ∧ T ≤ 0 ∧ ∀ uninit : PlanetayOrbit,
      (planetayOrbitForPlanetAndT uninit .Mercury (num T)).L = num 360 := by
  have hcont : ContinuousOn (fun T : ℝ =>
      252.250906 + 149474.0722491 * T + 0.00030350 * (T * T) + 0.000000018 * (T * T * T))
      (Set.Icc (-1) 0) := by
    apply Continuous.continuousOn
    fun_prop
  have hmem : (-360 : ℝ) ∈ Set.Icc
      ((fun T : ℝ => 252.250906 + 149474.0722491 * T + 0.00030350 * (T * T)
        + 0.000000018 * (T * T * T)) (-1))
      ((fun T : ℝ => 252.250906 + 149474.0722491 * T + 0.00030350 * (T * T)
        + 0.000000018 * (T * T * T)) 0) := by
    constructor <;> norm_num
  obtain ⟨T, hT, hL⟩ :=
    intermediate_value_Icc (show (-1 : ℝ) ≤ 0 by norm_num) hcont hmem
  refine ⟨T, hT.1, hT.2, fun uninit => ?_⟩
  have : (252.250906 : CFloat) + 149474.0722491 * num T + 0.00030350 * (num T * num T)
      + 0.000000018 * (num T * num T * num T) = num (-360) := by
    simp only [ofScientific_eq, num_mul, num_add]
    rw [← hL]
  have hceil : ⌈(-1 : ℝ)⌉ = -1 := by
    rw [Int.ceil_eq_iff]
    norm_num
  unfold planetayOrbitForPlanetAndT
  simp only [this, LIMIT_DEGREES_TO_360_num]
  norm_num [hceil]

/-- C17: for every `T`, `nan` included, and whatever the uninitialised fields hold,
`planetayOrbitForPlanetAndT` returns for the Earth the inclination `i = 0` and the longitude of
the ascending node `omega = nan`, after the reduction by `LIMIT_DEGREES_TO_360`. -/
theorem planetayOrbit_Earth (uninit : PlanetayOrbit) (T : CFloat) :
    (planetayOrbitForPlanetAndT uninit .Earth T).i = 0
    ∧ (planetayOrbitForPlanetAndT uninit .Earth T).omega = nan := by
  constructor
  · unfold planetayOrbitForPlanetAndT
    simp
  · unfold planetayOrbitForPlanetAndT LIMIT_DEGREES_TO_360
    simp

/-! ## Sidereal time -/

/-- The two sidereal times on a Julian Day whose time is a number: the sidereal time at 0h, a
number `θ` of `[0, 24]`, plus `1.00273790935` times the time of day in hours, reduced by the
first branch of `LIMIT_HOURS_TO_24`; for `apparentSideralTime` with the Julian Day of the date,
for `meanGreenwichSiderealTimeAtDateAndTime` with the Julian Day of the date at 0h 0m 0s. -/
theorem siderealTime_num (cal : Calendar) (day month year : ℕ) :
    (isnan (cal.julianDayForDate day month year).time = false →
      ∃ θ : ℝ, 0 ≤ θ ∧ θ ≤ 24
        ∧ ∀ hours minutes seconds : ℕ,
          apparentSideralTime cal day month year hours minutes seconds
            = num ((θ + 1.00273790935
                    * ((hours : ℝ) + (minutes : ℝ) / 60 + (seconds : ℝ) / 3600))
                - (⌊(θ + 1.00273790935
                    * ((hours : ℝ) + (minutes : ℝ) / 60 + (seconds : ℝ) / 3600)) / 24⌋ : ℝ)
                  * 24))
    ∧ (isnan (cal.julianDayForDateAndTime day month year 0 0 0).time = false →
      ∃ θ : ℝ, 0 ≤ θ ∧ θ ≤ 24
        ∧ ∀ hours minutes seconds : ℕ,
          meanGreenwichSiderealTimeAtDateAndTime cal day month year hours minutes seconds
            = num ((θ + 1.00273790935
                    * ((hours : ℝ) * 3600 + (minutes : ℝ) * 60 + (seconds : ℝ)) / 3600)
                - (⌊(θ + 1.00273790935
                    * ((hours : ℝ) * 3600 + (minutes : ℝ) * 60 + (seconds : ℝ)) / 3600)
                    / 24⌋ : ℝ) * 24)) := by
  have hθ : ∀ y : ℝ, DEGREES_TO_FLOATING_HOURS (num y) = num (y / 15.0) := fun y => by
    unfold DEGREES_TO_FLOATING_HOURS
    simp only [ofScientific_eq]
    exact num_div_of_ne _ (by norm_num)
  constructor
  · intro ht
    obtain ⟨t, ht'⟩ := (num_of_isnan ht).1
    obtain ⟨T, hT⟩ : ∃ T : ℝ, (ofInt (cal.julianDayForDate day month year).day - 2451545.0
        + (cal.julianDayForDate day month year).time) / 36525 = num T := by
      rw [ht']
      simp only [ofInt_eq, ofScientific_eq, ofNat_eq, num_sub, num_add]
      exact ⟨_, num_div_of_ne _ (by norm_num)⟩
    obtain ⟨x, hx⟩ : ∃ x : ℝ, (100.46061837 : CFloat) + num T * 36000.770053608
        + num T * num T * 0.000387933 - num T * num T * num T / 38710000 = num x := by
      simp only [ofScientific_eq, ofNat_eq, num_mul, num_add,
        num_div_of_ne _ (by norm_num : (38710000 : ℝ) ≠ 0), num_sub]
      exact ⟨_, rfl⟩
    obtain ⟨y, hy, hy0, hy1⟩ := (limit_ranges x).1
    refine ⟨y / 15.0, by positivity, ?_, fun hours minutes seconds => ?_⟩
    · rw [div_le_iff₀ (by norm_num)]; linarith
    · have htime : HOURS_MINUTES_SECONDS_TO_DECIMAL_HOURS (ofUInt hours) (ofUInt minutes)
          (ofUInt seconds) = num ((hours : ℝ) + (minutes : ℝ) / 60 + (seconds : ℝ) / 3600) := by
        unfold HOURS_MINUTES_SECONDS_TO_DECIMAL_HOURS ofUInt
        simp only [ofNat_eq, num_div_of_ne _ (by norm_num : (60 : ℝ) ≠ 0),
          num_div_of_ne _ (by norm_num : (3600 : ℝ) ≠ 0), num_add]
      unfold apparentSideralTime
      simp only []
      rw [hT, hx, hy, hθ, htime]
      simp only [ofScientific_eq, num_mul, num_add]
      apply (limit_ranges _).2.2.2
      have h1 : (0 : ℝ) ≤ y / 15.0 := by positivity
      have h2 : (0 : ℝ) ≤ (hours : ℝ) + (minutes : ℝ) / 60 + (seconds : ℝ) / 3600 := by
        positivity
      have h3 : (0 : ℝ) ≤ 1.00273790935 := by norm_num
      nlinarith [mul_nonneg h3 h2]
  · intro ht
    obtain ⟨t, ht'⟩ := (num_of_isnan ht).1
    obtain ⟨T, hT⟩ : ∃ T : ℝ,
        ofInt (cal.julianDayForDateAndTime day month year 0 0 0).day / 36525.0
        - 2451545.0 / 36525.0
        + (cal.julianDayForDateAndTime day month year 0 0 0).time / 36525.0 = num T := by
      rw [ht']
      simp only [ofInt_eq, ofScientific_eq, num_div_of_ne _ (by norm_num : (36525.0 : ℝ) ≠ 0),
        num_sub, num_add]
      exact ⟨_, rfl⟩
    obtain ⟨x, hx⟩ : ∃ x : ℝ, (100.46061837 : CFloat) + (36000.770053608 * num T)
        + (0.000387933 * (num T * num T)) - (num T * num T * num T / 38710000) = num x := by
      simp only [ofScientific_eq, ofNat_eq, num_mul, num_add,
        num_div_of_ne _ (by norm_num : (38710000 : ℝ) ≠ 0), num_sub]
      exact ⟨_, rfl⟩
    obtain ⟨y, hy, hy0, hy1⟩ := (limit_ranges x).1
    refine ⟨y / 15.0, by positivity, ?_, fun hours minutes seconds => ?_⟩
    · rw [div_le_iff₀ (by norm_num)]; linarith
    · have htime : SECONDS_TO_DECIMAL_HOURS (1.00273790935 * HOURS_MINUTES_SECONDS_TO_SECONDS
          (ofUInt hours) (ofUInt minutes) (ofUInt seconds))
          = num (1.00273790935
              * ((hours : ℝ) * 3600 + (minutes : ℝ) * 60 + (seconds : ℝ)) / 3600) := by
        unfold SECONDS_TO_DECIMAL_HOURS HOURS_MINUTES_SECONDS_TO_SECONDS ofUInt
        simp only [ofNat_eq, ofScientific_eq, num_mul, num_add,
          num_div_of_ne _ (by norm_num : (3600 : ℝ) ≠ 0)]
      unfold meanGreenwichSiderealTimeAtDateAndTime
      simp only []
      rw [hT, hx, hy, hθ, htime]
      simp only [num_add]
      apply (limit_ranges _).2.2.2
      have h1 : (0 : ℝ) ≤ y / 15.0 := by positivity
      have h2 : (0 : ℝ) ≤ 1.00273790935
          * ((hours : ℝ) * 3600 + (minutes : ℝ) * 60 + (seconds : ℝ)) / 3600 := by positivity
      linarith

/-- The obliquity and the nutation in longitude at `T = 0`: two numbers, the obliquity between
`23.4365` and `23.4421` degrees, the nutation in longitude between `-20` and `-9` seconds of
arc. -/
theorem obliquityAndNutationForT_zero :
    ∃ ε dψ : ℝ, (obliquityAndNutationForT (num 0)).1 = num ε
      ∧ (obliquityAndNutationForT (num 0)).2.2 = num dψ
      ∧ 23.4365 ≤ ε ∧ ε ≤ 23.4421 ∧ -20 < dψ ∧ dψ < -9 := by
  have hsin : 0.7 ≤ Real.sin (125.0443 * 3.1415926535 / 180) := by
    have hπ1 := Real.pi_gt_d2
    have hπ2 := Real.pi_lt_d2
    rw [← Real.sin_pi_sub]
    have h0 : 0 < Real.pi - 125.0443 * 3.1415926535 / 180 := by norm_num at hπ1 ⊢; linarith
    have h1 : Real.pi - 125.0443 * 3.1415926535 / 180 ≤ 0.97 := by
      norm_num at hπ2 ⊢; linarith
    have h2 : 0.95 ≤ Real.pi - 125.0443 * 3.1415926535 / 180 := by
      norm_num at hπ1 ⊢; linarith
    have h3 := Real.sin_gt_sub_cube h0 (by linarith)
    generalize Real.pi - 125.0443 * 3.1415926535 / 180 = y at h0 h1 h2 h3 ⊢
    have h4 : y ^ 3 ≤ 0.97 ^ 3 := pow_le_pow_left₀ h0.le h1 3
    norm_num at h4 ⊢
    linarith
  obtain ⟨Ls, hLs⟩ := (num_of_isnan (a := LIMIT_DEGREES_TO_360
    (280.4565 + num 0 * 36000.7698 + num 0 * num 0 * 0.000303)) (by simp)).1
  obtain ⟨Lm, hLm⟩ := (num_of_isnan (a := LIMIT_DEGREES_TO_360
    (218.3164 + num 0 * 481267.8812 - num 0 * num 0 * 0.001599)) (by simp)).1
  obtain ⟨Ms, hMs⟩ := (num_of_isnan (a := LIMIT_DEGREES_TO_360
    (357.5291 + num 0 * 35999.0503 - num 0 * num 0 * 0.000154)) (by simp)).1
  obtain ⟨Mm, hMm⟩ := (num_of_isnan (a := LIMIT_DEGREES_TO_360
    (134.9634 + num 0 * 477198.8675 + num 0 * num 0 * 0.008721)) (by simp)).1
  have homega : LIMIT_DEGREES_TO_360
      (125.0443 - num 0 * 1934.1363 + num 0 * num 0 * 0.008721) = num 125.0443 := by
    simp only [ofScientific_eq, num_mul, num_sub, num_add, LIMIT_DEGREES_TO_360_num]
    congr 1
    have hx : (125.0443 - 0 * 1934.1363 + 0 * 0 * 0.008721 : ℝ) = 125.0443 := by norm_num
    have hfloor : ⌊(125.0443 : ℝ) / 360⌋ = 0 := by rw [Int.floor_eq_iff]; norm_num
    rw [hx, if_pos (by norm_num), hfloor]
    norm_num
  obtain ⟨s1, hs1, _, _⟩ := (num_of_isnan (a := (num 125.0443 * PI) / 180) (by simp)).2.1
  obtain ⟨s2, hs2, _, _⟩ := (num_of_isnan (a := (2 * num Ls * PI) / 180) (by simp)).2.1
  obtain ⟨s3, hs3, _, _⟩ := (num_of_isnan (a := (2 * num Lm * PI) / 180) (by simp)).2.1
  obtain ⟨s4, hs4, _, _⟩ := (num_of_isnan (a := (2 * num 125.0443 * PI) / 180) (by simp)).2.1
  obtain ⟨s5, hs5, _, _⟩ := (num_of_isnan (a := (num Ms * PI) / 180) (by simp)).2.1
  obtain ⟨s6, hs6, _, _⟩ := (num_of_isnan (a := (num Mm * PI) / 180) (by simp)).2.1
  obtain ⟨s7, hs7, _, _⟩ :=
    (num_of_isnan (a := (2 * num Ls + num Ms * PI) / 180) (by simp)).2.1
  obtain ⟨s8, hs8, _, _⟩ :=
    (num_of_isnan (a := (2 * num Lm - num 125.0443 * PI) / 180) (by simp)).2.1
  obtain ⟨s9, hs9, _, _⟩ :=
    (num_of_isnan (a := (2 * num Lm + num Mm * PI) / 180) (by simp)).2.1
  obtain ⟨s10, hs10, _, _⟩ :=
    (num_of_isnan (a := (2 * num Ls - num Ms * PI) / 180) (by simp)).2.1
  obtain ⟨s11, hs11, _, _⟩ :=
    (num_of_isnan (a := (2 * num Ls - 2 * num Lm + num Mm * PI) / 180) (by simp)).2.1
  obtain ⟨s12, hs12, _, _⟩ :=
    (num_of_isnan (a := (2 * num Ls - num 125.0443 * PI) / 180) (by simp)).2.1
  obtain ⟨s13, hs13, _, _⟩ :=
    (num_of_isnan (a := (2 * num Lm - num Mm * PI) / 180) (by simp)).2.1
  obtain ⟨c1, hc1, _, _⟩ := (num_of_isnan (a := (num 125.0443 * PI) / 180) (by simp)).2.2
  obtain ⟨c2, hc2, _, _⟩ := (num_of_isnan (a := (2 * num Ls * PI) / 180) (by simp)).2.2
  obtain ⟨c3, hc3, _, _⟩ := (num_of_isnan (a := (2 * num Lm * PI) / 180) (by simp)).2.2
  obtain ⟨c4, hc4, _, _⟩ := (num_of_isnan (a := (2 * num 125.0443 * PI) / 180) (by simp)).2.2
  obtain ⟨c5, hc5, _, _⟩ :=
    (num_of_isnan (a := (2 * num Ls + num Ms * PI) / 180) (by simp)).2.2
  obtain ⟨c6, hc6, _, _⟩ :=
    (num_of_isnan (a := (2 * num Lm - num 125.0443 * PI) / 180) (by simp)).2.2
  obtain ⟨c7, hc7, _, _⟩ :=
    (num_of_isnan (a := (2 * num Lm + num Mm * PI) / 180) (by simp)).2.2
  obtain ⟨c8, hc8, _, _⟩ :=
    (num_of_isnan (a := (2 * num Ls - num Ms * PI) / 180) (by simp)).2.2
  obtain ⟨c9, hc9, _, _⟩ :=
    (num_of_isnan (a := (2 * num Ls - num 125.0443 * PI) / 180) (by simp)).2.2
  have hs1' : 0.7 ≤ s1 := by
    have h : sin ((num 125.0443 * PI) / 180)
        = num (Real.sin (125.0443 * 3.1415926535 / 180)) := by
      unfold PI
      simp only [ofScientific_eq, ofNat_eq, num_mul,
        num_div_of_ne _ (by norm_num : (180 : ℝ) ≠ 0), sin_num]
    rw [h] at hs1
    rw [← num.inj hs1]
    exact hsin
  unfold obliquityAndNutationForT
  simp only []
  rw [hLs, hLm, hMs, hMm, homega, hs1, hs2, hs3, hs4, hs5, hs6, hs7, hs8, hs9, hs10, hs11,
    hs12, hs13, hc1, hc2, hc3, hc4, hc5, hc6, hc7, hc8, hc9]
  unfold DEGREES_MINUTES_SECONDES_TO_SECONDS SECONDS_TO_DECIMAL_DEGREES
  simp only [ofScientific_eq, ofNat_eq, num_mul, num_sub, num_add, neg_num,
    num_div_of_ne _ (by norm_num : (3600 : ℝ) ≠ 0)]
  refine ⟨_, _, rfl, rfl, ?_, ?_, ?_, ?_⟩
  · rw [le_div_iff₀ (by norm_num)]; norm_num; linarith
  · rw [div_le_iff₀ (by norm_num)]; norm_num; linarith
  · norm_num; linarith
  · norm_num; linarith

/-- C18 (refuted): `apparentSideralTime` adds no nutation term.  For a calendar that gives to
the date the Julian Day of that date at 0h 0m 0s, with a number as time, it returns the value of
`meanGreenwichSiderealTimeAtDateAndTime`; and at a date and time of Julian Day `2451545`, where
the term `(deltaNutation / 15 * COSD epsilon) / 3600` of `obliquityAndNutationForT` is a number
`δ` of `(-0.001, 0)`, it differs from the mean sidereal time plus that term, reduced by
`LIMIT_HOURS_TO_24`. -/
theorem apparentSideralTime_adds_no_nutation (cal : Calendar)
    (day month year hours minutes seconds : ℕ)
    (hc : cal.julianDayForDate day month year = cal.julianDayForDateAndTime day month year 0 0 0)
    (ht : isnan (cal.julianDayForDate day month year).time = false)
    (hJ : cal.julianDayForDateAndTime day month year hours minutes seconds = ⟨2451545, 0⟩) :
    apparentSideralTime cal day month year hours minutes seconds
        = meanGreenwichSiderealTimeAtDateAndTime cal day month year hours minutes seconds
      ∧ ∃ (T term : CFloat) (δ : ℝ),
          T = ofInt (cal.julianDayForDateAndTime day month year hours minutes seconds).day / 36525.0
              - 2451545.0 / 36525.0
              + (cal.julianDayForDateAndTime day month year hours minutes seconds).time / 36525.0
          ∧ term = ((obliquityAndNutationForT T).2.2 / 15 * COSD (obliquityAndNutationForT T).1)
              / 3600
          ∧ term = num δ ∧ δ < 0 ∧ -0.001 < δ
          ∧ apparentSideralTime cal day month year hours minutes seconds
              ≠ LIMIT_HOURS_TO_24
                  (meanGreenwichSiderealTimeAtDateAndTime cal day month year hours minutes seconds
                    + term) := by
  have hcent : ∀ (d : ℤ) (time : CFloat), (ofInt d - 2451545.0 + time) / 36525
      = ofInt d / 36525.0 - 2451545.0 / 36525.0 + time / 36525.0 := by
    intro d time
    cases time with
    | nan => simp
    | num t =>
      simp only [ofInt_eq, ofScientific_eq, ofNat_eq, num_sub, num_add,
        num_div_of_ne _ (by norm_num : (36525 : ℝ) ≠ 0),
        num_div_of_ne _ (by norm_num : (36525.0 : ℝ) ≠ 0)]
      congr 1
      norm_num
      ring
  have htod : 1.00273790935 * HOURS_MINUTES_SECONDS_TO_DECIMAL_HOURS (ofUInt hours)
      (ofUInt minutes) (ofUInt seconds)
      = SECONDS_TO_DECIMAL_HOURS (1.00273790935 * HOURS_MINUTES_SECONDS_TO_SECONDS
        (ofUInt hours) (ofUInt minutes) (ofUInt seconds)) := by
    unfold SECONDS_TO_DECIMAL_HOURS HOURS_MINUTES_SECONDS_TO_SECONDS
      HOURS_MINUTES_SECONDS_TO_DECIMAL_HOURS ofUInt
    simp only [ofNat_eq, ofScientific_eq, num_mul, num_add,
      num_div_of_ne _ (by norm_num : (3600 : ℝ) ≠ 0),
      num_div_of_ne _ (by norm_num : (60 : ℝ) ≠ 0)]
    congr 1
    ring
  have heq : apparentSideralTime cal day month year hours minutes seconds
      = meanGreenwichSiderealTimeAtDateAndTime cal day month year hours minutes seconds := by
    unfold apparentSideralTime meanGreenwichSiderealTimeAtDateAndTime
    simp only []
    rw [hc, hcent, htod]
    generalize ofInt (cal.julianDayForDateAndTime day month year 0 0 0).day / 36525.0
      - 2451545.0 / 36525.0
      + (cal.julianDayForDateAndTime day month year 0 0 0).time / 36525.0 = T
    rw [mul_comm T 36000.770053608, mul_comm (T * T) 0.000387933]
  have hT : ofInt (cal.julianDayForDateAndTime day month year hours minutes seconds).day / 36525.0
      - 2451545.0 / 36525.0
      + (cal.julianDayForDateAndTime day month year hours minutes seconds).time / 36525.0
      = num 0 := by
    rw [hJ]
    simp only [ofInt_eq, ofScientific_eq, zero_eq,
      num_div_of_ne _ (by norm_num : (36525.0 : ℝ) ≠ 0), num_sub, num_add]
    congr 1
    norm_num
  obtain ⟨ε, dψ, hε, hdψ, hε0, hε1, hψ0, hψ1⟩ := obliquityAndNutationForT_zero
  obtain ⟨θ, _, _, hm⟩ := (siderealTime_num cal day month year).2 (by rw [← hc]; exact ht)
  obtain ⟨c, hcos, hc0, hc1⟩ :
      ∃ c : ℝ, Real.cos (ε * 3.1415926535 / 180) = c ∧ 0 < c ∧ c ≤ 1 := by
    refine ⟨_, rfl, Real.cos_pos_of_mem_Ioo ⟨?_, ?_⟩, Real.cos_le_one _⟩
    · have := Real.pi_gt_three
      norm_num at hε0 ⊢
      nlinarith
    · have := Real.pi_gt_three
      norm_num at hε1 ⊢
      nlinarith
  have hterm : ((obliquityAndNutationForT (num 0)).2.2 / 15
      * COSD (obliquityAndNutationForT (num 0)).1) / 3600 = num (dψ / 15 * c / 3600) := by
    rw [hε, hdψ, ← hcos]
    unfold COSD PI
    simp only [ofScientific_eq, ofNat_eq, num_mul, cos_num,
      num_div_of_ne _ (by norm_num : (15 : ℝ) ≠ 0),
      num_div_of_ne _ (by norm_num : (180 : ℝ) ≠ 0),
      num_div_of_ne _ (by norm_num : (3600 : ℝ) ≠ 0)]
  have hδ0 : dψ / 15 * c / 3600 < 0 := by
    have : dψ * c < 0 := mul_neg_of_neg_of_pos (by linarith) hc0
    rw [div_mul_eq_mul_div, div_div, div_lt_iff₀ (by norm_num)]
    linarith
  have hδ1 : -0.001 < dψ / 15 * c / 3600 := by
    have : -20 < dψ * c := by nlinarith
    rw [div_mul_eq_mul_div, div_div, lt_div_iff₀ (by norm_num)]
    norm_num
    linarith
  refine ⟨heq, _, _, _, rfl, rfl, ?_, hδ0, hδ1, ?_⟩
  · rw [hT, hterm]
  · rw [hT, heq, hterm, hm hours minutes seconds, num_add, LIMIT_HOURS_TO_24_num]
    intro h
    have h := num.inj h
    generalize θ + 1.00273790935
      * ((hours : ℝ) * 3600 + (minutes : ℝ) * 60 + (seconds : ℝ)) / 3600 = v at h
    have hr := (limit_ranges v).2.2.1
    generalize v - (⌊v / 24⌋ : ℝ) * 24 = m at h hr
    generalize dψ / 15 * c / 3600 = δ at h hδ0 hδ1
    norm_num at hδ1
    split_ifs at h
    · have hk : (⌊(m + δ) / 24⌋ : ℝ) * 24 = δ := by linarith
      rcases lt_trichotomy ⌊(m + δ) / 24⌋ 0 with hn | hz | hp
      · have : (⌊(m + δ) / 24⌋ : ℝ) ≤ -1 := by exact_mod_cast Int.le_sub_one_of_lt hn
        linarith
      · rw [hz] at hk
        norm_num at hk
        linarith
      · have : (0 : ℝ) < (⌊(m + δ) / 24⌋ : ℝ) := by exact_mod_cast hp
        linarith
    · linarith

/-- Witness of C18: the J2000.0 calendar and 1 January 2000 at 12h 0m 0s. -/
theorem apparentSideralTime_adds_no_nutation_witness :
    apparentSideralTime j2000Calendar 1 1 2000 12 0 0
        = meanGreenwichSiderealTimeAtDateAndTime j2000Calendar 1 1 2000 12 0 0
      ∧ ∃ (T term : CFloat) (δ : ℝ),
          T = ofInt (j2000Calendar.julianDayForDateAndTime 1 1 2000 12 0 0).day / 36525.0
              - 2451545.0 / 36525.0
              + (j2000Calendar.julianDayForDateAndTime 1 1 2000 12 0 0).time / 36525.0
          ∧ term = ((obliquityAndNutationForT T).2.2 / 15 * COSD (obliquityAndNutationForT T).1)
              / 3600
          ∧ term = num δ ∧ δ < 0 ∧ -0.001 < δ
          ∧ apparentSideralTime j2000Calendar 1 1 2000 12 0 0
              ≠ LIMIT_HOURS_TO_24
                  (meanGreenwichSiderealTimeAtDateAndTime j2000Calendar 1 1 2000 12 0 0 + term) :=
  apparentSideralTime_adds_no_nutation j2000Calendar 1 1 2000 12 0 0 rfl rfl rfl

/-! ## The observer and the horizontal coordinates -/

/-- The result of `solarSystemObjectAtDateAndTime` for any fuel of at least 2: the equatorial
coordinates and the distance do not depend on the observer or on the fuel, and for the Sun they
are those of `equatorialCoordinatesForSunAtJD`. -/
theorem solarSystemObjectAtDateAndTime_eq (cal : Calendar) (tb : VSOP87Tables)
    (u : Uninitialised) (idx : SolarSystemObjectIndex)
    (day month year hours minutes seconds : ℕ) :
    ∃ ed : EquatorialCoordinates × CFloat,
      (∀ (obs : ObserverLocation) (fuel : ℕ), 2 ≤ fuel →
        solarSystemObjectAtDateAndTime cal tb obs fuel u idx day month year hours minutes seconds
          = some (solarSystemObjectFrom cal obs idx day month year hours minutes seconds
              ed.1 ed.2))
      ∧ (idx = .Sun → ed = equatorialCoordinatesForSunAtJD
          (cal.julianDayForDateAndTime day month year hours minutes seconds)) := by
  by_cases hs : idx = .Sun
  · subst hs
    exact ⟨_, fun obs fuel _ => rfl, fun _ => rfl⟩
  · let jd := cal.julianDayForDateAndTime day month year hours minutes seconds
    let p := planetPositionAfterLoop (if CFloat.ne (lightTimeInit jd u).T 0
      then (lightTimeBody tb idx jd (lightTimeInit jd u)).1 else lightTimeInit jd u)
    refine ⟨(p.coordinates, p.distance), fun obs fuel hf => ?_, fun h => absurd h hs⟩
    have hp : equatorialCoordinatesForPlanetAtJD tb fuel idx jd u = some p := by
      unfold equatorialCoordinatesForPlanetAtJD
      rw [lightTimeLoop_init_of_le _ _ _ _ _ hf]
      rfl
    cases idx with
    | Sun => exact absurd rfl hs
    | _ => (unfold solarSystemObjectAtDateAndTime; simp only []); rw [hp]; rfl

/-- C11: whenever the stored latitude or the stored longitude of the observer is `nan`, as both
are before any call of a setter, `solarSystemObjectAtDateAndTime` returns, for every body,
date, time, calendar, tables and fuel of at least 2, an object whose altitude and azimuth are
`nan`. -/
theorem horizontal_nan_when_observer_unset (cal : Calendar) (tb : VSOP87Tables)
    (obs : ObserverLocation) (u : Uninitialised) (idx : SolarSystemObjectIndex)
    (day month year hours minutes seconds : ℕ)
    (hobs : isnan obs.latitudeOnEarth = true ∨ isnan obs.longitudeOnEarth = true) :
    ∃ r : SolarSystemObject,
      (∀ fuel, 2 ≤ fuel →
        solarSystemObjectAtDateAndTime cal tb obs fuel u idx day month year hours minutes seconds
          = some r)
      ∧ r.horiCoordinates.alt = nan ∧ r.horiCoordinates.azi = nan := by
  obtain ⟨ed, hed, _⟩ :=
    solarSystemObjectAtDateAndTime_eq cal tb u idx day month year hours minutes seconds
  refine ⟨_, fun fuel hf => hed obs fuel hf, ?_, ?_⟩
  · rcases hobs with h | h <;> (unfold solarSystemObjectFrom; simp [h])
  · rcases hobs with h | h <;> (unfold solarSystemObjectFrom; simp [h])

/-- Witness of C11: the initial observer, the sample calendar, tables and variables, Mars. -/
theorem horizontal_nan_when_observer_unset_witness :
    (isnan initialObserver.latitudeOnEarth = true ∨ isnan initialObserver.longitudeOnEarth = true)
    ∧ ∃ r : SolarSystemObject,
      (∀ fuel, 2 ≤ fuel →
        solarSystemObjectAtDateAndTime sampleCalendar sampleTables initialObserver fuel
          sampleUninit .Mars 1 1 2000 0 0 0 = some r)
      ∧ r.horiCoordinates.alt = nan ∧ r.horiCoordinates.azi = nan :=
  ⟨Or.inl rfl, horizontal_nan_when_observer_unset sampleCalendar sampleTables initialObserver
    sampleUninit .Mars 1 1 2000 0 0 0 (Or.inl rfl)⟩

/-- C13: for the same body, date, time, calendar and tables, and any two states `obs1` and
`obs2` of the observer, set or not, the objects that `solarSystemObjectAtDateAndTime` returns
(for every fuel of at least 2) have the same equatorial coordinates, the same distance and the
same diameter. -/
theorem equatorial_distance_diameter_independent_of_observer (cal : Calendar)
    (tb : VSOP87Tables) (u : Uninitialised) (idx : SolarSystemObjectIndex)
    (day month year hours minutes seconds : ℕ) (obs1 obs2 : ObserverLocation) :
    ∃ r1 r2 : SolarSystemObject,
      (∀ fuel, 2 ≤ fuel →
        solarSystemObjectAtDateAndTime cal tb obs1 fuel u idx day month year hours minutes
          seconds = some r1)
      ∧ (∀ fuel, 2 ≤ fuel →
        solarSystemObjectAtDateAndTime cal tb obs2 fuel u idx day month year hours minutes
          seconds = some r2)
      ∧ r1.equaCoordinates = r2.equaCoordinates
      ∧ r1.distance = r2.distance
      ∧ r1.diameter = r2.diameter := by
  obtain ⟨ed, hed, _⟩ :=
    solarSystemObjectAtDateAndTime_eq cal tb u idx day month year hours minutes seconds
  exact ⟨_, _, fun fuel hf => hed obs1 fuel hf, fun fuel hf => hed obs2 fuel hf, rfl, rfl, rfl⟩

/-- On three numbers `equatorialToHorizontal` returns two numbers; with a declination or an
hour angle that is `nan` it returns `nan` twice. -/
theorem equatorialToHorizontal_isnan :
    (∀ H delta phi : ℝ,
      isnan (equatorialToHorizontal (num H) (num delta) (num phi)).alt = false
      ∧ isnan (equatorialToHorizontal (num H) (num delta) (num phi)).azi = false)
    ∧ (∀ H phi : CFloat, (equatorialToHorizontal H nan phi).alt = nan
      ∧ (equatorialToHorizontal H nan phi).azi = nan)
    ∧ (∀ delta phi : CFloat, (equatorialToHorizontal nan delta phi).alt = nan
      ∧ (equatorialToHorizontal nan delta phi).azi = nan) := by
  refine ⟨fun H delta phi => ⟨?_, ?_⟩, fun H phi => ?_, fun delta phi => ?_⟩
  · have harg : ∀ φ δ H : ℝ,
        -1 ≤ Real.sin φ * Real.sin δ + Real.cos φ * Real.cos δ * Real.cos H
        ∧ Real.sin φ * Real.sin δ + Real.cos φ * Real.cos δ * Real.cos H ≤ 1 := by
      intro φ δ H
      have h := declination_argument_range φ (Real.pi / 2 - δ) (Real.pi / 2 - H)
      rwa [Real.cos_pi_div_two_sub, Real.sin_pi_div_two_sub, Real.sin_pi_div_two_sub] at h
    unfold equatorialToHorizontal SIND COSD RADIANS_TO_DEGREES PI
    simp only [ofNat_eq, ofScientific_eq, num_mul,
      num_div_of_ne _ (by norm_num : (180 : ℝ) ≠ 0), sin_num, cos_num, num_add]
    unfold CFloat.asin
    simp only [if_pos (harg _ _ _), num_mul,
      num_div_of_ne _ (by norm_num : (3.1415926535 : ℝ) ≠ 0), isnan_num]
  · unfold equatorialToHorizontal SIND COSD TAND RADIANS_TO_DEGREES
    simp
  · cases H <;> cases phi <;>
      (unfold equatorialToHorizontal SIND COSD TAND RADIANS_TO_DEGREES CFloat.asin CFloat.atan2
        LIMIT_DEGREES_TO_360; simp)
  · cases delta <;> cases phi <;>
      (unfold equatorialToHorizontal SIND COSD TAND RADIANS_TO_DEGREES CFloat.asin CFloat.atan2
        LIMIT_DEGREES_TO_360; simp)

/-- For a Julian Day whose time is a number, with `T` its Julian centuries: the right ascension
that `equatorialCoordinatesForSunAtJD` returns is `LIMIT_HOURS_TO_24` of an arc tangent times
`12 / PI`, the declination is an arc sine, of a number `p` of `[-1, 1]`, times `180 / PI`, and
the distance is `1.000001018 * (1 - e * e) / (1 + e * c)` for the eccentricity `e` at `T` and a
cosine `c`. -/
theorem equatorialCoordinatesForSunAtJD_num (jd : JulianDay) (ht : isnan jd.time = false) :
    ∃ T x p c : ℝ,
      (ofInt jd.day - 2451545.0 + jd.time) / 36525 = num T
      ∧ (equatorialCoordinatesForSunAtJD jd).1.ra
        = LIMIT_HOURS_TO_24 (num (Real.arctan x * 12 / 3.1415926535))
      ∧ (equatorialCoordinatesForSunAtJD jd).1.dec = num (Real.arcsin p * 180.0 / 3.1415926535)
      ∧ -1 ≤ p ∧ p ≤ 1 ∧ -1 ≤ c ∧ c ≤ 1
      ∧ (equatorialCoordinatesForSunAtJD jd).2
        = (1.000001018 * (1 - (0.016708634 - num T * 0.000042037 - num T * num T * 0.0000001267)
              * (0.016708634 - num T * 0.000042037 - num T * num T * 0.0000001267)))
          / (1 + (0.016708634 - num T * 0.000042037 - num T * num T * 0.0000001267)
              * num c) := by
  obtain ⟨t, ht'⟩ := (num_of_isnan ht).1
  obtain ⟨T, hT⟩ : ∃ T : ℝ, (ofInt jd.day - 2451545.0 + jd.time) / 36525 = num T := by
    rw [ht']
    simp only [ofInt_eq, ofScientific_eq, ofNat_eq, num_sub, num_add]
    exact ⟨_, num_div_of_ne _ (by norm_num)⟩
  have hobl := (isnan_obliquityAndNutationForT (num T)).1
  have key1 : ∀ A : CFloat, isnan A = false →
      ∃ x : ℝ, LIMIT_HOURS_TO_24 (atan A * 12 / PI)
        = LIMIT_HOURS_TO_24 (num (Real.arctan x * 12 / 3.1415926535)) := by
    intro A hA
    obtain ⟨x, rfl⟩ := (num_of_isnan hA).1
    refine ⟨x, ?_⟩
    unfold PI
    simp only [ofScientific_eq, ofNat_eq]
    rw [show atan (num x) = num (Real.arctan x) from rfl, num_mul,
      num_div_of_ne _ (by norm_num)]
  have key2 : ∀ a b : CFloat, isnan a = false → isnan b = false →
      ∃ p : ℝ, asin (sin a * sin b) * 180.0 / PI = num (Real.arcsin p * 180.0 / 3.1415926535)
        ∧ -1 ≤ p ∧ p ≤ 1 := by
    intro a b ha hb
    obtain ⟨x, rfl⟩ := (num_of_isnan ha).1
    obtain ⟨y, rfl⟩ := (num_of_isnan hb).1
    have h : -1 ≤ Real.sin x * Real.sin y ∧ Real.sin x * Real.sin y ≤ 1 := by
      have h1 := Real.neg_one_le_sin x
      have h2 := Real.sin_le_one x
      have h3 := Real.neg_one_le_sin y
      have h4 := Real.sin_le_one y
      constructor <;> nlinarith
    refine ⟨_, ?_, h⟩
    unfold CFloat.asin PI
    simp only [sin_num, num_mul, if_pos h, ofScientific_eq]
    rw [num_div_of_ne _ (by norm_num)]
  obtain ⟨x, hx⟩ : ∃ x : ℝ, (equatorialCoordinatesForSunAtJD jd).1.ra
      = LIMIT_HOURS_TO_24 (num (Real.arctan x * 12 / 3.1415926535)) := by
    unfold equatorialCoordinatesForSunAtJD
    simp only []
    rw [hT]
    exact key1 _ (by simp [hobl])
  obtain ⟨p, hp, hp0, hp1⟩ : ∃ p : ℝ, (equatorialCoordinatesForSunAtJD jd).1.dec
      = num (Real.arcsin p * 180.0 / 3.1415926535) ∧ -1 ≤ p ∧ p ≤ 1 := by
    unfold equatorialCoordinatesForSunAtJD
    simp only []
    rw [hT]
    exact key2 _ _ (by simp [hobl]) (by simp)
  obtain ⟨c, hc, hc0, hc1⟩ : ∃ c : ℝ, (equatorialCoordinatesForSunAtJD jd).2
      = (1.000001018 * (1 - (0.016708634 - num T * 0.000042037 - num T * num T * 0.0000001267)
            * (0.016708634 - num T * 0.000042037 - num T * num T * 0.0000001267)))
        / (1 + (0.016708634 - num T * 0.000042037 - num T * num T * 0.0000001267) * num c)
      ∧ -1 ≤ c ∧ c ≤ 1 := by
    unfold equatorialCoordinatesForSunAtJD
    simp only []
    rw [hT]
    obtain ⟨c, hc, hc0, hc1⟩ := (num_of_isnan (a := ((LIMIT_DEGREES_TO_360
      (357.52911 + num T * 35999.05029 - num T * num T * 0.0001537)
      + ((1.914602 - num T * 0.004817 - num T * num T * 0.000014)
          * sin ((LIMIT_DEGREES_TO_360
            (357.52911 + num T * 35999.05029 - num T * num T * 0.0001537) * PI) / 180)
        + (0.019993 - num T * 0.000101)
          * sin ((2 * LIMIT_DEGREES_TO_360
            (357.52911 + num T * 35999.05029 - num T * num T * 0.0001537) * PI) / 180)
        + 0.000289
          * sin ((3 * LIMIT_DEGREES_TO_360
            (357.52911 + num T * 35999.05029 - num T * num T * 0.0001537) * PI) / 180)))
      * PI) / 180) (by simp)).2.2
    exact ⟨c, by rw [hc], hc0, hc1⟩
  exact ⟨T, x, p, c, hT, hx, hp, hp0, hp1, hc0, hc1, hc⟩

/-- The Earth as the body, at a Julian Day whose centuries `T` differ from `0` and where the
radius of the Earth is a number: the loop ends after one pass, in a state where the quotient
`rectPlanet.z / sqrtf(x2 + y2)` is `nan`, so that the geocentric latitude, the right ascension
and the declination computed after the loop are `nan`; when the longitude and the latitude of
the Earth are numbers too, `rectPlanet` is the zero vector, `x2` and `y2` are `0` and the
distance is `0`. -/
theorem lightTimeLoop_Earth (tb : VSOP87Tables) (jd : JulianDay) (u : Uninitialised)
    (hT : CFloat.ne (lightTimeInit jd u).T 0)
    (hr : isnan (heliocentricCoordinatesForPlanetAndT tb .Earth
      (((ofInt jd.day + jd.time) - 0 - 2451545.0) / 36525)).radius = false) :
    ∃ s : LightTimeState,
      (∀ fuel, 2 ≤ fuel → lightTimeLoop tb .Earth jd fuel (lightTimeInit jd u) = some s)
      ∧ s.rectPlanet.z / sqrt (s.x2 + s.y2) = nan
      ∧ (planetPositionAfterLoop s).gCoordinates.lat = nan
      ∧ (planetPositionAfterLoop s).coordinates = ⟨nan, nan⟩
      ∧ (isnan (heliocentricCoordinatesForPlanetAndT tb .Earth
            (((ofInt jd.day + jd.time) - 0 - 2451545.0) / 36525)).lon = false →
          isnan (heliocentricCoordinatesForPlanetAndT tb .Earth
            (((ofInt jd.day + jd.time) - 0 - 2451545.0) / 36525)).lat = false →
          s.rectPlanet = ⟨num 0, num 0, num 0⟩ ∧ s.x2 = num 0 ∧ s.y2 = num 0
            ∧ s.distance = num 0) := by
  have hsub : ∀ a : CFloat, a - a = nan ∨ a - a = num 0 := by
    intro a
    cases a with
    | nan => exact Or.inl rfl
    | num x => right; rw [num_sub, sub_self]
  have hsubnum : ∀ a : CFloat, isnan a = false → a - a = num 0 := by
    intro a ha
    obtain ⟨x, rfl⟩ := (num_of_isnan ha).1
    rw [num_sub, sub_self]
  have hE : ∀ l e : CFloat, EclipticToEquatorial l nan e = ⟨nan, nan⟩ := by
    intro l e
    cases l <;> cases e <;>
      (unfold EclipticToEquatorial DEGREES_TO_RADIANS RADIANS_TO_HOURS RADIANS_TO_DEGREES
        CFloat.atan2 CFloat.asin LIMIT_HOURS_TO_24; simp)
  have hr' : isnan (heliocentricCoordinatesForPlanetAndT tb .Earth
      (((ofInt jd.day + jd.time) - (lightTimeInit jd u).TLight - 2451545.0) / 36525)).radius
      = false := hr
  generalize hhc : heliocentricCoordinatesForPlanetAndT tb .Earth
    (((ofInt jd.day + jd.time) - 0 - 2451545.0) / 36525) = hc at hr
  have hhc' : heliocentricCoordinatesForPlanetAndT tb .Earth
      (((ofInt jd.day + jd.time) - (lightTimeInit jd u).TLight - 2451545.0) / 36525) = hc := hhc
  have hq : (lightTimeBody tb .Earth jd (lightTimeInit jd u)).1.rectPlanet.z
      / sqrt ((lightTimeBody tb .Earth jd (lightTimeInit jd u)).1.x2
        + (lightTimeBody tb .Earth jd (lightTimeInit jd u)).1.y2) = nan := by
    unfold lightTimeBody
    simp only [hr', Bool.false_eq_true, if_false]
    unfold HeliocentricToRectangular
    simp only []
    rcases hsub (hc.radius * COSD hc.lat * COSD hc.lon) with hx | hx <;>
    rcases hsub (hc.radius * COSD hc.lat * SIND hc.lon) with hy | hy <;>
    rcases hsub (hc.radius * SIND hc.lat) with hz | hz <;>
    rw [hhc', hx, hy, hz] <;> (unfold CFloat.sqrt; simp [num_div])
  refine ⟨(lightTimeBody tb .Earth jd (lightTimeInit jd u)).1, fun fuel hf => ?_, hq, ?_, ?_,
    fun hlon hlat => ?_⟩
  · rw [lightTimeLoop_init_of_le _ _ _ _ _ hf, if_pos hT]
  · unfold planetPositionAfterLoop RADIANS_TO_DEGREES
    simp only [hq, nan_mul, nan_div, nan_sub]
  · unfold planetPositionAfterLoop RADIANS_TO_DEGREES
    simp only [hq, nan_mul, nan_div, nan_sub, hE]
  · have hS : ∀ a : CFloat, isnan (SIND a) = isnan a := fun a => by unfold SIND; simp
    have hC : ∀ a : CFloat, isnan (COSD a) = isnan a := fun a => by unfold COSD; simp
    have hx := hsubnum (hc.radius * COSD hc.lat * COSD hc.lon) (by simp [hC, hr, hlon, hlat])
    have hy := hsubnum (hc.radius * COSD hc.lat * SIND hc.lon)
      (by simp [hC, hS, hr, hlon, hlat])
    have hz := hsubnum (hc.radius * SIND hc.lat) (by simp [hS, hr, hlat])
    unfold lightTimeBody
    simp only [hr', Bool.false_eq_true, if_false]
    unfold HeliocentricToRectangular
    simp only [hhc', hx, hy, hz]
    unfold CFloat.sqrt
    simp

/-- C25: `kepler` runs `keplerLoop` for at most 10 steps from `E = M` in radians, with
`previousE = E + 1`.  For `M = π/4` radians and `e = √2/2` the loop stops after its first step,
however many steps are left, and returns `E = π/4 + 1`: that step changed `E`, and a further
Newton step from the returned `E` gives a different value, so the returned `E` is not a fixed
point of the step. -/
theorem kepler_stops_at_non_fixed_point :
    (∀ M e, kepler M e = RADIANS_TO_DEGREES
      (keplerLoop (DEGREES_TO_RADIANS M) e 10 (DEGREES_TO_RADIANS M) (DEGREES_TO_RADIANS M + 1)))
    ∧ DEGREES_TO_RADIANS (num (45 * Real.pi / 3.1415926535)) = num (Real.pi / 4)
    ∧ (∀ n, keplerLoop (num (Real.pi / 4)) (num (√2 / 2)) (n + 1) (num (Real.pi / 4))
        (num (Real.pi / 4) + 1) = num (Real.pi / 4 + 1))
    ∧ num (Real.pi / 4 + 1) ≠ num (Real.pi / 4)
    ∧ ∃ E : ℝ, num (Real.pi / 4 + 1)
          + (num (Real.pi / 4) + num (√2 / 2) * sin (num (Real.pi / 4 + 1))
              - num (Real.pi / 4 + 1))
            / (1 - num (√2 / 2) * cos (num (Real.pi / 4 + 1))) = num E
        ∧ E ≠ Real.pi / 4 + 1 := by
  have hs0 : (0:ℝ) ≤ √2 := Real.sqrt_nonneg 2
  have hs1 : √2 ≤ 1.5 := by
    rw [show (1.5:ℝ) = √(1.5^2) by rw [Real.sqrt_sq (by norm_num)]]
    exact Real.sqrt_le_sqrt (by norm_num)
  have hsin := Real.sin_le_one (Real.pi / 4 + 1)
  have hcos := Real.cos_le_one (Real.pi / 4 + 1)
  have hes : √2 / 2 * Real.sin (Real.pi / 4 + 1) ≤ 0.75 := by
    have := mul_le_mul_of_nonneg_left hsin (show (0:ℝ) ≤ √2 / 2 by positivity)
    linarith
  have hec : √2 / 2 * Real.cos (Real.pi / 4 + 1) ≤ 0.75 := by
    have := mul_le_mul_of_nonneg_left hcos (show (0:ℝ) ≤ √2 / 2 by positivity)
    linarith
  have hden : (1:ℝ) - √2 / 2 * Real.cos (Real.pi / 4 + 1) ≠ 0 := by linarith
  have hE : num (Real.pi / 4 + 1)
        + (num (Real.pi / 4) + num (√2 / 2) * sin (num (Real.pi / 4 + 1))
            - num (Real.pi / 4 + 1))
          / (1 - num (√2 / 2) * cos (num (Real.pi / 4 + 1)))
      = num (Real.pi / 4 + 1
        + (Real.pi / 4 + √2 / 2 * Real.sin (Real.pi / 4 + 1) - (Real.pi / 4 + 1))
          / (1 - √2 / 2 * Real.cos (Real.pi / 4 + 1))) := by
    simp only [sin_num, cos_num, num_mul, num_add, num_sub, one_eq, num_div_of_ne _ hden]
  refine ⟨fun M e => rfl, ?_, fun n => ?_, ?_, _, hE, ?_⟩
  · unfold DEGREES_TO_RADIANS PI
    simp
    field_simp
    ring
  · have hstep : num (Real.pi / 4)
        + (num (Real.pi / 4) + num (√2 / 2) * sin (num (Real.pi / 4)) - num (Real.pi / 4))
          / (1 - num (√2 / 2) * cos (num (Real.pi / 4))) = num (Real.pi / 4 + 1) := by
      have hd : (1:ℝ) - √2 / 2 * Real.cos (Real.pi / 4) ≠ 0 := by
        rw [Real.cos_pi_div_four]
        have := Real.mul_self_sqrt (show (0:ℝ) ≤ 2 by norm_num)
        intro h
        nlinarith
      simp only [sin_num, cos_num, num_mul, num_add, num_sub, one_eq, num_div_of_ne _ hd]
      rw [kepler_collision_step]
    unfold keplerLoop
    simp only [hstep]
    exact if_pos rfl
  · intro h
    have := num.inj h
    linarith
  · intro h
    have hnum : Real.pi / 4 + √2 / 2 * Real.sin (Real.pi / 4 + 1) - (Real.pi / 4 + 1) = 0 := by
      have h0 : (Real.pi / 4 + √2 / 2 * Real.sin (Real.pi / 4 + 1) - (Real.pi / 4 + 1))
          / (1 - √2 / 2 * Real.cos (Real.pi / 4 + 1)) = 0 := by linarith
      rcases div_eq_zero_iff.mp h0 with h1 | h1
      · exact h1
      · exact absurd h1 hden
    linarith

/-! ## The Sun: distance -/

/-- C29: for every Julian Day whose number of centuries `T` since J2000.0 has `|T| ≤ 10`, the
distance stored by `equatorialCoordinatesForSunAtJD` is a number strictly between `0.98` and
`1.02`. -/
theorem sun_distance_range (jd : JulianDay) (T : ℝ)
    (hT : (ofInt jd.day - 2451545.0 + jd.time) / 36525 = num T) (h10 : |T| ≤ 10) :
    ∃ d : ℝ, (equatorialCoordinatesForSunAtJD jd).2 = num d ∧ 0.98 < d ∧ d < 1.02 := by
  have ht : isnan jd.time = false := by
    rcases eq_nan_or_num jd.time with h | ⟨t, h⟩
    · rw [h] at hT
      simp at hT
    · rw [h]
      rfl
  obtain ⟨T1, x, p, c, hT1, -, -, -, -, hc0, hc1, hd⟩ := equatorialCoordinatesForSunAtJD_num jd ht
  have hTT : T1 = T := num.inj (hT1.symm.trans hT)
  subst hTT
  obtain ⟨hTlo, hThi⟩ := abs_le.mp h10
  have hT2 : 0 ≤ T1 * T1 := mul_self_nonneg T1
  have hT2' : T1 * T1 ≤ 100 := by nlinarith
  obtain ⟨e, he⟩ : ∃ e : ℝ, e = 0.016708634 - T1 * 0.000042037 - T1 * T1 * 0.0000001267 :=
    ⟨_, rfl⟩
  have he0 : 0.0162 ≤ e := by rw [he]; linarith
  have he1 : e ≤ 0.0172 := by rw [he]; linarith
  have hec : -0.0172 ≤ e * c ∧ e * c ≤ 0.0172 := by
    constructor <;> nlinarith
  have hden : (1:ℝ) + e * c ≠ 0 := by linarith [hec.1]
  have hdpos : (0:ℝ) < 1 + e * c := by linarith [hec.1]
  have hval : (equatorialCoordinatesForSunAtJD jd).2
      = num (1.000001018 * (1 - e * e) / (1 + e * c)) := by
    rw [hd, he]
    simp only [ofScientific_eq, ofNat_eq, one_eq, num_mul, num_sub, num_add]
    rw [← he]
    exact num_div_of_ne _ hden
  refine ⟨_, hval, ?_, ?_⟩
  · rw [lt_div_iff₀ hdpos]
    nlinarith
  · rw [div_lt_iff₀ hdpos]
    nlinarith

/-- Witness of C29: the Julian Day 2451545 with time 0, where `T = 0`. -/
theorem sun_distance_range_witness :
    ∃ d : ℝ, (equatorialCoordinatesForSunAtJD ⟨2451545, 0⟩).2 = num d ∧ 0.98 < d ∧ d < 1.02 :=
  sun_distance_range ⟨2451545, 0⟩ 0 (by simp; norm_num) (by norm_num)

/-- C28: the Earth as the body, with tables that hold numbers, at a Julian Day whose centuries
`T0` differ from `0` and where the radius of the Earth is a number.  With enough fuel the loop
of `equatorialCoordinatesForPlanetAtJD` ends in a state where `rectPlanet` is the zero vector;
the distance reported is `0`, the latitude is computed from the quotient of `0` by
`sqrtf(x2 + y2) = 0`, which is `nan`, and the geocentric latitude, the right ascension and the
declination returned are `nan`. -/
theorem earth_as_body_zero_vector (tb : VSOP87Tables) (jd : JulianDay) (u : Uninitialised)
    (hfin : ∀ t, ∀ c ∈ tb t, isnan c.A = false ∧ isnan c.B = false ∧ isnan c.C = false)
    (hT : CFloat.ne (lightTimeInit jd u).T 0)
    (hr : isnan (heliocentricCoordinatesForPlanetAndT tb .Earth
      (((ofInt jd.day + jd.time) - 0 - 2451545.0) / 36525)).radius = false) :
    ∃ s : LightTimeState,
      (∀ fuel, 2 ≤ fuel →
        equatorialCoordinatesForPlanetAtJD tb fuel .Earth jd u
          = some (planetPositionAfterLoop s))
      ∧ s.rectPlanet = ⟨num 0, num 0, num 0⟩
      ∧ (planetPositionAfterLoop s).distance = num 0
      ∧ sqrt (s.x2 + s.y2) = num 0
      ∧ s.rectPlanet.z / sqrt (s.x2 + s.y2) = nan
      ∧ (planetPositionAfterLoop s).gCoordinates.lat = nan
      ∧ (planetPositionAfterLoop s).coordinates = ⟨nan, nan⟩ := by
  have hsum : ∀ (l : List VSOP87Coefficient) (t : CFloat), isnan t = false →
      (∀ c ∈ l, isnan c.A = false ∧ isnan c.B = false ∧ isnan c.C = false) →
      isnan (sumVSOP87Coefs l t) = false := by
    intro l t ht
    rw [sumVSOP87Coefs_eq_sum]
    induction l with
    | nil => intro _; rfl
    | cons c l ih =>
      intro h
      obtain ⟨hA, hB, hC⟩ := h c (List.mem_cons_self c l)
      rw [List.map_cons, List.sum_cons, isnan_add, ih (fun d hd => h d (List.mem_cons_of_mem c hd)),
        pow_two]
      simp [hA, hB, hC, ht]
  have hTn : isnan (((ofInt jd.day + jd.time) - 0 - 2451545.0) / 36525 : CFloat) = false := by
    rcases eq_nan_or_num jd.time with h | ⟨t, h⟩
    · rw [h] at hr
      rw [add_nan, nan_sub, nan_sub, nan_div, helio_radius_nan] at hr
      exact absurd hr (by simp)
    · rw [h]
      simp
  obtain ⟨τ, hτ⟩ := (num_of_isnan hTn).1
  have hs : ∀ t, isnan (sumVSOP87Coefs (tb t) (num (τ / 10))) = false :=
    fun t => hsum _ _ rfl (hfin t)
  have hlon : isnan (heliocentricCoordinatesForPlanetAndT tb .Earth
      (((ofInt jd.day + jd.time) - 0 - 2451545.0) / 36525)).lon = false := by
    rw [hτ]
    unfold heliocentricCoordinatesForPlanetAndT RADIANS_TO_DEGREES
    simp [hs, isnan_div_num _ (by norm_num : (100000000.0 : ℝ) ≠ 0)]
  have hlat : isnan (heliocentricCoordinatesForPlanetAndT tb .Earth
      (((ofInt jd.day + jd.time) - 0 - 2451545.0) / 36525)).lat = false := by
    rw [hτ]
    unfold heliocentricCoordinatesForPlanetAndT RADIANS_TO_DEGREES
    simp [hs, isnan_div_num _ (by norm_num : (100000000.0 : ℝ) ≠ 0)]
  obtain ⟨s, hloop, hq, hlatn, hcoord, hzero⟩ := lightTimeLoop_Earth tb jd u hT hr
  obtain ⟨hrect, hx2, hy2, hdist⟩ := hzero hlon hlat
  refine ⟨s, fun fuel hf => ?_, hrect, hdist, ?_, hq, hlatn, hcoord⟩
  · unfold equatorialCoordinatesForPlanetAtJD
    rw [hloop fuel hf]
    rfl
  · rw [hx2, hy2]
    unfold CFloat.sqrt
    simp

/-- Witness of C28: the sample tables and variables at the Julian Day 2451546 with time 0. -/
theorem earth_as_body_zero_vector_witness :
    ∃ s : LightTimeState,
      (∀ fuel, 2 ≤ fuel →
        equatorialCoordinatesForPlanetAtJD sampleTables fuel .Earth ⟨2451546, 0⟩ sampleUninit
          = some (planetPositionAfterLoop s))
      ∧ s.rectPlanet = ⟨num 0, num 0, num 0⟩
      ∧ (planetPositionAfterLoop s).distance = num 0
      ∧ sqrt (s.x2 + s.y2) = num 0
      ∧ s.rectPlanet.z / sqrt (s.x2 + s.y2) = nan
      ∧ (planetPositionAfterLoop s).gCoordinates.lat = nan
      ∧ (planetPositionAfterLoop s).coordinates = ⟨nan, nan⟩ :=
  earth_as_body_zero_vector sampleTables ⟨2451546, 0⟩ sampleUninit
    (by
      intro t c hc
      cases t <;> first
        | exact absurd hc (List.not_mem_nil c)
        | (rw [show sampleTables .R0MarsCoefficients = [⟨10000, 0, 0⟩] from rfl,
            List.mem_singleton] at hc
           rw [hc]
           exact ⟨rfl, rfl, rfl⟩))
    (by unfold lightTimeInit; simp; norm_num)
    (by
      rw [show (((ofInt (2451546 : ℤ) + (0 : CFloat)) - 0 - 2451545.0) / 36525 : CFloat)
        = num (1 / 36525) by simp; norm_num, helio_sample_Earth]
      rfl)

/-! ## The geocentric latitude and the aberration of a planet -/

/-- On a number of `[0, 360)` the macro `LIMIT_DEGREES_TO_360` changes nothing. -/
theorem LIMIT_DEGREES_TO_360_of_lt (x : ℝ) (h0 : 0 ≤ x) (h1 : x < 360) :
    LIMIT_DEGREES_TO_360 (num x) = num x := by
  have hfloor : ⌊x / 360⌋ = 0 := by
    rw [Int.floor_eq_iff]
    constructor
    · push_cast
      exact div_nonneg h0 (by norm_num)
    · push_cast
      rw [div_lt_iff₀ (by norm_num)]
      linarith
  rw [LIMIT_DEGREES_TO_360_num, if_pos h0, hfloor]
  congr 1
  push_cast
  ring

/-- C22: the geocentric latitude that `equatorialCoordinatesForPlanetAtJD` corrects for
aberration is `geocentricLatitude`, the quotient `z/sqrtf(x2+y2)` itself converted from
radians to degrees: no arcsine is taken.  For every vector `(x, y, z)` with `x² + y² > 0` and
`z ≠ 0` it is the number `z/√(x²+y²)·180/PI`, which differs from the arcsine of the quotient
in degrees; at `(1, 0, 0.1)` it is `0.1·180/PI`. -/
theorem geocentricLatitude_without_asin :
    (∀ s : LightTimeState, (planetPositionAfterLoop s).gCoordinates.lat
        = geocentricLatitude s.rectPlanet s.x2 s.y2
          - (planetAberration s.T
              (LIMIT_DEGREES_TO_360 (RADIANS_TO_DEGREES (atan2 s.rectPlanet.y s.rectPlanet.x)))
              (geocentricLatitude s.rectPlanet s.x2 s.y2)).2)
    ∧ (∀ x y z : ℝ, 0 < x * x + y * y → z ≠ 0 →
        geocentricLatitude ⟨num x, num y, num z⟩ (num (x * x)) (num (y * y))
            = num (z / √(x * x + y * y) * 180 / 3.1415926535)
          ∧ geocentricLatitude ⟨num x, num y, num z⟩ (num (x * x)) (num (y * y))
            ≠ RADIANS_TO_DEGREES (asin (num z / sqrt (num (x * x) + num (y * y)))))
    ∧ geocentricLatitude ⟨num 1, num 0, num 0.1⟩ (num 1) (num 0)
        = num (0.1 * 180 / 3.1415926535) := by
  have hne : ∀ r : ℝ, r ≠ 0 → -1 ≤ r → r ≤ 1 → Real.arcsin r ≠ r := by
    intro r hr h1 h2 h
    have hs : Real.sin r = r := by
      have := Real.sin_arcsin h1 h2
      rwa [h] at this
    rcases lt_or_gt_of_ne hr with hneg | hpos
    · have := Real.sin_lt (show 0 < -r by linarith)
      rw [Real.sin_neg, hs] at this
      linarith
    · have := Real.sin_lt hpos
      linarith
  have hval : ∀ x y z : ℝ, 0 < x * x + y * y →
      num z / sqrt (num (x * x) + num (y * y)) = num (z / √(x * x + y * y)) := by
    intro x y z h
    have hs : √(x * x + y * y) ≠ 0 := (Real.sqrt_pos.mpr h).ne'
    unfold CFloat.sqrt
    simp only [num_add, if_pos h.le]
    exact num_div_of_ne _ hs
  refine ⟨fun s => rfl, fun x y z h hz => ?_, ?_⟩
  · have hs : √(x * x + y * y) ≠ 0 := (Real.sqrt_pos.mpr h).ne'
    have hr : z / √(x * x + y * y) ≠ 0 := div_ne_zero hz hs
    have hcode : geocentricLatitude ⟨num x, num y, num z⟩ (num (x * x)) (num (y * y))
        = num (z / √(x * x + y * y) * 180 / 3.1415926535) := by
      unfold geocentricLatitude
      simp only [hval x y z h]
      unfold RADIANS_TO_DEGREES PI
      simp only [ofNat_eq, ofScientific_eq, num_mul]
      exact num_div_of_ne _ (by norm_num)
    refine ⟨hcode, ?_⟩
    rw [hcode, hval x y z h]
    unfold CFloat.asin RADIANS_TO_DEGREES PI
    by_cases hin : -1 ≤ z / √(x * x + y * y) ∧ z / √(x * x + y * y) ≤ 1
    · simp only [if_pos hin, ofNat_eq, ofScientific_eq, num_mul]
      rw [num_div_of_ne _ (by norm_num)]
      intro heq
      have h1 := num.inj heq
      have h2 : Real.arcsin (z / √(x * x + y * y)) = z / √(x * x + y * y) := by
        have h3 : (0:ℝ) < 180 / 3.1415926535 := by norm_num
        have h4 : z / √(x * x + y * y) * (180 / 3.1415926535)
            = Real.arcsin (z / √(x * x + y * y)) * (180 / 3.1415926535) := by
          rw [← mul_div_assoc, ← mul_div_assoc]
          exact h1
        exact (mul_right_cancel₀ h3.ne' h4).symm
      exact hne _ hr hin.1 hin.2 h2
    · simp only [if_neg hin, nan_mul, nan_div]
      intro heq
      cases heq
  · unfold geocentricLatitude CFloat.sqrt RADIANS_TO_DEGREES PI
    simp [num_div]
    norm_num

/-- C24: the aberration terms that `equatorialCoordinatesForPlanetAtJD` subtracts are those of
`planetAberration`, where `COSD(O - lambda)` is `cos((O - lambda*PI)/180)`: the conversion to
radians applies to `lambda` alone.  At `T = 0`, `lambda = 0`, `beta = 0` the term in longitude
is a number `a ≥ -0.0003`, while the formula with the complete differences in degrees,
`planetAberrationSpec`, gives a number `b ≤ -0.0007`. -/
theorem planetAberration_converts_lambda_alone :
    (∀ s : LightTimeState, (planetPositionAfterLoop s).gCoordinates
        = ⟨LIMIT_DEGREES_TO_360 (RADIANS_TO_DEGREES (atan2 s.rectPlanet.y s.rectPlanet.x))
            - (planetAberration s.T
                (LIMIT_DEGREES_TO_360 (RADIANS_TO_DEGREES (atan2 s.rectPlanet.y s.rectPlanet.x)))
                (geocentricLatitude s.rectPlanet s.x2 s.y2)).1,
           geocentricLatitude s.rectPlanet s.x2 s.y2
            - (planetAberration s.T
                (LIMIT_DEGREES_TO_360 (RADIANS_TO_DEGREES (atan2 s.rectPlanet.y s.rectPlanet.x)))
                (geocentricLatitude s.rectPlanet s.x2 s.y2)).2⟩)
    ∧ ∃ a b : ℝ, (planetAberration (num 0) (num 0) (num 0)).1 = num a
        ∧ (planetAberrationSpec (num 0) (num 0) (num 0)).1 = num b
        ∧ -0.0003 ≤ a ∧ b ≤ -0.0007 := by
  refine ⟨fun s => rfl, ?_⟩
  have hπ1 := Real.pi_gt_d6
  have hπ2 := Real.pi_lt_d6
  have he : (planetayOrbitForPlanetAndT ⟨nan, nan, nan, nan, nan, nan, nan, nan⟩ .Earth
      (num 0)).e = num 0.01670863 := by
    unfold planetayOrbitForPlanetAndT
    simp
  obtain ⟨p, hp⟩ : ∃ p : ℝ, (planetayOrbitForPlanetAndT ⟨nan, nan, nan, nan, nan, nan, nan, nan⟩
      .Earth (num 0)).pi = num p := by
    unfold planetayOrbitForPlanetAndT
    simp
  have hL0 : LIMIT_DEGREES_TO_360 (280.46646 + num 0 * 36000.76983 + num 0 * num 0 * 0.0003032)
      = num 280.46646 := by
    simp only [ofScientific_eq, num_mul, num_add]
    rw [show (280.46646 + 0 * 36000.76983 + 0 * 0 * 0.0003032 : ℝ) = 280.46646 by norm_num]
    exact LIMIT_DEGREES_TO_360_of_lt _ (by norm_num) (by norm_num)
  obtain ⟨M, hM⟩ := (num_of_isnan (a := LIMIT_DEGREES_TO_360
    (357.52911 + num 0 * 35999.05029 - num 0 * num 0 * 0.0001537)) (by simp)).1
  obtain ⟨s1, hs1, hs1a, hs1b⟩ := (num_of_isnan (a := (num M * PI) / 180) (by simp)).2.1
  obtain ⟨s2, hs2, hs2a, hs2b⟩ := (num_of_isnan (a := (2 * num M * PI) / 180) (by simp)).2.1
  obtain ⟨s3, hs3, hs3a, hs3b⟩ := (num_of_isnan (a := (3 * num M * PI) / 180) (by simp)).2.1
  obtain ⟨C, hC, hCa, hCb⟩ : ∃ C : ℝ,
      (1.914602 - num 0 * 0.004817 - num 0 * num 0 * 0.000014) * num s1
        + (0.019993 - num 0 * 0.000101) * num s2 + 0.000289 * num s3 = num C
      ∧ -1.935 ≤ C ∧ C ≤ 1.935 := by
    refine ⟨(1.914602 - 0 * 0.004817 - 0 * 0 * 0.000014) * s1
      + (0.019993 - 0 * 0.000101) * s2 + 0.000289 * s3, rfl, ?_, ?_⟩ <;>
      norm_num <;> linarith
  have hcO : ∃ c : ℝ, cos ((num 280.46646 + num C - num 0 * PI) / 180) = num c
      ∧ 0 ≤ c ∧ c ≤ 0.0235 := by
    have h : cos ((num 280.46646 + num C - num 0 * PI) / 180)
        = num (Real.cos ((280.46646 + C) / 180)) := by
      unfold PI
      simp only [ofScientific_eq, ofNat_eq, num_mul, num_add, num_sub,
        num_div_of_ne _ (by norm_num : (180 : ℝ) ≠ 0), cos_num]
      congr 2
      ring
    refine ⟨_, h, ?_, ?_⟩
    · rw [← Real.sin_pi_div_two_sub]
      apply Real.sin_nonneg_of_nonneg_of_le_pi
      · norm_num at hCb ⊢
        linarith
      · norm_num at hCa ⊢
        linarith
    · rw [← Real.sin_pi_div_two_sub]
      have h0 : 0 ≤ Real.pi / 2 - (280.46646 + C) / 180 := by
        norm_num at hCb ⊢
        linarith
      have h1 := Real.sin_le h0
      norm_num at hCa h1 ⊢
      linarith
  have hcS : ∃ c : ℝ, cos (((num 280.46646 + num C - num 0) * PI) / 180) = num c
      ∧ 0.145 ≤ c := by
    have h : cos (((num 280.46646 + num C - num 0) * PI) / 180)
        = num (Real.cos ((280.46646 + C) * 3.1415926535 / 180)) := by
      unfold PI
      simp only [ofScientific_eq, ofNat_eq, num_mul, num_add, num_sub,
        num_div_of_ne _ (by norm_num : (180 : ℝ) ≠ 0), cos_num]
      congr 3
      ring
    refine ⟨_, h, ?_⟩
    have hu := Real.cos_pi_div_two_sub ((280.46646 + C) * 3.1415926535 / 180 - 3 * Real.pi / 2)
    rw [show Real.pi / 2 - ((280.46646 + C) * 3.1415926535 / 180 - 3 * Real.pi / 2)
      = 2 * Real.pi - (280.46646 + C) * 3.1415926535 / 180 by ring, Real.cos_two_pi_sub] at hu
    rw [hu]
    have h0 : 0.148 ≤ (280.46646 + C) * 3.1415926535 / 180 - 3 * Real.pi / 2 := by
      norm_num at hCa ⊢
      linarith
    have h1 : (280.46646 + C) * 3.1415926535 / 180 - 3 * Real.pi / 2 ≤ 0.217 := by
      norm_num at hCb ⊢
      linarith
    have h2 := Real.sin_gt_sub_cube (show 0 < (280.46646 + C) * 3.1415926535 / 180
      - 3 * Real.pi / 2 by linarith) (by linarith)
    generalize (280.46646 + C) * 3.1415926535 / 180 - 3 * Real.pi / 2 = y at h0 h1 h2 ⊢
    have h3 : y ^ 3 ≤ 0.217 ^ 3 := pow_le_pow_left₀ (by linarith) h1 3
    norm_num at h3 ⊢
    linarith
  obtain ⟨cO, hcO, hcO0, hcO1⟩ := hcO
  obtain ⟨cS, hcS, hcS0⟩ := hcS
  obtain ⟨cP, hcP, hcPa, hcPb⟩ :=
    (num_of_isnan (a := (num p - num 0 * PI) / 180) (by simp)).2.2
  obtain ⟨cQ, hcQ, hcQa, hcQb⟩ :=
    (num_of_isnan (a := ((num p - num 0) * PI) / 180) (by simp)).2.2
  have hc0 : cos ((num 0 * PI) / 180) = num 1 := by
    unfold PI
    simp
  refine ⟨(-20.49552 * cO + 0.01670863 * 20.49552 * cP) / 1 / 3600,
    (-20.49552 * cS + 0.01670863 * 20.49552 * cQ) / 1 / 3600, ?_, ?_, ?_, ?_⟩
  · unfold planetAberration
    simp only []
    rw [he, hp, hL0, hM, hs1, hs2, hs3, hC, hcO, hcP, hc0]
    simp only [ofScientific_eq, ofNat_eq, num_mul, num_add, neg_num,
      num_div_of_ne _ (by norm_num : (1 : ℝ) ≠ 0),
      num_div_of_ne _ (by norm_num : (3600 : ℝ) ≠ 0)]
  · unfold planetAberrationSpec SIND COSD
    simp only []
    rw [he, hp, hL0, hM, hs1, hs2, hs3, hC, hcS, hcQ, hc0]
    simp only [ofScientific_eq, ofNat_eq, num_mul, num_add, neg_num,
      num_div_of_ne _ (by norm_num : (1 : ℝ) ≠ 0),
      num_div_of_ne _ (by norm_num : (3600 : ℝ) ≠ 0)]
  · rw [le_div_iff₀ (by norm_num)]
    norm_num
    linarith
  · rw [div_le_iff₀ (by norm_num)]
    norm_num
    linarith

/-! ## The nutation series -/

/-- C23: in `obliquityAndNutationForT` the terms of the series whose argument is a sum or a
difference convert only the last operand to radians: `COSD(2*Lm-omega)` is
`cos((2*Lm - omega*PI)/180)`.  At `T = 0` the nutation in obliquity it computes is a number
`a`, and the series with the complete arguments in degrees, `nutationSeriesSpec`, gives a
number `b` with `b + 0.002 < a`. -/
theorem nutation_series_converts_last_operand :
    ∃ a b : ℝ, (obliquityAndNutationForT (num 0)).2.1 = num a
      ∧ (nutationSeriesSpec (num 0)).1 = num b
      ∧ b + 0.002 < a := by
  have hπ1 := Real.pi_gt_d6
  have hπ2 := Real.pi_lt_d6
  have hLs : LIMIT_DEGREES_TO_360 (280.4565 + num 0 * 36000.7698 + num 0 * num 0 * 0.000303)
      = num 280.4565 := by
    simp only [ofScientific_eq, num_mul, num_add]
    rw [show (280.4565 + 0 * 36000.7698 + 0 * 0 * 0.000303 : ℝ) = 280.4565 by norm_num]
    exact LIMIT_DEGREES_TO_360_of_lt _ (by norm_num) (by norm_num)
  have hLm : LIMIT_DEGREES_TO_360 (218.3164 + num 0 * 481267.8812 - num 0 * num 0 * 0.001599)
      = num 218.3164 := by
    simp only [ofScientific_eq, num_mul, num_add, num_sub]
    rw [show (218.3164 + 0 * 481267.8812 - 0 * 0 * 0.001599 : ℝ) = 218.3164 by norm_num]
    exact LIMIT_DEGREES_TO_360_of_lt _ (by norm_num) (by norm_num)
  have hMs : LIMIT_DEGREES_TO_360 (357.5291 + num 0 * 35999.0503 - num 0 * num 0 * 0.000154)
      = num 357.5291 := by
    simp only [ofScientific_eq, num_mul, num_add, num_sub]
    rw [show (357.5291 + 0 * 35999.0503 - 0 * 0 * 0.000154 : ℝ) = 357.5291 by norm_num]
    exact LIMIT_DEGREES_TO_360_of_lt _ (by norm_num) (by norm_num)
  have hMm : LIMIT_DEGREES_TO_360 (134.9634 + num 0 * 477198.8675 + num 0 * num 0 * 0.008721)
      = num 134.9634 := by
    simp only [ofScientific_eq, num_mul, num_add]
    rw [show (134.9634 + 0 * 477198.8675 + 0 * 0 * 0.008721 : ℝ) = 134.9634 by norm_num]
    exact LIMIT_DEGREES_TO_360_of_lt _ (by norm_num) (by norm_num)
  have homega : LIMIT_DEGREES_TO_360 (125.0443 - num 0 * 1934.1363 + num 0 * num 0 * 0.008721)
      = num 125.0443 := by
    simp only [ofScientific_eq, num_mul, num_add, num_sub]
    rw [show (125.0443 - 0 * 1934.1363 + 0 * 0 * 0.008721 : ℝ) = 125.0443 by norm_num]
    exact LIMIT_DEGREES_TO_360_of_lt _ (by norm_num) (by norm_num)
  obtain ⟨c1, hc1, -, -⟩ := (num_of_isnan (a := (num 125.0443 * PI) / 180) (by simp)).2.2
  obtain ⟨c2, hc2, -, -⟩ := (num_of_isnan (a := (2 * num 280.4565 * PI) / 180) (by simp)).2.2
  obtain ⟨c3, hc3, -, -⟩ := (num_of_isnan (a := (2 * num 218.3164 * PI) / 180) (by simp)).2.2
  obtain ⟨c4, hc4, -, -⟩ := (num_of_isnan (a := (2 * num 125.0443 * PI) / 180) (by simp)).2.2
  obtain ⟨c5, hc5, hc5a, -⟩ :=
    (num_of_isnan (a := (2 * num 280.4565 + num 357.5291 * PI) / 180) (by simp)).2.2
  obtain ⟨c9, hc9, -, hc9b⟩ :=
    (num_of_isnan (a := (2 * num 280.4565 - num 125.0443 * PI) / 180) (by simp)).2.2
  obtain ⟨d8, hd8, hd8a, -⟩ :=
    (num_of_isnan (a := ((2 * num 280.4565 - num 357.5291) * PI) / 180) (by simp)).2.2
  obtain ⟨d9, hd9, hd9a, -⟩ :=
    (num_of_isnan (a := ((2 * num 280.4565 - num 125.0443) * PI) / 180) (by simp)).2.2
  obtain ⟨c6, hc6, hc6a⟩ : ∃ c : ℝ,
      cos ((2 * num 218.3164 - num 125.0443 * PI) / 180) = num c ∧ 0.97 ≤ c := by
    have h : cos ((2 * num 218.3164 - num 125.0443 * PI) / 180)
        = num (Real.cos ((2 * 218.3164 - 125.0443 * 3.1415926535) / 180)) := by
      unfold PI
      simp only [ofScientific_eq, ofNat_eq, num_mul, num_add, num_sub,
        num_div_of_ne _ (by norm_num : (180 : ℝ) ≠ 0), cos_num]
    refine ⟨_, h, ?_⟩
    have h1 := Real.one_sub_sq_div_two_le_cos
      (x := (2 * 218.3164 - 125.0443 * 3.1415926535) / 180)
    have h2 : (0.97 : ℝ) ≤ 1 - ((2 * 218.3164 - 125.0443 * 3.1415926535) / 180) ^ 2 / 2 := by
      norm_num
    linarith
  obtain ⟨c7, hc7, hc7a⟩ : ∃ c : ℝ,
      cos ((2 * num 218.3164 + num 134.9634 * PI) / 180) = num c ∧ 0.068 ≤ c := by
    have h : cos ((2 * num 218.3164 + num 134.9634 * PI) / 180)
        = num (Real.cos ((2 * 218.3164 + 134.9634 * 3.1415926535) / 180)) := by
      unfold PI
      simp only [ofScientific_eq, ofNat_eq, num_mul, num_add, num_sub,
        num_div_of_ne _ (by norm_num : (180 : ℝ) ≠ 0), cos_num]
    refine ⟨_, h, ?_⟩
    have hu := Real.cos_pi_div_two_sub
      ((2 * 218.3164 + 134.9634 * 3.1415926535) / 180 - 3 * Real.pi / 2)
    rw [show Real.pi / 2 - ((2 * 218.3164 + 134.9634 * 3.1415926535) / 180 - 3 * Real.pi / 2)
      = 2 * Real.pi - (2 * 218.3164 + 134.9634 * 3.1415926535) / 180 by ring,
      Real.cos_two_pi_sub] at hu
    rw [hu]
    have h0 : 0.0688 ≤ (2 * 218.3164 + 134.9634 * 3.1415926535) / 180 - 3 * Real.pi / 2 := by
      norm_num
      linarith
    have h1 : (2 * 218.3164 + 134.9634 * 3.1415926535) / 180 - 3 * Real.pi / 2 ≤ 0.07 := by
      norm_num
      linarith
    have h2 := Real.sin_gt_sub_cube (show 0 < (2 * 218.3164 + 134.9634 * 3.1415926535) / 180
      - 3 * Real.pi / 2 by linarith) (by linarith)
    generalize (2 * 218.3164 + 134.9634 * 3.1415926535) / 180 - 3 * Real.pi / 2 = y
      at h0 h1 h2 ⊢
    have h3 : y ^ 3 ≤ 0.07 ^ 3 := pow_le_pow_left₀ (by linarith) h1 3
    norm_num at h3 ⊢
    linarith
  obtain ⟨c8, hc8, hc8a⟩ : ∃ c : ℝ,
      cos ((2 * num 280.4565 - num 357.5291 * PI) / 180) = num c ∧ c ≤ -0.99 := by
    have h : cos ((2 * num 280.4565 - num 357.5291 * PI) / 180)
        = num (Real.cos ((2 * 280.4565 - 357.5291 * 3.1415926535) / 180)) := by
      unfold PI
      simp only [ofScientific_eq, ofNat_eq, num_mul, num_add, num_sub,
        num_div_of_ne _ (by norm_num : (180 : ℝ) ≠ 0), cos_num]
    refine ⟨_, h, ?_⟩
    have hu := Real.cos_add_pi ((2 * 280.4565 - 357.5291 * 3.1415926535) / 180)
    have h0 : 0 ≤ (2 * 280.4565 - 357.5291 * 3.1415926535) / 180 + Real.pi := by
      norm_num
      linarith
    have h1 : (2 * 280.4565 - 357.5291 * 3.1415926535) / 180 + Real.pi ≤ 0.02 := by
      norm_num
      linarith
    have h2 := Real.one_sub_sq_div_two_le_cos
      (x := (2 * 280.4565 - 357.5291 * 3.1415926535) / 180 + Real.pi)
    generalize (2 * 280.4565 - 357.5291 * 3.1415926535) / 180 + Real.pi = y at hu h0 h1 h2
    have h3 : y ^ 2 ≤ 0.02 ^ 2 := pow_le_pow_left₀ h0 h1 2
    norm_num at h3
    linarith
  obtain ⟨d5, hd5, hd5a⟩ : ∃ c : ℝ,
      cos (((2 * num 280.4565 + num 357.5291) * PI) / 180) = num c ∧ c ≤ -0.94 := by
    have h : cos (((2 * num 280.4565 + num 357.5291) * PI) / 180)
        = num (Real.cos ((2 * 280.4565 + 357.5291) * 3.1415926535 / 180)) := by
      unfold PI
      simp only [ofScientific_eq, ofNat_eq, num_mul, num_add, num_sub,
        num_div_of_ne _ (by norm_num : (180 : ℝ) ≠ 0), cos_num]
    refine ⟨_, h, ?_⟩
    have hu : Real.cos ((2 * 280.4565 + 357.5291) * 3.1415926535 / 180 - 5 * Real.pi)
        = -Real.cos ((2 * 280.4565 + 357.5291) * 3.1415926535 / 180) := by
      rw [show (2 * 280.4565 + 357.5291) * 3.1415926535 / 180 - 5 * Real.pi
        = (2 * 280.4565 + 357.5291) * 3.1415926535 / 180 - 2 * Real.pi - 2 * Real.pi - Real.pi
        by ring, Real.cos_sub_pi, Real.cos_sub_two_pi, Real.cos_sub_two_pi]
    have h0 : 0 ≤ (2 * 280.4565 + 357.5291) * 3.1415926535 / 180 - 5 * Real.pi := by
      norm_num
      linarith
    have h1 : (2 * 280.4565 + 357.5291) * 3.1415926535 / 180 - 5 * Real.pi ≤ 0.33 := by
      norm_num
      linarith
    have h2 := Real.one_sub_sq_div_two_le_cos
      (x := (2 * 280.4565 + 357.5291) * 3.1415926535 / 180 - 5 * Real.pi)
    generalize (2 * 280.4565 + 357.5291) * 3.1415926535 / 180 - 5 * Real.pi = y
      at hu h0 h1 h2
    have h3 : y ^ 2 ≤ 0.33 ^ 2 := pow_le_pow_left₀ h0 h1 2
    norm_num at h3
    linarith
  obtain ⟨d6, hd6, hd6a⟩ : ∃ c : ℝ,
      cos (((2 * num 218.3164 - num 125.0443) * PI) / 180) = num c ∧ c ≤ 0.68 := by
    have h : cos (((2 * num 218.3164 - num 125.0443) * PI) / 180)
        = num (Real.cos ((2 * 218.3164 - 125.0443) * 3.1415926535 / 180)) := by
      unfold PI
      simp only [ofScientific_eq, ofNat_eq, num_mul, num_add, num_sub,
        num_div_of_ne _ (by norm_num : (180 : ℝ) ≠ 0), cos_num]
    refine ⟨_, h, ?_⟩
    rw [← Real.cos_two_pi_sub]
    have h0 : 0.8449 ≤ 2 * Real.pi - (2 * 218.3164 - 125.0443) * 3.1415926535 / 180 := by
      norm_num
      linarith
    have h1 : 2 * Real.pi - (2 * 218.3164 - 125.0443) * 3.1415926535 / 180 ≤ 0.845 := by
      norm_num
      linarith
    have h2 := Real.cos_bound (x := 2 * Real.pi - (2 * 218.3164 - 125.0443) * 3.1415926535 / 180)
      (by rw [abs_of_nonneg (by linarith)]; linarith)
    generalize 2 * Real.pi - (2 * 218.3164 - 125.0443) * 3.1415926535 / 180 = y
      at h0 h1 h2 ⊢
    rw [abs_of_nonneg (show (0:ℝ) ≤ y by linarith)] at h2
    have h3 : y ^ 4 ≤ 0.845 ^ 4 := pow_le_pow_left₀ (by linarith) h1 4
    have h4 : (0.8449 : ℝ) ^ 2 ≤ y ^ 2 := pow_le_pow_left₀ (by norm_num) h0 2
    have h5 := (abs_le.mp h2).2
    norm_num at h3 h4 h5 ⊢
    linarith
  obtain ⟨d7, hd7, hd7a⟩ : ∃ c : ℝ,
      cos (((2 * num 218.3164 + num 134.9634) * PI) / 180) = num c ∧ c ≤ -0.84 := by
    have h : cos (((2 * num 218.3164 + num 134.9634) * PI) / 180)
        = num (Real.cos ((2 * 218.3164 + 134.9634) * 3.1415926535 / 180)) := by
      unfold PI
      simp only [ofScientific_eq, ofNat_eq, num_mul, num_add, num_sub,
        num_div_of_ne _ (by norm_num : (180 : ℝ) ≠ 0), cos_num]
    refine ⟨_, h, ?_⟩
    have hu : Real.cos ((2 * 218.3164 + 134.9634) * 3.1415926535 / 180 - 3 * Real.pi)
        = -Real.cos ((2 * 218.3164 + 134.9634) * 3.1415926535 / 180) := by
      rw [show (2 * 218.3164 + 134.9634) * 3.1415926535 / 180 - 3 * Real.pi
        = (2 * 218.3164 + 134.9634) * 3.1415926535 / 180 - 2 * Real.pi - Real.pi
        by ring, Real.cos_sub_pi, Real.cos_sub_two_pi]
    have h0 : 0 ≤ (2 * 218.3164 + 134.9634) * 3.1415926535 / 180 - 3 * Real.pi := by
      norm_num
      linarith
    have h1 : (2 * 218.3164 + 134.9634) * 3.1415926535 / 180 - 3 * Real.pi ≤ 0.56 := by
      norm_num
      linarith
    have h2 := Real.one_sub_sq_div_two_le_cos
      (x := (2 * 218.3164 + 134.9634) * 3.1415926535 / 180 - 3 * Real.pi)
    generalize (2 * 218.3164 + 134.9634) * 3.1415926535 / 180 - 3 * Real.pi = y
      at hu h0 h1 h2
    have h3 : y ^ 2 ≤ 0.56 ^ 2 := pow_le_pow_left₀ h0 h1 2
    norm_num at h3
    linarith
  unfold obliquityAndNutationForT nutationSeriesSpec COSD
  simp only []
  rw [hLs, hLm, hMs, hMm, homega, hc1, hc2, hc3, hc4, hc5, hc6, hc7, hc8, hc9, hd5, hd6, hd7,
    hd8, hd9]
  simp only [ofScientific_eq, ofNat_eq, num_mul, num_sub, num_add]
  refine ⟨_, _, rfl, rfl, ?_⟩
  norm_num
  linarith

/-! ## The Sun at J2000.0 -/

set_option maxHeartbeats 1000000 in
/-- The angles of the Sun near J2000.0: for an obliquity `ε` between `23.4339` and `23.4447`
degrees and a longitude `lam` between `280.34` and `280.42` degrees, converted to radians with
`PI`, the arctangent of `cos ε · tan lam` lies between `-(161/30)·PI/12` and `-5.2·PI/12`, and
the product `sin ε · sin lam` has its arcsine between `-23.1·PI/180` and `-22.9·PI/180`. -/
theorem sun_angles_near_J2000 (ε lam : ℝ) (hε0 : 23.4339 ≤ ε) (hε1 : ε ≤ 23.4447)
    (hl0 : 280.34 ≤ lam) (hl1 : lam ≤ 280.42) :
    (-(161 / 30 * 3.1415926535 / 12)
        ≤ Real.arctan (Real.cos (ε * 3.1415926535 / 180) * Real.tan (lam * 3.1415926535 / 180))
      ∧ Real.arctan (Real.cos (ε * 3.1415926535 / 180) * Real.tan (lam * 3.1415926535 / 180))
        ≤ -(5.2 * 3.1415926535 / 12))
    ∧ -1 ≤ Real.sin (ε * 3.1415926535 / 180) * Real.sin (lam * 3.1415926535 / 180)
    ∧ Real.sin (ε * 3.1415926535 / 180) * Real.sin (lam * 3.1415926535 / 180) ≤ 1
    ∧ -(23.1 * 3.1415926535 / 180)
        ≤ Real.arcsin (Real.sin (ε * 3.1415926535 / 180) * Real.sin (lam * 3.1415926535 / 180))
    ∧ Real.arcsin (Real.sin (ε * 3.1415926535 / 180) * Real.sin (lam * 3.1415926535 / 180))
        ≤ -(22.9 * 3.1415926535 / 180) := by
  have hπ1 := Real.pi_gt_d6
  have hπ2 := Real.pi_lt_d6
  obtain ⟨e, he⟩ : ∃ e : ℝ, e = ε * 3.1415926535 / 180 := ⟨ε * 3.1415926535 / 180, rfl⟩
  obtain ⟨u, hu⟩ : ∃ u : ℝ, u = lam * 3.1415926535 / 180 - 3 * Real.pi / 2 :=
    ⟨lam * 3.1415926535 / 180 - 3 * Real.pi / 2, rfl⟩
  have hlam : lam * 3.1415926535 / 180 = u + 3 * Real.pi / 2 := by rw [hu]; ring
  have he0 : 0.40899 ≤ e := by rw [he]; norm_num; linarith only [hε0]
  have he1 : e ≤ 0.40919 := by rw [he]; norm_num; linarith only [hε1]
  have hu0 : 0.1804 ≤ u := by rw [hu]; norm_num; linarith only [hl0, hπ2]
  have hu1 : u ≤ 0.1819 := by rw [hu]; norm_num; linarith only [hl1, hπ1]
  have hsl : Real.sin (u + 3 * Real.pi / 2) = -Real.cos u := by
    rw [show u + 3 * Real.pi / 2 = (u + Real.pi / 2) + Real.pi by ring, Real.sin_add_pi,
      Real.sin_add_pi_div_two]
  have hcl : Real.cos (u + 3 * Real.pi / 2) = Real.sin u := by
    rw [show u + 3 * Real.pi / 2 = (u + Real.pi / 2) + Real.pi by ring, Real.cos_add_pi,
      Real.cos_add_pi_div_two, neg_neg]
  rw [← he, hlam, Real.tan_eq_sin_div_cos, hsl, hcl]
  clear hsl hcl hlam he hu hε0 hε1 hl0 hl1
  have hu0' : 0 ≤ u := by linarith only [hu0]
  have hu1' : u ≤ 1 := by linarith only [hu1]
  have he0' : 0 ≤ e := by linarith only [he0]
  have he1' : e ≤ 1 := by linarith only [he1]
  -- the sines and cosines of `u` and `e`
  have hsu1 : Real.sin u ≤ 0.1819 := (Real.sin_le hu0').trans hu1
  have hsu0 : 0.1788 ≤ Real.sin u := by
    have h := Real.sin_gt_sub_cube (show 0 < u by linarith only [hu0]) hu1'
    have h3 : u ^ 3 ≤ 0.1819 ^ 3 := pow_le_pow_left₀ hu0' hu1 3
    norm_num at h3
    linarith only [h, h3, hu0]
  have hcu0 : 0.9834 ≤ Real.cos u := by
    have h := Real.one_sub_sq_div_two_le_cos (x := u)
    have h2 : u ^ 2 ≤ 0.1819 ^ 2 := pow_le_pow_left₀ hu0' hu1 2
    norm_num at h2
    linarith only [h, h2]
  have hcu1 : Real.cos u ≤ 1 - 0.0162 := by
    have h := (abs_le.mp (Real.cos_bound (x := u) (by rw [abs_of_nonneg hu0']; exact hu1'))).2
    rw [abs_of_nonneg hu0'] at h
    have h2 : (0.1804 : ℝ) ^ 2 ≤ u ^ 2 := pow_le_pow_left₀ (by norm_num) hu0 2
    have h4 : u ^ 4 ≤ 0.1819 ^ 4 := pow_le_pow_left₀ hu0' hu1 4
    norm_num at h2 h4
    linarith only [h, h2, h4]
  have hce0 : 0.9162 ≤ Real.cos e := by
    have h := Real.one_sub_sq_div_two_le_cos (x := e)
    have h2 : e ^ 2 ≤ 0.40919 ^ 2 := pow_le_pow_left₀ he0' he1 2
    norm_num at h2
    linarith only [h, h2]
  have hce1 : Real.cos e ≤ 1 := Real.cos_le_one e
  have hse1 : Real.sin e ≤ 0.40919 := (Real.sin_le he0').trans he1
  have hse0 : 0.3918 ≤ Real.sin e := by
    have h := Real.sin_gt_sub_cube (show 0 < e by linarith only [he0]) he1'
    have h3 : e ^ 3 ≤ 0.40919 ^ 3 := pow_le_pow_left₀ he0' he1 3
    norm_num at h3
    linarith only [h, h3, he0]
  have hsupos : 0 < Real.sin u := by linarith only [hsu0]
  have hcc0 : 0.9 ≤ Real.cos e * Real.cos u := by
    linarith only [mul_nonneg (sub_nonneg.mpr hce0) (sub_nonneg.mpr hcu0), hce0, hcu0]
  have hcc1 : Real.cos e * Real.cos u ≤ 1 := by
    linarith only [mul_nonneg (show 0 ≤ Real.cos e by linarith only [hce0])
      (sub_nonneg.mpr (Real.cos_le_one u)), hce1]
  have hx : Real.cos e * (-Real.cos u / Real.sin u)
      = -(Real.cos e * Real.cos u / Real.sin u) := by ring
  refine ⟨⟨?_, ?_⟩, ?_⟩
  · -- the lower bound of the arctangent
    obtain ⟨w, hw⟩ : ∃ w : ℝ, w = Real.pi / 2 - 161 / 30 * 3.1415926535 / 12 :=
      ⟨Real.pi / 2 - 161 / 30 * 3.1415926535 / 12, rfl⟩
    have hw0 : 0.1658 ≤ w := by rw [hw]; norm_num; linarith only [hπ1]
    have hw1 : w ≤ 0.16581 := by rw [hw]; norm_num; linarith only [hπ2]
    have hA : 161 / 30 * 3.1415926535 / 12 = Real.pi / 2 - w := by rw [hw]; ring
    have hw0' : 0 ≤ w := by linarith only [hw0]
    have hsw1 : Real.sin w ≤ 0.16581 := (Real.sin_le hw0').trans hw1
    have hsw0 : 0 < Real.sin w :=
      Real.sin_pos_of_pos_of_lt_pi (by linarith only [hw0]) (by linarith only [hw1, hπ1])
    have hcw0 : 0.986 ≤ Real.cos w := by
      have h := Real.one_sub_sq_div_two_le_cos (x := w)
      have h2 : w ^ 2 ≤ 0.16581 ^ 2 := pow_le_pow_left₀ hw0' hw1 2
      norm_num at h2
      linarith only [h, h2]
    have htan : Real.tan (-(161 / 30 * 3.1415926535 / 12)) = -(Real.cos w / Real.sin w) := by
      rw [Real.tan_neg, hA, Real.tan_eq_sin_div_cos, Real.sin_pi_div_two_sub,
        Real.cos_pi_div_two_sub]
    have hle : Real.tan (-(161 / 30 * 3.1415926535 / 12))
        ≤ Real.cos e * (-Real.cos u / Real.sin u) := by
      rw [htan, hx, neg_le_neg_iff, div_le_div_iff₀ hsupos hsw0]
      have h1 : Real.cos e * Real.cos u * Real.sin w ≤ 0.16581 := by
        linarith only [mul_nonneg (sub_nonneg.mpr hcc1) hsw0.le, hsw1]
      have h2 : 0.176 ≤ Real.cos w * Real.sin u := by
        linarith only [mul_nonneg (sub_nonneg.mpr hcw0) (sub_nonneg.mpr hsu0), hcw0, hsu0]
      linarith only [h1, h2]
    have h := Real.arctan_strictMono.monotone hle
    rwa [Real.arctan_tan (by rw [hA]; linarith only [hw0, hw1, hπ1])
      (by rw [hA]; linarith only [hw0, hw1, hπ1])] at h
  · -- the upper bound of the arctangent
    obtain ⟨w, hw⟩ : ∃ w : ℝ, w = Real.pi / 2 - 5.2 * 3.1415926535 / 12 :=
      ⟨Real.pi / 2 - 5.2 * 3.1415926535 / 12, rfl⟩
    have hw0 : 0.2094 ≤ w := by rw [hw]; norm_num; linarith only [hπ1]
    have hw1 : w ≤ 0.2095 := by rw [hw]; norm_num; linarith only [hπ2]
    have hA : 5.2 * 3.1415926535 / 12 = Real.pi / 2 - w := by rw [hw]; ring
    have hw0' : 0 ≤ w := by linarith only [hw0]
    have hsw0 : 0.2071 ≤ Real.sin w := by
      have h := Real.sin_gt_sub_cube (show 0 < w by linarith only [hw0])
        (by linarith only [hw1])
      have h3 : w ^ 3 ≤ 0.2095 ^ 3 := pow_le_pow_left₀ hw0' hw1 3
      norm_num at h3
      linarith only [h, h3, hw0]
    have hcw1 : Real.cos w ≤ 1 := Real.cos_le_one w
    have htan : Real.tan (-(5.2 * 3.1415926535 / 12)) = -(Real.cos w / Real.sin w) := by
      rw [Real.tan_neg, hA, Real.tan_eq_sin_div_cos, Real.sin_pi_div_two_sub,
        Real.cos_pi_div_two_sub]
    have hle : Real.cos e * (-Real.cos u / Real.sin u)
        ≤ Real.tan (-(5.2 * 3.1415926535 / 12)) := by
      rw [htan, hx, neg_le_neg_iff, div_le_div_iff₀ (by linarith only [hsw0]) hsupos]
      have h1 : Real.cos w * Real.sin u ≤ 0.1819 := by
        linarith only [mul_nonneg (sub_nonneg.mpr hcw1) hsupos.le, hsu1]
      have h2 : 0.186 ≤ Real.cos e * Real.cos u * Real.sin w := by
        linarith only [mul_nonneg (sub_nonneg.mpr hcc0) (sub_nonneg.mpr hsw0), hcc0, hsw0]
      linarith only [h1, h2]
    have h := Real.arctan_strictMono.monotone hle
    rwa [Real.arctan_tan (by rw [hA]; linarith only [hw0, hw1, hπ1])
      (by rw [hA]; linarith only [hw0, hw1, hπ1])] at h
  · -- the product of the sines and its arcsine
    have hse0' : 0 ≤ Real.sin e := by linarith only [hse0]
    have hcu0' : 0 ≤ Real.cos u := by linarith only [hcu0]
    have hp : Real.sin e * -Real.cos u = -(Real.sin e * Real.cos u) := by ring
    have hsc0 : 0 ≤ Real.sin e * Real.cos u := mul_nonneg hse0' hcu0'
    have hsc1 : Real.sin e * Real.cos u ≤ 1 := by
      linarith only [mul_nonneg hse0' (sub_nonneg.mpr (Real.cos_le_one u)), hse1]
    -- `sin e · cos u ≤ sin 23.1°`
    have hU : Real.sin e * Real.cos u ≤ Real.sin (23.1 * 3.1415926535 / 180) := by
      have hd := Real.sin_sub_sin e (23.1 * 3.1415926535 / 180)
      have h0 : 0 ≤ (e - 23.1 * 3.1415926535 / 180) / 2 := by
        norm_num; linarith only [he0]
      have h1 : (e - 23.1 * 3.1415926535 / 180) / 2 ≤ 0.00301 := by
        norm_num; linarith only [he1]
      have hs1 := Real.sin_le h0
      have hs0 := Real.sin_nonneg_of_nonneg_of_le_pi h0 (by linarith only [h1, hπ1])
      have hc := Real.cos_le_one ((e + 23.1 * 3.1415926535 / 180) / 2)
      have hprod := mul_nonneg hs0 (sub_nonneg.mpr hc)
      have hprod2 := mul_nonneg (sub_nonneg.mpr hse0)
        (show 0 ≤ (1 - Real.cos u) - 0.0162 by linarith only [hcu1])
      generalize Real.sin ((e - 23.1 * 3.1415926535 / 180) / 2) = a at hd hs1 hs0 hprod
      generalize Real.cos ((e + 23.1 * 3.1415926535 / 180) / 2) = b at hd hc hprod
      generalize (e - 23.1 * 3.1415926535 / 180) / 2 = c at h0 h1 hs1
      linarith only [hd, h1, hs1, hprod, hprod2, hse0, hcu1]
    -- `sin 22.9° ≤ sin e · cos u`
    have hL : Real.sin (22.9 * 3.1415926535 / 180) ≤ Real.sin e * Real.cos u := by
      have hd := Real.sin_sub_sin e (22.9 * 3.1415926535 / 180)
      have h0 : 0.00465 ≤ (e - 22.9 * 3.1415926535 / 180) / 2 := by
        norm_num; linarith only [he0]
      have h1 : (e - 22.9 * 3.1415926535 / 180) / 2 ≤ 0.0048 := by
        norm_num; linarith only [he1]
      have hm0 : 0 ≤ (e + 22.9 * 3.1415926535 / 180) / 2 := by
        norm_num; linarith only [he0]
      have hm1 : (e + 22.9 * 3.1415926535 / 180) / 2 ≤ 0.40444 := by
        norm_num; linarith only [he1]
      have hs := Real.sin_gt_sub_cube (show 0 < (e - 22.9 * 3.1415926535 / 180) / 2
        by linarith only [h0]) (by linarith only [h1])
      have hc := Real.one_sub_sq_div_two_le_cos (x := (e + 22.9 * 3.1415926535 / 180) / 2)
      generalize (e - 22.9 * 3.1415926535 / 180) / 2 = c at hd h0 h1 hs
      generalize (e + 22.9 * 3.1415926535 / 180) / 2 = m at hd hm0 hm1 hc
      have h3 : c ^ 3 ≤ 0.0048 ^ 3 := pow_le_pow_left₀ (by linarith only [h0]) h1 3
      have h2 : m ^ 2 ≤ 0.40444 ^ 2 := pow_le_pow_left₀ hm0 hm1 2
      have ha : 0.00464 ≤ Real.sin c := by norm_num at h3 ⊢; linarith only [hs, h3, h0]
      have hb : 0.918 ≤ Real.cos m := by norm_num at h2 ⊢; linarith only [hc, h2]
      have hprod := mul_nonneg (sub_nonneg.mpr ha) (sub_nonneg.mpr hb)
      have hprod2 := mul_nonneg (sub_nonneg.mpr hse1) (sub_nonneg.mpr (Real.cos_le_one u))
      generalize Real.sin c = a at hd ha hprod
      generalize Real.cos m = b at hd hb hprod
      linarith only [hd, ha, hb, hprod, hprod2, hse1, hcu0]
    have hδ1 : -(Real.pi / 2) ≤ -(23.1 * 3.1415926535 / 180)
        ∧ -(23.1 * 3.1415926535 / 180) ≤ Real.pi / 2 := by
      constructor <;> norm_num <;> linarith only [hπ1]
    have hδ0 : -(Real.pi / 2) ≤ -(22.9 * 3.1415926535 / 180)
        ∧ -(22.9 * 3.1415926535 / 180) ≤ Real.pi / 2 := by
      constructor <;> norm_num <;> linarith only [hπ1]
    rw [hp]
    have hp1 : -1 ≤ -(Real.sin e * Real.cos u) := by linarith only [hsc1]
    have hp2 : -(Real.sin e * Real.cos u) ≤ 1 := by linarith only [hsc0]
    refine ⟨hp1, hp2, ?_, ?_⟩
    · rw [Real.le_arcsin_iff_sin_le ⟨hδ1.1, hδ1.2⟩ ⟨hp1, hp2⟩, Real.sin_neg]
      linarith only [hU]
    · rw [Real.arcsin_le_iff_le_sin ⟨hp1, hp2⟩ ⟨hδ0.1, hδ0.2⟩, Real.sin_neg]
      linarith only [hL]

/-- C21: at J2000.0 (`jd.day = 2451545`, `jd.time = 0`) `equatorialCoordinatesForSunAtJD`
returns a right ascension between 18h38m and 18h48m and a declination between `-23.1` and
`-22.9` degrees. -/
theorem sun_position_at_J2000 :
    ∃ ra dec : ℝ, (equatorialCoordinatesForSunAtJD ⟨2451545, 0⟩).1.ra = num ra
      ∧ (equatorialCoordinatesForSunAtJD ⟨2451545, 0⟩).1.dec = num dec
      ∧ 18 + 38 / 60 ≤ ra ∧ ra ≤ 18 + 48 / 60 ∧ -23.1 ≤ dec ∧ dec ≤ -22.9 := by
  have hπ1 := Real.pi_gt_d6
  have hπ2 := Real.pi_lt_d6
  have hT : (ofInt (2451545 : ℤ) - 2451545.0 + (0 : CFloat)) / 36525 = num 0 := by
    simp; norm_num
  obtain ⟨ε0, dψ, hobl, -, hε0a, hε0b, -, -⟩ := obliquityAndNutationForT_zero
  have hL0 : LIMIT_DEGREES_TO_360 (280.46646 + num 0 * 36000.76983 + num 0 * num 0 * 0.0003032)
      = num 280.46646 := by
    simp only [ofScientific_eq, num_mul, num_add]
    rw [show (280.46646 + 0 * 36000.76983 + 0 * 0 * 0.0003032 : ℝ) = 280.46646 by norm_num]
    exact LIMIT_DEGREES_TO_360_of_lt _ (by norm_num) (by norm_num)
  have hM : LIMIT_DEGREES_TO_360 (357.52911 + num 0 * 35999.05029 - num 0 * num 0 * 0.0001537)
      = num 357.52911 := by
    simp only [ofScientific_eq, num_mul, num_add, num_sub]
    rw [show (357.52911 + 0 * 35999.05029 - 0 * 0 * 0.0001537 : ℝ) = 357.52911 by norm_num]
    exact LIMIT_DEGREES_TO_360_of_lt _ (by norm_num) (by norm_num)
  obtain ⟨s1, hs1, hs1a, hs1b⟩ : ∃ s : ℝ,
      sin ((num 357.52911 * PI) / 180) = num s ∧ -0.0432 ≤ s ∧ s ≤ -0.043 := by
    have h : sin ((num 357.52911 * PI) / 180)
        = num (Real.sin (357.52911 * 3.1415926535 / 180)) := by
      unfold PI
      simp only [ofScientific_eq, ofNat_eq, num_mul,
        num_div_of_ne _ (by norm_num : (180 : ℝ) ≠ 0), sin_num]
    have hy := Real.sin_two_pi_sub (357.52911 * 3.1415926535 / 180)
    have h0 : 0.0431 ≤ 2 * Real.pi - 357.52911 * 3.1415926535 / 180 := by
      norm_num; linarith only [hπ1]
    have h1 : 2 * Real.pi - 357.52911 * 3.1415926535 / 180 ≤ 0.0432 := by
      norm_num; linarith only [hπ2]
    have h2 := Real.sin_le (show 0 ≤ 2 * Real.pi - 357.52911 * 3.1415926535 / 180
      by linarith only [h0])
    have h3 := Real.sin_gt_sub_cube (show 0 < 2 * Real.pi - 357.52911 * 3.1415926535 / 180
      by linarith only [h0]) (by linarith only [h1])
    generalize 2 * Real.pi - 357.52911 * 3.1415926535 / 180 = y at hy h0 h1 h2 h3
    have h4 : y ^ 3 ≤ 0.0432 ^ 3 := pow_le_pow_left₀ (by linarith only [h0]) h1 3
    norm_num at h4
    exact ⟨_, h, by linarith only [hy, h1, h2], by linarith only [hy, h0, h3, h4]⟩
  obtain ⟨s2, hs2, hs2a, hs2b⟩ :=
    (num_of_isnan (a := (2 * num 357.52911 * PI) / 180) (by simp)).2.1
  obtain ⟨s3, hs3, hs3a, hs3b⟩ :=
    (num_of_isnan (a := (3 * num 357.52911 * PI) / 180) (by simp)).2.1
  obtain ⟨a1, ha1, ha1a, ha1b⟩ :=
    (num_of_isnan (a := ((351.52 + 22518.4428 * num 0) * PI) / 180) (by simp)).2.2
  obtain ⟨a2, ha2, ha2a, ha2b⟩ :=
    (num_of_isnan (a := ((253.14 + 45036.8857 * num 0) * PI) / 180) (by simp)).2.2
  obtain ⟨a3, ha3, ha3a, ha3b⟩ :=
    (num_of_isnan (a := ((157.23 + 32964.4673 * num 0) * PI) / 180) (by simp)).2.2
  obtain ⟨a4, ha4, ha4a, ha4b⟩ :=
    (num_of_isnan (a := ((297.85 + 445267.1117 * num 0) * PI) / 180) (by simp)).2.1
  obtain ⟨a5, ha5, ha5a, ha5b⟩ :=
    (num_of_isnan (a := ((252.08 + 20.19 * num 0) * PI) / 180) (by simp)).2.1
  obtain ⟨sω, hsω, hsωa, hsωb⟩ :=
    (num_of_isnan (a := ((125.04 - 1934.136 * num 0) * PI) / 180) (by simp)).2.1
  obtain ⟨cω, hcω, hcωa, hcωb⟩ :=
    (num_of_isnan (a := ((125.04 - 1934.136 * num 0) * PI) / 180) (by simp)).2.2
  obtain ⟨lam, hlam, hl0, hl1⟩ : ∃ lam : ℝ,
      num 280.46646
        + ((1.914602 - num 0 * 0.004817 - num 0 * num 0 * 0.000014) * num s1
          + (0.019993 - num 0 * 0.000101) * num s2 + 0.000289 * num s3)
        + (0.00134 * num a1 + 0.00153 * num a2 + 0.00200 * num a3 + 0.00180 * num a4
          + 0.00196 * num a5)
        - 0.00569 - 0.00478 * num sω = num lam
      ∧ 280.34 ≤ lam ∧ lam ≤ 280.42 := by
    refine ⟨280.46646
        + ((1.914602 - 0 * 0.004817 - 0 * 0 * 0.000014) * s1
          + (0.019993 - 0 * 0.000101) * s2 + 0.000289 * s3)
        + (0.00134 * a1 + 0.00153 * a2 + 0.00200 * a3 + 0.00180 * a4 + 0.00196 * a5)
        - 0.00569 - 0.00478 * sω, rfl, ?_, ?_⟩
    · norm_num
      linarith only [hs1a, hs2a, hs3a, ha1a, ha2a, ha3a, ha4a, ha5a, hsωb]
    · norm_num
      linarith only [hs1b, hs2b, hs3b, ha1b, ha2b, ha3b, ha4b, ha5b, hsωa]
  obtain ⟨ε, hε, hεa, hεb⟩ : ∃ ε : ℝ, num ε0 + 0.00256 * num cω = num ε
      ∧ 23.4339 ≤ ε ∧ ε ≤ 23.4447 :=
    ⟨ε0 + 0.00256 * cω, rfl, by norm_num at hε0a ⊢; linarith only [hε0a, hcωa],
      by norm_num at hε0b ⊢; linarith only [hε0b, hcωb]⟩
  obtain ⟨⟨hat0, hat1⟩, hp0, hp1, has0, has1⟩ := sun_angles_near_J2000 ε lam hεa hεb hl0 hl1
  have hce : cos ((num ε * PI) / 180) = num (Real.cos (ε * 3.1415926535 / 180)) := by
    unfold PI
    simp only [ofScientific_eq, ofNat_eq, num_mul,
      num_div_of_ne _ (by norm_num : (180 : ℝ) ≠ 0), cos_num]
  have hse : sin ((num ε * PI) / 180) = num (Real.sin (ε * 3.1415926535 / 180)) := by
    unfold PI
    simp only [ofScientific_eq, ofNat_eq, num_mul,
      num_div_of_ne _ (by norm_num : (180 : ℝ) ≠ 0), sin_num]
  have htl : tan ((num lam * PI) / 180) = num (Real.tan (lam * 3.1415926535 / 180)) := by
    unfold PI
    simp only [ofScientific_eq, ofNat_eq, num_mul,
      num_div_of_ne _ (by norm_num : (180 : ℝ) ≠ 0), tan_num]
  have hsl : sin ((num lam * PI) / 180) = num (Real.sin (lam * 3.1415926535 / 180)) := by
    unfold PI
    simp only [ofScientific_eq, ofNat_eq, num_mul,
      num_div_of_ne _ (by norm_num : (180 : ℝ) ≠ 0), sin_num]
  unfold equatorialCoordinatesForSunAtJD
  simp only []
  rw [hT, hobl, hL0, hM, hs1, hs2, hs3, ha1, ha2, ha3, ha4, ha5, hsω, hcω, hlam, hε, hce, hse,
    htl, hsl]
  have hv1 : Real.arctan (Real.cos (ε * 3.1415926535 / 180)
      * Real.tan (lam * 3.1415926535 / 180)) * 12 / 3.1415926535 ≤ -5.2 := by
    rw [div_le_iff₀ (by norm_num)]
    linarith only [hat1]
  have hv0 : -(161 / 30) ≤ Real.arctan (Real.cos (ε * 3.1415926535 / 180)
      * Real.tan (lam * 3.1415926535 / 180)) * 12 / 3.1415926535 := by
    rw [le_div_iff₀ (by norm_num)]
    linarith only [hat0]
  have hra : LIMIT_HOURS_TO_24 (atan (num (Real.cos (ε * 3.1415926535 / 180))
        * num (Real.tan (lam * 3.1415926535 / 180))) * 12 / PI)
      = num (Real.arctan (Real.cos (ε * 3.1415926535 / 180)
          * Real.tan (lam * 3.1415926535 / 180)) * 12 / 3.1415926535 + 24) := by
    unfold PI
    rw [num_mul, show atan (num (Real.cos (ε * 3.1415926535 / 180)
        * Real.tan (lam * 3.1415926535 / 180)))
      = num (Real.arctan (Real.cos (ε * 3.1415926535 / 180)
        * Real.tan (lam * 3.1415926535 / 180))) from rfl]
    simp only [ofNat_eq, ofScientific_eq, num_mul]
    rw [num_div_of_ne _ (by norm_num), LIMIT_HOURS_TO_24_num,
      if_neg (by linarith only [hv1])]
  have hdec : asin (num (Real.sin (ε * 3.1415926535 / 180))
        * num (Real.sin (lam * 3.1415926535 / 180))) * 180.0 / PI
      = num (Real.arcsin (Real.sin (ε * 3.1415926535 / 180)
          * Real.sin (lam * 3.1415926535 / 180)) * 180.0 / 3.1415926535) := by
    unfold PI
    rw [num_mul, show asin (num (Real.sin (ε * 3.1415926535 / 180)
        * Real.sin (lam * 3.1415926535 / 180)))
      = num (Real.arcsin (Real.sin (ε * 3.1415926535 / 180)
        * Real.sin (lam * 3.1415926535 / 180))) from if_pos ⟨hp0, hp1⟩]
    simp only [ofScientific_eq, num_mul]
    rw [num_div_of_ne _ (by norm_num)]
  rw [hra, hdec]
  refine ⟨_, _, rfl, rfl, ?_, ?_, ?_, ?_⟩
  · linarith only [hv0]
  · linarith only [hv1]
  · rw [le_div_iff₀ (by norm_num)]
    linarith only [has0]
  · rw [div_le_iff₀ (by norm_num)]
    linarith only [has1]

/-! ## Rounding to single precision -/

/-- A number less than half a unit away from the integer `n` rounds to `n`. -/
theorem roundHalfEven_eq {y : ℝ} (n : ℤ) (h1 : (n : ℝ) - 1 / 2 < y) (h2 : y < n + 1 / 2) :
    roundHalfEven y = n := by
  unfold roundHalfEven
  by_cases hy : y < n
  · have hf : ⌊y⌋ = n - 1 := by
      rw [Int.floor_eq_iff]; push_cast; constructor <;> linarith
    have hfr : Int.fract y = y - (n - 1) := by
      rw [Int.fract, hf]; push_cast; ring
    rw [if_neg (by rw [hfr]; linarith), if_pos (by rw [hfr]; linarith), hf]; ring
  · have hf : ⌊y⌋ = n := by
      rw [Int.floor_eq_iff]; constructor <;> linarith
    have hfr : Int.fract y = y - n := by rw [Int.fract, hf]
    rw [if_pos (by rw [hfr]; linarith), hf]

/-- An integer rounds to itself. -/
theorem roundHalfEven_intCast (n : ℤ) : roundHalfEven (n : ℝ) = n :=
  roundHalfEven_eq n (by linarith) (by linarith)

/-- Half-way between `n` and `n + 1` the rounding takes the even one. -/
theorem roundHalfEven_tie (n : ℤ) :
    roundHalfEven ((n : ℝ) + 1 / 2) = if Even n then n else n + 1 := by
  have hf : ⌊(n : ℝ) + 1 / 2⌋ = n := by
    rw [Int.floor_eq_iff]; constructor <;> linarith
  have hfr : Int.fract ((n : ℝ) + 1 / 2) = 1 / 2 := by rw [Int.fract, hf]; ring
  unfold roundHalfEven
  rw [hfr, if_neg (lt_irrefl _), if_neg (lt_irrefl _), hf]

/-- The rounding to an integer moves a number by at most one half. -/
theorem abs_roundHalfEven_sub_le (y : ℝ) : |(roundHalfEven y : ℝ) - y| ≤ 1 / 2 := by
  have h0 := Int.fract_nonneg y
  have h1 := Int.fract_lt_one y
  have hy : y = ⌊y⌋ + Int.fract y := (Int.floor_add_fract y).symm
  unfold roundHalfEven
  rw [abs_le]
  split_ifs with a b c
  · constructor <;> linarith
  · push_cast; constructor <;> linarith
  · constructor <;> linarith
  · push_cast; constructor <;> linarith

/-- The rounding of a number that is at most the integer `N` is at most `N`. -/
theorem roundHalfEven_le {y : ℝ} (N : ℤ) (h : y ≤ N) : roundHalfEven y ≤ N := by
  have hfl : ⌊y⌋ ≤ N := Int.floor_le_iff.mpr (by linarith)
  have key : ¬ Int.fract y < 1 / 2 → ⌊y⌋ + 1 ≤ N := by
    intro hfr
    have : ⌊y⌋ < N := by
      rw [Int.floor_lt]
      rcases lt_or_eq_of_le h with h3 | h3
      · exact h3
      · exfalso; apply hfr; rw [h3, Int.fract_intCast]; norm_num
    omega
  unfold roundHalfEven
  split_ifs with a b c
  · exact hfl
  · exact key a
  · exact hfl
  · exact key a

/-- The rounding of a number that is at least the integer `N` is at least `N`. -/
theorem le_roundHalfEven {y : ℝ} (N : ℤ) (h : (N : ℝ) ≤ y) : N ≤ roundHalfEven y := by
  have hfl : N ≤ ⌊y⌋ := Int.le_floor.mpr h
  unfold roundHalfEven
  split_ifs <;> omega

/-- The exponent of the unit in the last place for a magnitude in `[2 ^ e, 2 ^ (e + 1))`. -/
theorem f32Exponent_eq {x : ℝ} (e : ℤ) (he : -126 ≤ e) (h1 : (2 : ℝ) ^ e ≤ |x|)
    (h2 : |x| < (2 : ℝ) ^ (e + 1)) : f32Exponent x = e - 23 := by
  have hpos : 0 < |x| := lt_of_lt_of_le (zpow_pos (by norm_num) e) h1
  have hlog : Int.log 2 |x| = e := by
    apply le_antisymm
    · have := (Int.lt_zpow_iff_log_lt (b := 2) (by norm_num) hpos).mp (by exact_mod_cast h2)
      omega
    · exact (Int.zpow_le_iff_le_log (b := 2) (by norm_num) hpos).mp (by exact_mod_cast h1)
  unfold f32Exponent
  rw [hlog, max_eq_left he]

/-- The rounding to single precision of a number of magnitude in `[2 ^ e, 2 ^ (e + 1))`. -/
theorem roundF32_eq_of_mem {x : ℝ} (e : ℤ) (he : -126 ≤ e) (h1 : (2 : ℝ) ^ e ≤ |x|)
    (h2 : |x| < (2 : ℝ) ^ (e + 1)) :
    roundF32 x = roundHalfEven (x / 2 ^ (e - 23)) * 2 ^ (e - 23) := by
  unfold roundF32
  rw [f32Exponent_eq e he h1 h2]

/-- Zero is stored as zero. -/
theorem roundF32_zero : roundF32 0 = 0 := by
  unfold roundF32
  rw [zero_div]
  have : roundHalfEven (0 : ℝ) = 0 := by simpa using roundHalfEven_intCast 0
  rw [this]; simp

/-- A stored `float` is within half a unit in the last place of the exact value: a relative
error of at most `2 ^ (-24)`, or `2 ^ (-150)` in the subnormal range. -/
theorem abs_roundF32_sub_le (x : ℝ) :
    |roundF32 x - x| ≤ |x| / 2 ^ 24 + 1 / 2 ^ 150 := by
  have hu : (0 : ℝ) < 2 ^ f32Exponent x := zpow_pos (by norm_num) _
  have h1 : |roundF32 x - x| ≤ 2 ^ f32Exponent x / 2 := by
    have := abs_roundHalfEven_sub_le (x / 2 ^ f32Exponent x)
    have e1 : roundF32 x - x
        = ((roundHalfEven (x / 2 ^ f32Exponent x) : ℝ) - x / 2 ^ f32Exponent x)
            * 2 ^ f32Exponent x := by
      unfold roundF32; field_simp
    rw [e1, abs_mul, abs_of_pos hu]
    nlinarith
  rcases eq_or_ne x 0 with hx | hx
  · rw [hx, roundF32_zero]; simp
  have hpos : 0 < |x| := abs_pos.mpr hx
  rcases le_total (-126) (Int.log 2 |x|) with hl | hl
  · have h2 : (2 : ℝ) ^ f32Exponent x / 2 ≤ |x| / 2 ^ 24 := by
      have h3 : ((2 : ℕ) : ℝ) ^ Int.log 2 |x| ≤ |x| := Int.zpow_log_le_self (by norm_num) hpos
      have h4 : (2 : ℝ) ^ f32Exponent x = 2 ^ Int.log 2 |x| / 2 ^ 23 := by
        unfold f32Exponent
        rw [max_eq_left hl, zpow_sub₀ (by norm_num)]; norm_num
      rw [h4]
      have h5 : (2 : ℝ) ^ Int.log 2 |x| ≤ |x| := by exact_mod_cast h3
      have : (2 : ℝ) ^ Int.log 2 |x| / 2 ^ 23 / 2 = 2 ^ Int.log 2 |x| / 2 ^ 24 := by
        rw [div_div]; norm_num
      rw [this]
      exact div_le_div_of_nonneg_right h5 (by positivity)
    have : (0 : ℝ) ≤ 1 / 2 ^ 150 := by positivity
    linarith
  · have h4 : (2 : ℝ) ^ f32Exponent x / 2 = 1 / 2 ^ 150 := by
      unfold f32Exponent
      rw [max_eq_right hl]
      norm_num
    have : 0 ≤ |x| / 2 ^ 24 := by positivity
    linarith

/-- In the normal range a stored `float` has a relative error of at most `2 ^ (-24)`. -/
theorem abs_roundF32_sub_le_of_normal {x : ℝ} (hx : 1 / 2 ^ 126 ≤ |x|) :
    |roundF32 x - x| ≤ |x| / 2 ^ 24 := by
  have hpos : 0 < |x| := lt_of_lt_of_le (by positivity) hx
  have hu : (0 : ℝ) < 2 ^ f32Exponent x := zpow_pos (by norm_num) _
  have h1 : |roundF32 x - x| ≤ 2 ^ f32Exponent x / 2 := by
    have := abs_roundHalfEven_sub_le (x / 2 ^ f32Exponent x)
    have e1 : roundF32 x - x
        = ((roundHalfEven (x / 2 ^ f32Exponent x) : ℝ) - x / 2 ^ f32Exponent x)
            * 2 ^ f32Exponent x := by
      unfold roundF32; field_simp
    rw [e1, abs_mul, abs_of_pos hu]
    nlinarith
  have hl : -126 ≤ Int.log 2 |x| := by
    apply (Int.zpow_le_iff_le_log (b := 2) (by norm_num) hpos).mp
    have : (((2 : ℕ) : ℝ)) ^ (-126 : ℤ) = 1 / 2 ^ 126 := by norm_num
    rw [this]; exact hx
  have h3 : ((2 : ℕ) : ℝ) ^ Int.log 2 |x| ≤ |x| := Int.zpow_log_le_self (by norm_num) hpos
  have h4 : (2 : ℝ) ^ f32Exponent x = 2 ^ Int.log 2 |x| / 2 ^ 23 := by
    unfold f32Exponent
    rw [max_eq_left hl, zpow_sub₀ (by norm_num)]; norm_num
  have h5 : (2 : ℝ) ^ Int.log 2 |x| ≤ |x| := by exact_mod_cast h3
  have h6 : (2 : ℝ) ^ Int.log 2 |x| / 2 ^ 23 / 2 = 2 ^ Int.log 2 |x| / 2 ^ 24 := by
    rw [div_div]; norm_num
  rw [h4, h6] at h1
  exact h1.trans (div_le_div_of_nonneg_right h5 (by positivity))

/-- The rounding of a number that is not negative is not negative. -/
theorem roundF32_nonneg {x : ℝ} (h : 0 ≤ x) : 0 ≤ roundF32 x := by
  unfold roundF32
  have hu : (0 : ℝ) < 2 ^ f32Exponent x := zpow_pos (by norm_num) _
  have : (0 : ℤ) ≤ roundHalfEven (x / 2 ^ f32Exponent x) :=
    le_roundHalfEven 0 (by push_cast; positivity)
  have h2 : (0 : ℝ) ≤ (roundHalfEven (x / 2 ^ f32Exponent x) : ℝ) := by exact_mod_cast this
  positivity

/-- The rounding of a number that is not positive is not positive. -/
theorem roundF32_nonpos {x : ℝ} (h : x ≤ 0) : roundF32 x ≤ 0 := by
  unfold roundF32
  have hu : (0 : ℝ) < 2 ^ f32Exponent x := zpow_pos (by norm_num) _
  have : roundHalfEven (x / 2 ^ f32Exponent x) ≤ (0 : ℤ) :=
    roundHalfEven_le 0 (by push_cast; exact div_nonpos_of_nonpos_of_nonneg h hu.le)
  have h2 : (roundHalfEven (x / 2 ^ f32Exponent x) : ℝ) ≤ 0 := by exact_mod_cast this
  exact mul_nonpos_of_nonpos_of_nonneg h2 hu.le

/-- Evaluation of a rounding inside a known binade: `u` is the unit in the last place of the
numbers of magnitude in `[2 ^ 23 * u, 2 ^ 24 * u)`, and `x` is nearer to `n * u` than to
the other multiples of `u`. -/
theorem roundF32_eval {x : ℝ} (e n : ℤ) (u : ℝ) (hu : u = 2 ^ (e - 23)) (he : -126 ≤ e)
    (h1 : 2 ^ 23 * u ≤ |x|) (h2 : |x| < 2 ^ 24 * u)
    (h3 : ((n : ℝ) - 1 / 2) * u < x) (h4 : x < ((n : ℝ) + 1 / 2) * u) :
    roundF32 x = n * u := by
  have hpos : (0 : ℝ) < u := by rw [hu]; exact zpow_pos (by norm_num) _
  have e1 : (2 : ℝ) ^ e = 2 ^ 23 * u := by
    rw [hu, zpow_sub₀ (by norm_num)]; norm_num; field_simp
  have e2 : (2 : ℝ) ^ (e + 1) = 2 ^ 24 * u := by
    rw [zpow_add_one₀ (by norm_num), e1]; ring
  rw [roundF32_eq_of_mem e he (by rw [e1]; exact h1) (by rw [e2]; exact h2), ← hu,
    roundHalfEven_eq n (by rw [lt_div_iff₀ hpos]; exact h3) (by rw [div_lt_iff₀ hpos]; exact h4)]

/-- Evaluation of a rounding at a tie, inside a known binade: the even neighbour. -/
theorem roundF32_eval_tie {x : ℝ} (e n : ℤ) (u : ℝ) (hu : u = 2 ^ (e - 23)) (he : -126 ≤ e)
    (h1 : 2 ^ 23 * u ≤ |x|) (h2 : |x| < 2 ^ 24 * u) (h3 : x = ((n : ℝ) + 1 / 2) * u) :
    roundF32 x = (if Even n then n else n + 1 : ℤ) * u := by
  have hpos : (0 : ℝ) < u := by rw [hu]; exact zpow_pos (by norm_num) _
  have e1 : (2 : ℝ) ^ e = 2 ^ 23 * u := by
    rw [hu, zpow_sub₀ (by norm_num)]; norm_num; field_simp
  have e2 : (2 : ℝ) ^ (e + 1) = 2 ^ 24 * u := by
    rw [zpow_add_one₀ (by norm_num), e1]; ring
  have e3 : x / u = (n : ℝ) + 1 / 2 := by rw [h3]; field_simp; ring
  rw [roundF32_eq_of_mem e he (by rw [e1]; exact h1) (by rw [e2]; exact h2), ← hu, e3,
    roundHalfEven_tie]

/-- A number with a significand of at most 24 bits and an exponent in the range of the
format is stored as it is. -/
theorem roundF32_intCast_mul_zpow (m e : ℤ) (hm : |m| < 2 ^ 24) (he : -149 ≤ e) :
    roundF32 ((m : ℝ) * 2 ^ e) = (m : ℝ) * 2 ^ e := by
  rcases eq_or_ne m 0 with h0 | h0
  · rw [h0]; simp [roundF32_zero]
  have hm0 : (0 : ℝ) < |(m : ℝ)| := abs_pos.mpr (by exact_mod_cast h0)
  have h2e : (0 : ℝ) < 2 ^ e := zpow_pos (by norm_num) _
  have hx : |(m : ℝ) * 2 ^ e| = |(m : ℝ)| * 2 ^ e := by rw [abs_mul, abs_of_pos h2e]
  have hpos : 0 < |(m : ℝ) * 2 ^ e| := by rw [hx]; positivity
  have hlt : |(m : ℝ) * 2 ^ e| < 2 ^ (e + 24) := by
    rw [hx, zpow_add₀ (by norm_num), mul_comm]
    have : |(m : ℝ)| < 2 ^ 24 := by exact_mod_cast hm
    have e3 : (2 : ℝ) ^ (24 : ℤ) = 2 ^ 24 := by norm_num
    rw [e3]
    exact mul_lt_mul_of_pos_left this h2e
  have hlog : Int.log 2 |(m : ℝ) * 2 ^ e| < e + 24 :=
    (Int.lt_zpow_iff_log_lt (b := 2) (by norm_num) hpos).mp (by exact_mod_cast hlt)
  have hE : f32Exponent ((m : ℝ) * 2 ^ e) ≤ e := by
    unfold f32Exponent
    rcases max_cases (Int.log 2 |(m : ℝ) * 2 ^ e|) (-126) with h | h <;> omega
  unfold roundF32
  obtain ⟨E, hEdef⟩ : ∃ E, E = f32Exponent ((m : ℝ) * 2 ^ e) := ⟨_, rfl⟩
  rw [← hEdef] at hE ⊢
  obtain ⟨k, hk⟩ : ∃ k : ℕ, e = E + k := ⟨(e - E).toNat, by omega⟩
  have hu : (0 : ℝ) < 2 ^ E := zpow_pos (by norm_num) _
  have e4 : (2 : ℝ) ^ e = 2 ^ E * 2 ^ k := by
    rw [hk, zpow_add₀ (by norm_num), zpow_natCast]
  have e5 : (m : ℝ) * 2 ^ e / 2 ^ E = ((m * 2 ^ k : ℤ) : ℝ) := by
    rw [e4]; push_cast; field_simp; ring
  rw [e5, roundHalfEven_intCast]
  push_cast
  rw [e4]; ring

/-- What a `float` holds is stored again unchanged. -/
theorem roundF32_roundF32 (x : ℝ) : roundF32 (roundF32 x) = roundF32 x := by
  have hu : (0 : ℝ) < 2 ^ f32Exponent x := zpow_pos (by norm_num) _
  have hE : -149 ≤ f32Exponent x := by
    unfold f32Exponent
    rcases max_cases (Int.log 2 |x|) (-126) with h | h <;> omega
  have hlt : |x| < 2 ^ 24 * 2 ^ f32Exponent x := by
    have h1 : |x| < ((2 : ℕ) : ℝ) ^ (Int.log 2 |x| + 1) :=
      Int.lt_zpow_succ_log_self (by norm_num) _
    have h2 : ((2 : ℕ) : ℝ) ^ (Int.log 2 |x| + 1) ≤ 2 ^ (f32Exponent x + 24) := by
      push_cast
      apply zpow_le_zpow_right₀ (by norm_num)
      unfold f32Exponent
      rcases max_cases (Int.log 2 |x|) (-126) with h | h <;> omega
    have h3 : (2 : ℝ) ^ (f32Exponent x + 24) = 2 ^ 24 * 2 ^ f32Exponent x := by
      rw [zpow_add₀ (by norm_num)]; norm_num; ring
    linarith
  have hq : |x / 2 ^ f32Exponent x| < 2 ^ 24 := by
    rw [abs_div, abs_of_pos hu, div_lt_iff₀ hu]; exact hlt
  rw [abs_lt] at hq
  have hk1 : roundHalfEven (x / 2 ^ f32Exponent x) ≤ 2 ^ 24 :=
    roundHalfEven_le (2 ^ 24) (by push_cast; linarith)
  have hk2 : -(2 ^ 24) ≤ roundHalfEven (x / 2 ^ f32Exponent x) :=
    le_roundHalfEven (-(2 ^ 24)) (by push_cast; linarith)
  have hr : roundF32 x = (roundHalfEven (x / 2 ^ f32Exponent x) : ℝ) * 2 ^ f32Exponent x := rfl
  rcases lt_or_eq_of_le hk1 with h | h
  · rcases lt_or_eq_of_le hk2 with h' | h'
    · rw [hr]
      exact roundF32_intCast_mul_zpow _ _ (abs_lt.mpr ⟨h', h⟩) hE
    · have e1 : roundF32 x = ((-(2 ^ 23) : ℤ) : ℝ) * 2 ^ (f32Exponent x + 1) := by
        rw [hr, ← h', zpow_add_one₀ (by norm_num)]; push_cast; ring
      rw [e1]
      exact roundF32_intCast_mul_zpow _ _ (by norm_num) (by omega)
  · have e1 : roundF32 x = ((2 ^ 23 : ℤ) : ℝ) * 2 ^ (f32Exponent x + 1) := by
      rw [hr, h, zpow_add_one₀ (by norm_num)]; push_cast; ring
    rw [e1]
    exact roundF32_intCast_mul_zpow _ _ (by norm_num) (by omega)

/-- A number given as `m * 2 ^ e` with a significand of at most 24 bits is stored as it is. -/
theorem roundF32_of_eq {x : ℝ} (m e : ℤ) (hm : |m| < 2 ^ 24) (he : -149 ≤ e)
    (h : x = (m : ℝ) * 2 ^ e) : roundF32 x = x := by
  rw [h]; exact roundF32_intCast_mul_zpow m e hm he

/-- The conversion to an integer of a number of `[n, n + 1)` that is not negative is `n`. -/
theorem toLong_eq {y : ℝ} (n : ℤ) (h0 : 0 ≤ y) (h1 : (n : ℝ) ≤ y) (h2 : y < n + 1) :
    Single.toLong y = n := by
  unfold Single.toLong
  rw [if_pos h0, Int.floor_eq_iff]
  exact ⟨h1, h2⟩

/-- Bounds on the rounding of a positive number of the normal range, from bounds on it. -/
theorem roundF32_bounds_pos {x a b : ℝ} (ha : a ≤ x) (hb : x ≤ b) (ha0 : 1 / 2 ^ 100 ≤ a) :
    a * 0.9999999 ≤ roundF32 x ∧ roundF32 x ≤ b * 1.0000001 := by
  have hx : 0 < x := lt_of_lt_of_le (by positivity) (ha0.trans ha)
  have h := abs_roundF32_sub_le_of_normal (x := x)
    (by rw [abs_of_pos hx]
        exact le_trans (by norm_num) (ha0.trans ha))
  rw [abs_of_pos hx, abs_le] at h
  have e1 : x / 2 ^ 24 ≤ x * 0.0000001 := by
    rw [div_le_iff₀ (by positivity)]; nlinarith
  have h0 : (0 : ℝ) < a := lt_of_lt_of_le (by positivity) ha0
  constructor <;> nlinarith

/-- Bounds on the rounding of a negative number of the normal range, from bounds on it. -/
theorem roundF32_bounds_neg {x a b : ℝ} (ha : a ≤ x) (hb : x ≤ b) (hb0 : b ≤ -(1 / 2 ^ 100)) :
    a * 1.0000001 ≤ roundF32 x ∧ roundF32 x ≤ b * 0.9999999 := by
  have hx : x < 0 := lt_of_le_of_lt (hb.trans hb0) (by norm_num)
  have h := abs_roundF32_sub_le_of_normal (x := x)
    (by rw [abs_of_neg hx]
        have : (1 : ℝ) / 2 ^ 126 ≤ 1 / 2 ^ 100 := by norm_num
        linarith)
  rw [abs_of_neg hx, abs_le] at h
  have e1 : -x / 2 ^ 24 ≤ -x * 0.0000001 := by
    rw [div_le_iff₀ (by positivity)]; nlinarith
  have h0 : b < 0 := lt_of_le_of_lt hb0 (by norm_num)
  constructor <;> nlinarith

/-- The decisive step for the hours: a negative `float` of magnitude at most `2 ^ (-20)` plus
24 is stored as 24, the numbers between 16 and 32 being `2 ^ (-19)` apart. -/
theorem LIMIT_HOURS_TO_24_single_of_neg {w : ℝ} (h1 : -(1 / 1048576) ≤ w) (h2 : w < 0) :
    Single.LIMIT_HOURS_TO_24 w = 24 := by
  unfold Single.LIMIT_HOURS_TO_24
  rw [if_neg (not_le.mpr h2)]
  have hx : 0 < w + 24 := by linarith
  rcases eq_or_lt_of_le h1 with h | h
  · rw [roundF32_eval_tie 4 12582911 (1 / 524288) (by norm_num) (by norm_num)
      (by rw [abs_of_pos hx]; linarith) (by rw [abs_of_pos hx]; linarith)
      (by rw [← h]; norm_num),
      if_neg (by rw [Int.even_iff]; norm_num)]
    norm_num
  · rw [roundF32_eval 4 12582912 (1 / 524288) (by norm_num) (by norm_num)
      (by rw [abs_of_pos hx]; linarith) (by rw [abs_of_pos hx]; linarith)
      (by push_cast; linarith) (by push_cast; linarith)]
    norm_num

/-- The decisive step for the degrees: a negative `float` of magnitude at most `2 ^ (-16)`
is reduced to 360, the numbers between 256 and 512 being `2 ^ (-15)` apart. -/
theorem LIMIT_DEGREES_TO_360_single_of_neg {w : ℝ} (hw : roundF32 w = w)
    (h1 : -(1 / 65536) ≤ w) (h2 : w < 0) : Single.LIMIT_DEGREES_TO_360 w = 360 := by
  unfold Single.LIMIT_DEGREES_TO_360
  rw [if_neg (not_le.mpr h2)]
  have hq := abs_roundF32_sub_le (w / 360)
  have hq0 : roundF32 (w / 360) ≤ 0 := roundF32_nonpos (by linarith)
  have hq1 : -1 < roundF32 (w / 360) := by
    rw [abs_le] at hq
    have : |w / 360| ≤ 1 / 65536 := by
      rw [abs_of_nonpos (by linarith)]; linarith
    have e2 : (1 : ℝ) / 2 ^ 150 ≤ 1 / 65536 := by norm_num
    have e3 : |w / 360| / 2 ^ 24 ≤ |w / 360| := div_le_self (abs_nonneg _) (by norm_num)
    linarith
  have ht : Single.toLong (roundF32 (w / 360)) = 0 := by
    unfold Single.toLong
    split_ifs with h
    · have : roundF32 (w / 360) = 0 := le_antisymm hq0 h
      rw [this]; simp
    · rw [Int.ceil_eq_iff]; push_cast; constructor <;> linarith
  rw [ht]
  simp only [zero_mul, Int.cast_zero, roundF32_zero, sub_zero, hw]
  have hx : 0 < w + 360 := by linarith
  rcases eq_or_lt_of_le h1 with h | h
  · rw [roundF32_eval_tie 8 11796479 (1 / 32768) (by norm_num) (by norm_num)
      (by rw [abs_of_pos hx]; linarith) (by rw [abs_of_pos hx]; linarith)
      (by rw [← h]; norm_num),
      if_neg (by rw [Int.even_iff]; norm_num)]
    norm_num
  · rw [roundF32_eval 8 11796480 (1 / 32768) (by norm_num) (by norm_num)
      (by rw [abs_of_pos hx]; linarith) (by rw [abs_of_pos hx]; linarith)
      (by push_cast; linarith) (by push_cast; linarith)]
    norm_num

/-- The sine of a number of `[-1, 0)` is between the number and its half. -/
theorem sin_small_neg {l : ℝ} (h1 : -1 ≤ l) (h2 : l < 0) :
    l ≤ Real.sin l ∧ Real.sin l ≤ l / 2 := by
  have hx : 0 < -l := by linarith
  have h3 := Real.sin_le hx.le
  have h4 := Real.sin_gt_sub_cube hx (by linarith)
  rw [Real.sin_neg] at h3 h4
  have h5 : (-l) ^ 3 ≤ -l := by
    have : (-l) ^ 2 ≤ 1 := by nlinarith
    nlinarith
  constructor <;> linarith

/-- The sine of a number of `(0, 1]` is between its half and the number. -/
theorem sin_small_pos {l : ℝ} (h1 : 0 < l) (h2 : l ≤ 1) :
    l / 2 ≤ Real.sin l ∧ Real.sin l ≤ l := by
  have h3 := Real.sin_le h1.le
  have h4 := Real.sin_gt_sub_cube h1 h2
  have h5 : l ^ 3 ≤ l := by
    have : l ^ 2 ≤ 1 := by nlinarith
    nlinarith
  constructor <;> linarith

/-- The inverse sine of a small positive number is between it and three halves of it. -/
theorem arcsin_small_pos {s : ℝ} (h1 : 0 < s) (h2 : s ≤ 1 / 2) :
    s ≤ Real.arcsin s ∧ Real.arcsin s ≤ 3 / 2 * s := by
  have hpi := Real.pi_gt_three
  constructor
  · rw [Real.le_arcsin_iff_sin_le (by constructor <;> linarith) (by constructor <;> linarith)]
    exact Real.sin_le h1.le
  · rw [Real.arcsin_le_iff_le_sin (by constructor <;> linarith) (by constructor <;> linarith)]
    have h4 := Real.sin_gt_sub_cube (x := 3 / 2 * s) (by linarith) (by linarith)
    have h5 : (3 / 2 * s) ^ 3 / 4 ≤ s / 2 := by
      have : s ^ 2 ≤ 1 / 4 := by nlinarith
      nlinarith
    linarith

/-- Bounds on `atan2 y x` for `x` near 1 and a small negative `y`. -/
theorem arg_bounds_of_pos_neg {x y : ℝ} (hx1 : 9 / 10 ≤ x) (hx2 : x ≤ 11 / 10)
    (hy1 : -(1 / 10) ≤ y) (hy2 : y < 0) :
    2 * y ≤ Complex.arg ⟨x, y⟩ ∧ Complex.arg ⟨x, y⟩ ≤ y / 2 := by
  have ha1 : |x| ≤ Complex.abs ⟨x, y⟩ := Complex.abs_re_le_abs ⟨x, y⟩
  have ha2 : Complex.abs ⟨x, y⟩ ≤ |x| + |y| := Complex.abs_le_abs_re_add_abs_im ⟨x, y⟩
  rw [abs_of_pos (by linarith)] at ha1 ha2
  rw [abs_of_neg hy2] at ha2
  have hA : 0 < Complex.abs ⟨x, y⟩ := by linarith
  rw [Complex.arg_of_re_nonneg (by simp; linarith)]
  simp only []
  obtain ⟨A, hAdef⟩ : ∃ A, A = Complex.abs ⟨x, y⟩ := ⟨_, rfl⟩
  rw [← hAdef] at ha1 ha2 hA ⊢
  have hs1 : 0 < -y / A := div_pos (by linarith) hA
  have hs2 : -y / A ≤ 1 / 2 := by
    rw [div_le_iff₀ hA]; linarith
  have hs3 : -y / A ≤ -y / (9 / 10) := div_le_div_of_nonneg_left (by linarith) (by norm_num) (by linarith)
  have hs4 : -y / (6 / 5) ≤ -y / A := div_le_div_of_nonneg_left (by linarith) hA (by linarith)
  obtain ⟨b1, b2⟩ := arcsin_small_pos hs1 hs2
  have e : y / A = -(-y / A) := by ring
  rw [e, Real.arcsin_neg]
  constructor <;> linarith

/-- The inverse tangent of a small negative number is between twice and half of it. -/
theorem arctan_small_neg {p : ℝ} (h1 : -(1 / 10) ≤ p) (h2 : p < 0) :
    2 * p ≤ Real.arctan p ∧ Real.arctan p ≤ p / 2 := by
  have hpi := Real.pi_gt_three
  have hq : 0 < -p := by linarith
  have k1 : -p ≤ Real.tan (2 * -p) := by
    rw [Real.tan_eq_sin_div_cos, le_div_iff₀ (Real.cos_pos_of_mem_Ioo ⟨by linarith, by linarith⟩)]
    obtain ⟨s1, s2⟩ := sin_small_pos (l := 2 * -p) (by linarith) (by linarith)
    have c1 := Real.cos_le_one (2 * -p)
    nlinarith
  have k2 : Real.tan (-p / 2) ≤ -p := by
    have c0 := Real.one_sub_sq_div_two_le_cos (x := -p / 2)
    have c1 : 1 / 2 ≤ Real.cos (-p / 2) := by nlinarith
    rw [Real.tan_eq_sin_div_cos, div_le_iff₀ (by linarith)]
    obtain ⟨s1, s2⟩ := sin_small_pos (l := -p / 2) (by linarith) (by linarith)
    nlinarith
  have m1 := Real.arctan_strictMono.monotone k1
  have m2 := Real.arctan_strictMono.monotone k2
  rw [Real.arctan_tan (by linarith) (by linarith)] at m1 m2
  have e : Real.arctan p = -Real.arctan (-p) := by rw [Real.arctan_neg]; ring
  rw [e]
  constructor <;> linarith

/-- A non-negative `float` below 23 is left as it is by the reduction to `[0, 24)`. -/
theorem LIMIT_HOURS_TO_24_single_of_nonneg {w : ℝ} (hw : roundF32 w = w) (h0 : 0 ≤ w)
    (h1 : w ≤ 23) : Single.LIMIT_HOURS_TO_24 w = w := by
  unfold Single.LIMIT_HOURS_TO_24
  rw [if_pos h0]
  have hq := abs_roundF32_sub_le (w / 24)
  have hq0 : 0 ≤ roundF32 (w / 24) := roundF32_nonneg (by positivity)
  have hq1 : roundF32 (w / 24) < 1 := by
    rw [abs_le, abs_of_nonneg (by positivity)] at hq
    have e2 : (1 : ℝ) / 2 ^ 150 ≤ 1 / 1000 := by norm_num
    have e3 : w / 24 / 2 ^ 24 ≤ 1 / 1000 := by
      rw [div_le_iff₀ (by positivity)]; linarith
    linarith
  rw [toLong_eq 0 hq0 (by simpa using hq0) (by simpa using hq1)]
  simp only [zero_mul, Int.cast_zero, roundF32_zero, sub_zero, hw]

/-- A negative `float` above -8 is taken by the reduction into `[16, 24]`, near its sum
with 24. -/
theorem LIMIT_HOURS_TO_24_single_neg_range {w : ℝ} (h1 : -8 ≤ w) (h2 : w < 0) :
    (w + 24) * 0.9999999 ≤ Single.LIMIT_HOURS_TO_24 w ∧ Single.LIMIT_HOURS_TO_24 w ≤ 24 := by
  unfold Single.LIMIT_HOURS_TO_24
  rw [if_neg (not_le.mpr h2)]
  have hx : 0 < w + 24 := by linarith
  constructor
  · exact (roundF32_bounds_pos (x := w + 24) (a := w + 24) (b := w + 24) le_rfl le_rfl
      (by have : (1 : ℝ) / 2 ^ 100 ≤ 16 := by norm_num
          linarith)).1
  · rw [roundF32_eq_of_mem 4 (by norm_num) (by rw [abs_of_pos hx]; norm_num; linarith)
      (by rw [abs_of_pos hx]; norm_num; linarith)]
    have hk : roundHalfEven ((w + 24) / 2 ^ ((4 : ℤ) - 23)) ≤ 12582912 := by
      apply roundHalfEven_le
      rw [div_le_iff₀ (zpow_pos (by norm_num) _)]
      norm_num
      linarith
    have hk2 : (roundHalfEven ((w + 24) / 2 ^ ((4 : ℤ) - 23)) : ℝ) ≤ 12582912 := by
      exact_mod_cast hk
    have e : (2 : ℝ) ^ ((4 : ℤ) - 23) = 1 / 524288 := by norm_num
    rw [e] at hk2 ⊢
    linarith

/-- One is stored as one. -/
theorem roundF32_one : roundF32 1 = 1 :=
  roundF32_of_eq 1 0 (by norm_num) (by norm_num) (by norm_num)

/-! ## The angle conversions in single precision -/

/-- The roundings of the two conversions at the `float` 9262421/2097152. -/
theorem conversion_roundings :
    Single.toLong (9262421 / 2097152) = 4
    ∧ roundF32 (9262421 / 2097152 * 60) = 265
    ∧ roundF32 (((4 : ℤ) * 60 : ℤ) : ℝ) = 240
    ∧ roundF32 (265 - 240) = 25
    ∧ Single.toLong 25 = 25
    ∧ roundF32 (9262421 / 2097152 * 3600) = 16281599 / 1024
    ∧ roundF32 (((4 : ℤ) * 3600 : ℤ) : ℝ) = 14400
    ∧ roundF32 (16281599 / 1024 - 14400) = 1535999 / 1024
    ∧ roundF32 (((25 : ℤ) * 60 : ℤ) : ℝ) = 1500
    ∧ roundF32 (1535999 / 1024 - 1500) = -(1 / 1024) := by
  refine ⟨?_, ?_, ?_, ?_, ?_, ?_, ?_, ?_, ?_, ?_⟩
  · exact toLong_eq 4 (by norm_num) (by norm_num) (by norm_num)
  · rw [roundF32_eval 8 8683520 (1 / 32768) (by norm_num) (by norm_num)
      (by rw [abs_of_pos (by norm_num)]; norm_num) (by rw [abs_of_pos (by norm_num)]; norm_num)
      (by norm_num) (by norm_num)]
    norm_num
  · rw [roundF32_of_eq 240 0 (by norm_num) (by norm_num) (by norm_num)]; norm_num
  · rw [roundF32_of_eq 25 0 (by norm_num) (by norm_num) (by norm_num)]; norm_num
  · exact toLong_eq 25 (by norm_num) (by norm_num) (by norm_num)
  · rw [roundF32_eval 13 16281599 (1 / 1024) (by norm_num) (by norm_num)
      (by rw [abs_of_pos (by norm_num)]; norm_num) (by rw [abs_of_pos (by norm_num)]; norm_num)
      (by norm_num) (by norm_num)]
    norm_num
  · rw [roundF32_of_eq 14400 0 (by norm_num) (by norm_num) (by norm_num)]; norm_num
  · rw [roundF32_of_eq 1535999 (-10) (by norm_num) (by norm_num) (by norm_num)]; norm_num
  · rw [roundF32_of_eq 1500 0 (by norm_num) (by norm_num) (by norm_num)]; norm_num
  · rw [roundF32_of_eq (-1) (-10) (by norm_num) (by norm_num) (by norm_num)]; norm_num

/-- C26: in single precision the conversions return a negative seconds component, with
minutes 25, for the `float` 4.41666650772094726563 (4 h 24 min 59.9994 s): the product by 60
rounds up to 265, the product by 3600 rounds down to 15899.9990234375. -/
theorem conversion_seconds_negative :
    Single.floatingDegreesToDegreesMinutesSeconds (9262421 / 2097152) = (4, 25, -(1 / 1024))
    ∧ Single.floatingHoursToHoursMinutesSeconds (9262421 / 2097152) = (4, 25, -(1 / 1024)) := by
  obtain ⟨k1, k2, k3, k4, k5, k6, k7, k8, k9, k10⟩ := conversion_roundings
  constructor
  · unfold Single.floatingDegreesToDegreesMinutesSeconds
    rw [if_pos (by norm_num)]
    simp only [k1, k2, k3, k4, k5, k6, k7, k8, k9, k10]
  · unfold Single.floatingHoursToHoursMinutesSeconds
    rw [if_pos (by norm_num)]
    simp only [k1, k2, k3, k4, k5, k6, k7, k8, k9, k10]

/-! ## The reductions of the hours and of the degrees in single precision -/

set_option maxHeartbeats 1000000 in
/-- C14: in single precision `EclipticToEquatorial` returns the right ascension 24, outside
`[0, 24)`, at `lambda = -2 ^ (-20)`, `beta = 0`, `epsilon = 23.5`; and the reduction
`LIMIT_HOURS_TO_24` returns 24 for every negative `float` of magnitude at most `2 ^ (-20)`. -/
theorem EclipticToEquatorial_ra_reaches_24 :
    Single.EclipticToEquatorial_ra (-(1 / 1048576)) 0 23.5 = 24
    ∧ ∀ w : ℝ, -(1 / 1048576) ≤ w → w < 0 → Single.LIMIT_HOURS_TO_24 w = 24 := by
  refine ⟨?_, fun w h1 h2 => LIMIT_HOURS_TO_24_single_of_neg h1 h2⟩
  unfold Single.EclipticToEquatorial_ra Single.PI
  simp only [zero_mul, zero_div, roundF32_zero, Real.tan_zero, sub_zero, roundF32_roundF32]
  -- the three angles in radians
  obtain ⟨l, hl⟩ : ∃ l, l = roundF32 (-(1 / 1048576) * 3.1415926535 / 180) := ⟨_, rfl⟩
  obtain ⟨e, he⟩ : ∃ e, e = roundF32 (23.5 * 3.1415926535 / 180) := ⟨_, rfl⟩
  rw [← hl, ← he]
  obtain ⟨l1, l2⟩ := roundF32_bounds_neg
    (x := -(1 / 1048576) * 3.1415926535 / 180) (a := -(167 / 10 ^ 10)) (b := -(166 / 10 ^ 10))
    (by norm_num) (by norm_num) (by norm_num)
  rw [← hl] at l1 l2
  obtain ⟨e1, e2⟩ := roundF32_bounds_pos
    (x := 23.5 * 3.1415926535 / 180) (a := 0.41) (b := 0.4102)
    (by norm_num) (by norm_num) (by norm_num)
  rw [← he] at e1 e2
  -- sine of lambda, cosine of epsilon, their product
  obtain ⟨s1, s2⟩ := sin_small_neg (l := l) (by linarith) (by linarith)
  obtain ⟨S, hS⟩ : ∃ S, S = roundF32 (Real.sin l) := ⟨_, rfl⟩
  obtain ⟨S1, S2⟩ := roundF32_bounds_neg (x := Real.sin l) (a := -(168 / 10 ^ 10))
    (b := -(82 / 10 ^ 10)) (by linarith) (by linarith) (by norm_num)
  rw [← hS] at S1 S2 ⊢
  have c1 : 0.9 ≤ Real.cos e := by
    have := Real.one_sub_sq_div_two_le_cos (x := e)
    nlinarith
  have c2 := Real.cos_le_one e
  obtain ⟨C, hC⟩ : ∃ C, C = roundF32 (Real.cos e) := ⟨_, rfl⟩
  obtain ⟨C1, C2⟩ := roundF32_bounds_pos (x := Real.cos e) (a := 0.9) (b := 1)
    c1 c2 (by norm_num)
  rw [← hC] at C1 C2 ⊢
  obtain ⟨P, hP⟩ : ∃ P, P = roundF32 (S * C) := ⟨_, rfl⟩
  obtain ⟨P1, P2⟩ := roundF32_bounds_neg (x := S * C) (a := -(170 / 10 ^ 10))
    (b := -(70 / 10 ^ 10)) (by nlinarith) (by nlinarith) (by norm_num)
  rw [← hP] at P1 P2 ⊢
  -- cosine of lambda
  have d1 : 0.99 ≤ Real.cos l := by
    have := Real.one_sub_sq_div_two_le_cos (x := l)
    nlinarith
  have d2 := Real.cos_le_one l
  obtain ⟨X, hX⟩ : ∃ X, X = roundF32 (Real.cos l) := ⟨_, rfl⟩
  obtain ⟨X1, X2⟩ := roundF32_bounds_pos (x := Real.cos l) (a := 0.99) (b := 1)
    d1 d2 (by norm_num)
  rw [← hX] at X1 X2 ⊢
  -- the angle and its conversion to hours
  obtain ⟨a1, a2⟩ := arg_bounds_of_pos_neg (x := X) (y := P) (by linarith) (by linarith)
    (by linarith) (by linarith)
  obtain ⟨R, hR⟩ : ∃ R, R = roundF32 (Complex.arg ⟨X, P⟩) := ⟨_, rfl⟩
  obtain ⟨R1, R2⟩ := roundF32_bounds_neg (x := Complex.arg ⟨X, P⟩) (a := -(341 / 10 ^ 10))
    (b := -(34 / 10 ^ 10)) (by linarith) (by linarith) (by norm_num)
  rw [← hR] at R1 R2 ⊢
  obtain ⟨Q1, Q2⟩ := roundF32_bounds_neg (x := R * 3.81971863) (a := -(1400 / 10 ^ 10))
    (b := -(100 / 10 ^ 10)) (by linarith) (by linarith) (by norm_num)
  exact LIMIT_HOURS_TO_24_single_of_neg (by linarith) (by linarith)

/-- Bounds on the sine and cosine of the two angles 40 and 50 degrees, in radians with the
constant `PI` of the source. -/
theorem sin_cos_40_50 :
    Real.sin (40 * Single.PI / 180) ≤ 0.655 ∧ 0.62 ≤ Real.sin (40 * Single.PI / 180)
    ∧ 0.74 ≤ Real.cos (40 * Single.PI / 180)
    ∧ 0.73 ≤ Real.sin (50 * Single.PI / 180)
    ∧ 0.58 ≤ Real.cos (50 * Single.PI / 180) ∧ Real.cos (50 * Single.PI / 180) ≤ 0.65 := by
  unfold Single.PI
  have p1 : |(40 * 3.1415926535 / 180 : ℝ)| ≤ 1 := by rw [abs_of_pos (by norm_num)]; norm_num
  have p2 : |(50 * 3.1415926535 / 180 : ℝ)| ≤ 1 := by rw [abs_of_pos (by norm_num)]; norm_num
  have s40 := Real.sin_bound p1
  have c40 := Real.cos_bound p1
  have s50 := Real.sin_bound p2
  have c50 := Real.cos_bound p2
  rw [abs_of_pos (by norm_num : (0 : ℝ) < 40 * 3.1415926535 / 180), abs_le] at s40 c40
  rw [abs_of_pos (by norm_num : (0 : ℝ) < 50 * 3.1415926535 / 180), abs_le] at s50 c50
  norm_num at s40 c40 s50 c50
  refine ⟨?_, ?_, ?_, ?_, ?_, ?_⟩ <;> linarith

set_option maxHeartbeats 1000000 in
/-- C15: in single precision `equatorialToHorizontal` returns the azimuth 360, outside
`[0, 360)`, at `H = -2 ^ (-40)`, `delta = 50`, `phi = 40`; and the reduction
`LIMIT_DEGREES_TO_360` returns 360 for every negative `float` of magnitude at most
`2 ^ (-16)`. -/
theorem equatorialToHorizontal_azi_reaches_360 :
    Single.equatorialToHorizontal_azi (-(1 / 2 ^ 40)) 50 40 = 360
    ∧ ∀ w : ℝ, roundF32 w = w → -(1 / 65536) ≤ w → w < 0 →
        Single.LIMIT_DEGREES_TO_360 w = 360 := by
  refine ⟨?_, fun w h0 h1 h2 => LIMIT_DEGREES_TO_360_single_of_neg h0 h1 h2⟩
  obtain ⟨t1, t2, t3, t4, t5, t6⟩ := sin_cos_40_50
  unfold Single.equatorialToHorizontal_azi
  simp only []
  -- the hour angle in radians, its sine and cosine
  obtain ⟨h, hh⟩ : ∃ h, h = -(1 / 2 ^ 40) * Single.PI / 180 := ⟨_, rfl⟩
  rw [← hh]
  have h1 : -(16 / 10 ^ 15) ≤ h := by rw [hh]; unfold Single.PI; norm_num
  have h2 : h ≤ -(15 / 10 ^ 15) := by rw [hh]; unfold Single.PI; norm_num
  obtain ⟨s1, s2⟩ := sin_small_neg (l := h) (by linarith) (by linarith)
  have c1 := Real.cos_le_one h
  have c2 := Real.neg_one_le_cos h
  -- the second argument of atan2 is negative
  have ht : Real.tan (50 * Single.PI / 180)
      = Real.sin (50 * Single.PI / 180) / Real.cos (50 * Single.PI / 180) :=
    Real.tan_eq_sin_div_cos _
  have ht1 : 1.12 ≤ Real.tan (50 * Single.PI / 180) := by
    rw [ht, le_div_iff₀ (by linarith)]; nlinarith
  have ht2 : Real.tan (50 * Single.PI / 180) ≤ 1.8 := by
    rw [ht, div_le_iff₀ (by linarith)]
    have := Real.sin_le_one (50 * Single.PI / 180)
    nlinarith
  have c3 := Real.cos_le_one (40 * Single.PI / 180)
  obtain ⟨x, hx⟩ : ∃ x, x = Real.cos h * Real.sin (40 * Single.PI / 180)
      - Real.tan (50 * Single.PI / 180) * Real.cos (40 * Single.PI / 180) := ⟨_, rfl⟩
  obtain ⟨y, hy⟩ : ∃ y, y = Real.sin h := ⟨_, rfl⟩
  rw [← hx, ← hy]
  rw [← hy] at s1 s2
  have x1 : x ≤ -0.17 := by
    rw [hx]
    nlinarith [mul_nonneg (sub_nonneg.mpr c1) (by linarith : (0 : ℝ) ≤ Real.sin (40 * Single.PI / 180)),
      mul_nonneg (sub_nonneg.mpr ht1) (sub_nonneg.mpr t3)]
  have x2 : -3 ≤ x := by
    rw [hx]
    nlinarith [mul_nonneg (by linarith : (0 : ℝ) ≤ Real.cos h + 1)
        (by linarith : (0 : ℝ) ≤ Real.sin (40 * Single.PI / 180)),
      mul_nonneg (sub_nonneg.mpr ht2) (sub_nonneg.mpr c3),
      mul_nonneg (by linarith : (0 : ℝ) ≤ Real.tan (50 * Single.PI / 180)) (by linarith : (0 : ℝ) ≤ Real.cos (40 * Single.PI / 180))]
  -- the angle is just above -π and is stored as the float nearest to -π
  have ha1 : |x| ≤ Complex.abs ⟨x, y⟩ := Complex.abs_re_le_abs ⟨x, y⟩
  rw [abs_of_neg (by linarith)] at ha1
  have hA : 0 < Complex.abs ⟨x, y⟩ := by linarith
  have hs1 : 0 < -y / Complex.abs ⟨x, y⟩ := div_pos (by linarith) hA
  have hs2 : -y / Complex.abs ⟨x, y⟩ ≤ 1 / 10 ^ 13 := by
    rw [div_le_iff₀ hA]; nlinarith
  obtain ⟨b1, b2⟩ := arcsin_small_pos hs1 (by linarith [hs2, (by norm_num : (1 : ℝ) / 10 ^ 13 ≤ 1 / 2)])
  have harg : Complex.arg ⟨x, y⟩ = Real.arcsin (-y / Complex.abs ⟨x, y⟩) - Real.pi := by
    rw [Complex.arg_of_re_neg_of_im_neg (by simp; linarith) (by simp; linarith)]
    simp
  have hp1 := Real.pi_gt_d20
  have hp2 := Real.pi_lt_d20
  have hr : roundF32 (Complex.arg ⟨x, y⟩) = -(13176795 / 4194304) := by
    have hneg : Complex.arg ⟨x, y⟩ < 0 := by rw [harg]; linarith
    rw [roundF32_eval 1 (-13176795) (1 / 4194304) (by norm_num) (by norm_num)
      (by rw [abs_of_neg hneg, harg]; linarith) (by rw [abs_of_neg hneg, harg]; linarith)
      (by rw [harg]; push_cast; linarith) (by rw [harg]; push_cast; linarith)]
    push_cast; ring
  rw [hr]
  obtain ⟨Q1, Q2⟩ := roundF32_bounds_neg
    (x := -(13176795 / 4194304) * 180 / Single.PI + 180) (a := -(51 / 10 ^ 7))
    (b := -(50 / 10 ^ 7)) (by unfold Single.PI; norm_num) (by unfold Single.PI; norm_num)
    (by norm_num)
  exact LIMIT_DEGREES_TO_360_single_of_neg (roundF32_roundF32 _) (by linarith) (by linarith)

/-- The roundings of `apparentSideralTime` at the hour count 3596902313. -/
theorem siderealTime_roundings :
    roundF32 (3596902313 : ℝ) = 3596902400
    ∧ roundF32 (3596902400 + 0) = 3596902400
    ∧ roundF32 (3606750464 / 24) = 150281264
    ∧ Single.toLong 150281264 = 150281264
    ∧ roundF32 (((150281264 : ℤ) * 24 : ℤ) : ℝ) = 3606750208
    ∧ roundF32 (3606750464 - 3606750208) = 256 := by
  refine ⟨?_, ?_, ?_, ?_, ?_, ?_⟩
  · rw [roundF32_eval 31 14050400 256 (by norm_num) (by norm_num)
      (by rw [abs_of_pos (by norm_num)]; norm_num) (by rw [abs_of_pos (by norm_num)]; norm_num)
      (by norm_num) (by norm_num)]
    norm_num
  · rw [roundF32_of_eq 14050400 8 (by norm_num) (by norm_num) (by norm_num)]; norm_num
  · rw [roundF32_eval 27 9392579 16 (by norm_num) (by norm_num)
      (by rw [abs_of_pos (by norm_num)]; norm_num) (by rw [abs_of_pos (by norm_num)]; norm_num)
      (by norm_num) (by norm_num)]
    norm_num
  · exact toLong_eq 150281264 (by norm_num) (by norm_num) (by norm_num)
  · rw [roundF32_eval_tie 31 14088868 256 (by norm_num) (by norm_num)
      (by rw [abs_of_pos (by norm_num)]; norm_num) (by rw [abs_of_pos (by norm_num)]; norm_num)
      (by norm_num),
      if_pos (by rw [Int.even_iff]; norm_num)]
    norm_num
  · rw [roundF32_of_eq 1 8 (by norm_num) (by norm_num) (by norm_num)]; norm_num

/-- C19: in single precision `apparentSideralTime` returns 256 hours, outside `[0, 24)`, for
the hour count 3596902313 (minutes and seconds 0), whatever sidereal time at 0h between -48
and 48 hours the date gives: the time of day and the sum are stored with a spacing of 256, and
the product `(long)(value/24)*24` is converted to `float` before the subtraction. -/
theorem apparentSideralTime_reaches_256 (theta0 : ℝ) (h0 : -48 ≤ theta0) (h1 : theta0 ≤ 48) :
    Single.apparentSideralTimeFrom theta0 3596902313 0 0 = 256 := by
  obtain ⟨k1, k2, k3, k4, k5, k6⟩ := siderealTime_roundings
  have k7 : roundF32 (theta0 + 1.00273790935 * 3596902400) = 3606750464 := by
    have hx : 0 < theta0 + 1.00273790935 * 3596902400 := by linarith
    rw [roundF32_eval 31 14088869 256 (by norm_num) (by norm_num)
      (by rw [abs_of_pos hx]; linarith) (by rw [abs_of_pos hx]; linarith)
      (by linarith) (by linarith)]
    norm_num
  unfold Single.apparentSideralTimeFrom Single.HOURS_MINUTES_SECONDS_TO_DECIMAL_HOURS
    Single.LIMIT_HOURS_TO_24
  simp only [Nat.cast_ofNat, Nat.cast_zero, roundF32_zero, zero_div, k1, k2, k7]
  rw [if_pos (by norm_num)]
  simp only [k3, k4, k5, k6]

/-- Witness of C19: the sidereal time at 0h is 6.6 hours. -/
theorem apparentSideralTime_reaches_256_witness :
    (-48 : ℝ) ≤ 6.6 ∧ (6.6 : ℝ) ≤ 48 ∧ Single.apparentSideralTimeFrom 6.6 3596902313 0 0 = 256 :=
  ⟨by norm_num, by norm_num, apparentSideralTime_reaches_256 6.6 (by norm_num) (by norm_num)⟩

/-- The tangent of the constant `PI` of the source, which is a little below π. -/
theorem tan_PI_bounds :
    -(91 / 10 ^ 12) ≤ Real.tan Single.PI ∧ Real.tan Single.PI ≤ -(44 / 10 ^ 12) := by
  have hp1 := Real.pi_gt_d20
  have hp2 := Real.pi_lt_d20
  have e : Real.tan Single.PI = Real.tan (Single.PI - Real.pi) := by
    have := Real.tan_periodic (Single.PI - Real.pi)
    rw [sub_add_cancel] at this
    exact this
  have d1 : -(898 / 10 ^ 13) ≤ Single.PI - Real.pi := by unfold Single.PI; linarith
  have d2 : Single.PI - Real.pi ≤ -(897 / 10 ^ 13) := by unfold Single.PI; linarith
  obtain ⟨s1, s2⟩ := sin_small_neg (l := Single.PI - Real.pi) (by linarith) (by linarith)
  have c0 := Real.one_sub_sq_div_two_le_cos (x := Single.PI - Real.pi)
  have c1 : 0.99 ≤ Real.cos (Single.PI - Real.pi) := by nlinarith
  have c2 := Real.cos_le_one (Single.PI - Real.pi)
  rw [e, Real.tan_eq_sin_div_cos]
  constructor
  · rw [le_div_iff₀ (by linarith)]; nlinarith
  · rw [div_le_iff₀ (by linarith)]; nlinarith

/-- With eccentricity 0 the loop of `kepler`, started at `E = M` with another `previousE`,
makes one Newton step that leaves `E` as it is, and leaves on the second. -/
theorem keplerLoop_single_zero (E previousE : ℝ) (hE : roundF32 E = E) (hne : previousE ≠ E)
    (n steps : ℕ) : Single.keplerLoop E 0 (n + 2) E previousE steps = (E, steps + 2) := by
  have step : roundF32 (E + roundF32 (roundF32 (roundF32 (E + roundF32 (0 * roundF32 (Real.sin E)))
      - E) / roundF32 (1 - roundF32 (0 * roundF32 (Real.cos E))))) = E := by
    simp only [zero_mul, roundF32_zero, add_zero, sub_zero, hE, sub_self, roundF32_one, div_one]
  rw [Single.keplerLoop]
  simp only [step]
  rw [if_neg hne, Single.keplerLoop]
  simp only [step]
  rw [if_pos trivial]

/-- With eccentricity 0, `kepler` returns after two iterations the anomaly converted to
radians, stored, converted back and stored. -/
theorem kepler_single_zero (M : ℝ) (hM : |M| ≤ 2 ^ 20) :
    Single.kepler M 0
      = (roundF32 (roundF32 (M * Single.PI / 180) * 180 / Single.PI), 2) := by
  unfold Single.kepler
  simp only []
  have hr := abs_roundF32_sub_le (M * Single.PI / 180)
  have hx : |M * Single.PI / 180| ≤ 20000 := by
    unfold Single.PI
    rw [abs_div, abs_mul, abs_of_pos (by norm_num : (0 : ℝ) < 3.1415926535),
      abs_of_pos (by norm_num : (0 : ℝ) < 180), div_le_iff₀ (by norm_num)]
    nlinarith
  have e1 : |M * Single.PI / 180| / 2 ^ 24 ≤ 1 := by
    rw [div_le_iff₀ (by positivity)]; linarith
  have e2 : (1 : ℝ) / 2 ^ 150 ≤ 1 := by norm_num
  obtain ⟨E, hE⟩ : ∃ E, E = roundF32 (M * Single.PI / 180) := ⟨_, rfl⟩
  rw [← hE] at hr ⊢
  have hE1 : |E| ≤ 20002 := by
    have := abs_sub_abs_le_abs_sub E (M * Single.PI / 180)
    linarith
  have hEE : roundF32 E = E := by rw [hE, roundF32_roundF32]
  have hne : roundF32 (E + 1) ≠ E := by
    have h1 := abs_roundF32_sub_le (E + 1)
    have h2 : |E + 1| ≤ 20003 := by
      have := abs_add E 1
      rw [abs_one] at this
      linarith
    have e3 : |E + 1| / 2 ^ 24 ≤ 1 / 4 := by
      rw [div_le_iff₀ (by positivity)]; linarith
    have e4 : (1 : ℝ) / 2 ^ 150 ≤ 1 / 4 := by norm_num
    rw [abs_le] at h1
    intro h
    rw [h] at h1
    linarith
  rw [keplerLoop_single_zero E _ hEE hne 8 0]

/-- What a `float` holds is an integer multiple of `2 ^ (-149)`. -/
theorem exists_int_of_roundF32_eq {a : ℝ} (h : roundF32 a = a) :
    ∃ N : ℤ, a = (N : ℝ) * 2 ^ (-149 : ℤ) := by
  have hE : -149 ≤ f32Exponent a := by
    unfold f32Exponent
    rcases max_cases (Int.log 2 |a|) (-126) with h | h <;> omega
  obtain ⟨k, hk⟩ : ∃ k : ℕ, f32Exponent a = -149 + k := ⟨(f32Exponent a + 149).toNat, by omega⟩
  refine ⟨roundHalfEven (a / 2 ^ f32Exponent a) * 2 ^ k, ?_⟩
  have e : (2 : ℝ) ^ f32Exponent a = 2 ^ k * 2 ^ (-149 : ℤ) := by
    rw [hk, zpow_add₀ (by norm_num), zpow_natCast]; ring
  have h2 : a = (roundHalfEven (a / 2 ^ f32Exponent a) : ℝ) * 2 ^ f32Exponent a := h.symm
  push_cast
  rw [mul_assoc, ← e]
  exact h2

/-- The sum of two `float` values is stored with a relative error of at most `2 ^ (-24)`:
in the subnormal range the sum is a `float` itself. -/
theorem abs_roundF32_add_sub_le {a b : ℝ} (ha : roundF32 a = a) (hb : roundF32 b = b) :
    |roundF32 (a + b) - (a + b)| ≤ |a + b| / 2 ^ 24 := by
  rcases le_or_lt (1 / 2 ^ 126) |a + b| with hn | hn
  · exact abs_roundF32_sub_le_of_normal hn
  · obtain ⟨Na, hNa⟩ := exists_int_of_roundF32_eq ha
    obtain ⟨Nb, hNb⟩ := exists_int_of_roundF32_eq hb
    have e : a + b = ((Na + Nb : ℤ) : ℝ) * 2 ^ (-149 : ℤ) := by
      push_cast; rw [add_mul, ← hNa, ← hNb]
    have hN : |(Na + Nb : ℤ)| < 2 ^ 24 := by
      have h1 : |((Na + Nb : ℤ) : ℝ)| * 2 ^ (-149 : ℤ) < 1 / 2 ^ 126 := by
        have := hn
        rw [e, abs_mul, abs_of_pos (zpow_pos (by norm_num : (0 : ℝ) < 2) _)] at this
        exact this
      have h2 : |((Na + Nb : ℤ) : ℝ)| < 2 ^ 24 := by
        have e3 : (2 : ℝ) ^ (-149 : ℤ) = 1 / 2 ^ 149 := by norm_num
        rw [e3] at h1
        have h4 : |((Na + Nb : ℤ) : ℝ)| < 2 ^ 23 := by
          rw [mul_one_div, div_lt_iff₀ (by positivity)] at h1
          have : (1 : ℝ) / 2 ^ 126 * 2 ^ 149 = 2 ^ 23 := by norm_num
          rw [this] at h1
          exact h1
        linarith [(by norm_num : (2 : ℝ) ^ 23 ≤ 2 ^ 24)]
      exact_mod_cast h2
    rw [e, roundF32_intCast_mul_zpow _ _ hN (by norm_num), sub_self, abs_zero]
    positivity

/-- Accumulated rounding of the additions of `sumVSOP87Coefs`, from any value of the
accumulator. -/
theorem foldl_single_error (T : ℝ) (l : List (ℝ × ℝ × ℝ)) : ∀ v : ℝ, roundF32 v = v →
    |l.foldl (fun value coef => roundF32 (value + Single.vsop87Term coef T)) v
        - (v + (l.map (fun c => Single.vsop87Term c T)).sum)|
      ≤ ((1 + 1 / 2 ^ 24) ^ l.length - 1)
          * (|v| + (l.map (fun c => |Single.vsop87Term c T|)).sum) := by
  induction l with
  | nil => intro v _; simp
  | cons c l ih =>
    intro v hv
    have ht : roundF32 (Single.vsop87Term c T) = Single.vsop87Term c T := by
      unfold Single.vsop87Term; simp only [roundF32_roundF32]
    obtain ⟨t, htdef⟩ : ∃ t, t = Single.vsop87Term c T := ⟨_, rfl⟩
    rw [← htdef] at ht
    have h2 := abs_roundF32_add_sub_le hv ht
    have ih' := ih (roundF32 (v + t)) (roundF32_roundF32 _)
    simp only [List.foldl_cons, List.map_cons, List.sum_cons, List.length_cons, ← htdef]
    obtain ⟨R, hR⟩ : ∃ R, R = l.foldl
        (fun value coef => roundF32 (value + Single.vsop87Term coef T)) (roundF32 (v + t)) :=
      ⟨_, rfl⟩
    obtain ⟨S, hS⟩ : ∃ S, S = (l.map (fun c => Single.vsop87Term c T)).sum := ⟨_, rfl⟩
    obtain ⟨A, hA⟩ : ∃ A, A = (l.map (fun c => |Single.vsop87Term c T|)).sum := ⟨_, rfl⟩
    obtain ⟨P, hP⟩ : ∃ P : ℝ, P = (1 + 1 / 2 ^ 24) ^ l.length := ⟨_, rfl⟩
    obtain ⟨v', hv'⟩ : ∃ v', v' = roundF32 (v + t) := ⟨_, rfl⟩
    rw [← hR, ← hS, ← hA, ← hP, ← hv'] at ih'
    rw [← hR, ← hS, ← hA, pow_succ, ← hP]
    rw [← hv'] at h2
    have hA0 : 0 ≤ A := by
      rw [hA]; apply List.sum_nonneg
      intro x hx
      obtain ⟨c', _, rfl⟩ := List.mem_map.mp hx
      exact abs_nonneg _
    have hP1 : 1 ≤ P := by rw [hP]; exact one_le_pow₀ (by norm_num)
    have hX : |v + t| ≤ |v| + |t| := abs_add v t
    have hv1 : |v'| ≤ |v + t| + |v + t| / 2 ^ 24 := by
      have := abs_sub_abs_le_abs_sub v' (v + t)
      linarith
    have k1 : |R - (v + (t + S))| ≤ |R - (v' + S)| + |v' - (v + t)| := by
      have := abs_add (R - (v' + S)) (v' - (v + t))
      have e : R - (v' + S) + (v' - (v + t)) = R - (v + (t + S)) := by ring
      rw [e] at this
      exact this
    have k3 : |v + t| / 2 ^ 24 ≤ (|v| + |t|) / 2 ^ 24 :=
      div_le_div_of_nonneg_right hX (by positivity)
    have k2 : (P - 1) * (|v'| + A) ≤ (P - 1) * ((|v| + |t|) + (|v| + |t|) / 2 ^ 24 + A) :=
      mul_le_mul_of_nonneg_left (by linarith) (by linarith)
    have k4 : 0 ≤ P * (1 / 2 ^ 24) * A := by positivity
    have e : (P * (1 + 1 / 2 ^ 24) - 1) * (|v| + (|t| + A))
        = (P - 1) * ((|v| + |t|) + (|v| + |t|) / 2 ^ 24 + A) + (|v| + |t|) / 2 ^ 24
          + P * (1 / 2 ^ 24) * A := by ring
    rw [e]
    linarith

/-- With the oscillating tables Mars is at longitude 0, latitude 0 and at a radius that grows
with the epoch. -/
theorem helio_oscillating_Mars (T : ℝ) :
    heliocentricCoordinatesForPlanetAndT oscillatingTables .Mars (num T)
      = ⟨num 0, num 0, num (151.29 * Real.cos 3 + 5550250 * T)⟩ := by
  unfold heliocentricCoordinatesForPlanetAndT oscillatingTables sumVSOP87Coefs
    RADIANS_TO_DEGREES LIMIT_DEGREES_TO_360 PI
  simp
  norm_num
  ring

/-- With the oscillating tables the Earth is at longitude 0, latitude 0 and radius 0. -/
theorem helio_oscillating_Earth (T : ℝ) :
    heliocentricCoordinatesForPlanetAndT oscillatingTables .Earth (num T)
      = ⟨num 0, num 0, num 0⟩ := by
  unfold heliocentricCoordinatesForPlanetAndT oscillatingTables sumVSOP87Coefs
    RADIANS_TO_DEGREES LIMIT_DEGREES_TO_360 PI
  simp [num_div]
  norm_num

/-- One pass for Mars with the oscillating tables at the Julian Day
`{2451546, 0.300000011920928955078125}`, from a numeric light time `τ`. -/
theorem lightTimeBody_oscillating (s : LightTimeState) (τ : ℝ) (h : s.TLight = num τ) :
    (Single.lightTimeBody oscillatingTables .Mars ⟨2451546, num (5033165 / 16777216)⟩ s).2
        = false
    ∧ (Single.lightTimeBody oscillatingTables .Mars ⟨2451546, num (5033165 / 16777216)⟩ s).1.T
        = num (roundF32 ((roundF32 (roundF32 (2451546 + 5033165 / 16777216) - τ) - 2451545)
            / 36525))
    ∧ (Single.lightTimeBody oscillatingTables .Mars
          ⟨2451546, num (5033165 / 16777216)⟩ s).1.lastT = s.T
    ∧ (Single.lightTimeBody oscillatingTables .Mars
          ⟨2451546, num (5033165 / 16777216)⟩ s).1.TLight
        = num (roundF32 (|151.29 * Real.cos 3 + 5550250
            * roundF32 ((roundF32 (roundF32 (2451546 + 5033165 / 16777216) - τ) - 2451545)
                / 36525)| * 0.0057755183)) := by
  unfold Single.lightTimeBody HeliocentricToRectangular COSD SIND PI CFloat.sqrt
  simp [h, CFloat.roundSingle, ofInt, helio_oscillating_Mars, helio_oscillating_Earth, isnan]
  have e : (2451545.0 : ℝ) = 2451545 := by norm_num
  rw [e]
  refine ⟨rfl, ?_⟩
  rw [if_pos (mul_self_nonneg _), Real.sqrt_mul_self_eq_abs]

/-- The cosine of 3 radians is between -1 and -0.9899. -/
theorem cos_three_bounds : -1 ≤ Real.cos 3 ∧ Real.cos 3 ≤ -0.9899 := by
  have hp1 := Real.pi_gt_d6
  have hp2 := Real.pi_lt_d6
  have e : Real.cos 3 = -Real.cos (Real.pi - 3) := by rw [Real.cos_pi_sub, neg_neg]
  have c0 := Real.one_sub_sq_div_two_le_cos (x := Real.pi - 3)
  refine ⟨Real.neg_one_le_cos 3, ?_⟩
  rw [e]
  nlinarith

/-- The roundings that drive the loop at the Julian Day `{2451546, 0.3f}`: the sum of the day
and of the time is stored as 2451546.25; less a light time of at most 0.1 day it is stored
as 2451546.25 again, less a light time between 0.2 and 0.3 day as 2451546. -/
theorem oscillating_roundings :
    roundF32 (2451546 + 5033165 / 16777216) = 9806185 / 4
    ∧ (∀ τ : ℝ, 0 ≤ τ → τ ≤ 0.1 → roundF32 (9806185 / 4 - τ) = 9806185 / 4)
    ∧ (∀ τ : ℝ, 0.2 ≤ τ → τ ≤ 0.3 → roundF32 (9806185 / 4 - τ) = 2451546) := by
  refine ⟨?_, ?_, ?_⟩
  · rw [roundF32_eval 21 9806185 (1 / 4) (by norm_num) (by norm_num)
      (by rw [abs_of_pos (by norm_num)]; norm_num) (by rw [abs_of_pos (by norm_num)]; norm_num)
      (by norm_num) (by norm_num)]
    norm_num
  · intro τ h1 h2
    have hx : (0 : ℝ) < 9806185 / 4 - τ := by linarith
    rw [roundF32_eval 21 9806185 (1 / 4) (by norm_num) (by norm_num)
      (by rw [abs_of_pos hx]; linarith) (by rw [abs_of_pos hx]; linarith)
      (by push_cast; linarith) (by push_cast; linarith)]
    norm_num
  · intro τ h1 h2
    have hx : (0 : ℝ) < 9806185 / 4 - τ := by linarith
    rw [roundF32_eval 21 9806184 (1 / 4) (by norm_num) (by norm_num)
      (by rw [abs_of_pos hx]; linarith) (by rw [abs_of_pos hx]; linarith)
      (by push_cast; linarith) (by push_cast; linarith)]
    norm_num

/-- The two epochs between which the loop alternates, and the initial one. -/
theorem oscillating_epochs :
    (34222 / 10 ^ 9 ≤ roundF32 ((9806185 / 4 - 2451545) / 36525)
      ∧ roundF32 ((9806185 / 4 - 2451545) / 36525) ≤ 34225 / 10 ^ 9)
    ∧ (27377 / 10 ^ 9 ≤ roundF32 ((2451546 - 2451545) / 36525)
      ∧ roundF32 ((2451546 - 2451545) / 36525) ≤ 27380 / 10 ^ 9)
    ∧ (35590 / 10 ^ 9 ≤ roundF32 ((2451546 - 2451545 + 5033165 / 16777216) / 36525)) := by
  obtain ⟨a1, a2⟩ := roundF32_bounds_pos (x := (9806185 / 4 - 2451545) / 36525)
    (a := 34223 / 10 ^ 9) (b := 34224 / 10 ^ 9) (by norm_num) (by norm_num) (by norm_num)
  obtain ⟨b1, b2⟩ := roundF32_bounds_pos (x := (2451546 - 2451545) / 36525)
    (a := 27378 / 10 ^ 9) (b := 27379 / 10 ^ 9) (by norm_num) (by norm_num) (by norm_num)
  obtain ⟨c1, _⟩ := roundF32_bounds_pos
    (x := (2451546 - 2451545 + 5033165 / 16777216) / 36525)
    (a := 35591 / 10 ^ 9) (b := 35593 / 10 ^ 9) (by norm_num) (by norm_num) (by norm_num)
  refine ⟨⟨?_, ?_⟩, ⟨?_, ?_⟩, ?_⟩ <;> linarith

/-- The light time stored at the end of a pass: between 0.2 and 0.3 day at the later epoch,
at most 0.1 day at the earlier one. -/
theorem oscillating_lightTimes :
    (0.2 ≤ roundF32 (|151.29 * Real.cos 3
          + 5550250 * roundF32 ((9806185 / 4 - 2451545) / 36525)| * 0.0057755183)
      ∧ roundF32 (|151.29 * Real.cos 3
          + 5550250 * roundF32 ((9806185 / 4 - 2451545) / 36525)| * 0.0057755183) ≤ 0.3)
    ∧ (0 ≤ roundF32 (|151.29 * Real.cos 3
          + 5550250 * roundF32 ((2451546 - 2451545) / 36525)| * 0.0057755183)
      ∧ roundF32 (|151.29 * Real.cos 3
          + 5550250 * roundF32 ((2451546 - 2451545) / 36525)| * 0.0057755183) ≤ 0.1) := by
  obtain ⟨⟨a1, a2⟩, ⟨b1, b2⟩, _⟩ := oscillating_epochs
  obtain ⟨c1, c2⟩ := cos_three_bounds
  constructor
  · have r1 : 38 ≤ 151.29 * Real.cos 3
        + 5550250 * roundF32 ((9806185 / 4 - 2451545) / 36525) := by linarith
    have r2 : 151.29 * Real.cos 3
        + 5550250 * roundF32 ((9806185 / 4 - 2451545) / 36525) ≤ 41 := by linarith
    rw [abs_of_pos (by linarith)]
    obtain ⟨q1, q2⟩ := roundF32_bounds_pos
      (x := (151.29 * Real.cos 3
        + 5550250 * roundF32 ((9806185 / 4 - 2451545) / 36525)) * 0.0057755183)
      (a := 0.21) (b := 0.24) (by linarith) (by linarith) (by norm_num)
    constructor <;> linarith
  · have r1 : 0.5 ≤ 151.29 * Real.cos 3
        + 5550250 * roundF32 ((2451546 - 2451545) / 36525) := by linarith
    have r2 : 151.29 * Real.cos 3
        + 5550250 * roundF32 ((2451546 - 2451545) / 36525) ≤ 3 := by linarith
    rw [abs_of_pos (by linarith)]
    obtain ⟨q1, q2⟩ := roundF32_bounds_pos
      (x := (151.29 * Real.cos 3
        + 5550250 * roundF32 ((2451546 - 2451545) / 36525)) * 0.0057755183)
      (a := 0.002) (b := 0.02) (by linarith) (by linarith) (by norm_num)
    constructor <;> linarith

/-- The loop does not return from a state in which `T` is one of the two epochs, `lastT`
another number, and `TLight` the light time that leads to the other epoch. -/
theorem lightTimeLoop_oscillating (fuel : ℕ) : ∀ s : LightTimeState,
    (∃ τ l : ℝ, s.TLight = num τ ∧ s.lastT = num l
      ∧ ((s.T = num (roundF32 ((9806185 / 4 - 2451545) / 36525))
            ∧ l ≠ roundF32 ((9806185 / 4 - 2451545) / 36525) ∧ 0.2 ≤ τ ∧ τ ≤ 0.3)
        ∨ (s.T = num (roundF32 ((2451546 - 2451545) / 36525))
            ∧ l ≠ roundF32 ((2451546 - 2451545) / 36525) ∧ 0 ≤ τ ∧ τ ≤ 0.1))) →
    Single.lightTimeLoop oscillatingTables .Mars ⟨2451546, num (5033165 / 16777216)⟩ fuel s
      = none := by
  obtain ⟨k1, k2, k3⟩ := oscillating_roundings
  obtain ⟨⟨a1, a2⟩, ⟨b1, b2⟩, _⟩ := oscillating_epochs
  obtain ⟨⟨p1, p2⟩, ⟨q1, q2⟩⟩ := oscillating_lightTimes
  induction fuel with
  | zero => intro s _; rfl
  | succ n ih =>
    intro s hs
    obtain ⟨τ, l, hτ, hl, hcase⟩ := hs
    obtain ⟨g1, g2, g3, g4⟩ := lightTimeBody_oscillating s τ hτ
    rw [Single.lightTimeLoop]
    rcases hcase with ⟨hT, hne, t1, t2⟩ | ⟨hT, hne, t1, t2⟩
    · rw [if_pos (by rw [hT, hl]; exact fun h => hne h.symm)]
      simp only [g1]
      rw [k1, k3 τ t1 t2] at g2 g4
      apply ih
      refine ⟨_, _, g4, by rw [g3, hT], Or.inr ⟨g2, ?_, q1, q2⟩⟩
      intro h; rw [h] at a1; linarith
    · rw [if_pos (by rw [hT, hl]; exact fun h => hne h.symm)]
      simp only [g1]
      rw [k1, k2 τ t1 t2] at g2 g4
      apply ih
      refine ⟨_, _, g4, by rw [g3, hT], Or.inl ⟨g2, ?_, p1, p2⟩⟩
      intro h; rw [h] at b2; linarith

/-- C10: with the oscillating tables the light-time loop never returns for Mars at the Julian
Day `{2451546, 0.300000011920928955078125}`: whatever the number of evaluations of its
condition allowed, it has not left.  The epoch alternates between the two values stored for
`1.25/36525` and `1/36525`: at the first Mars is 40 AU away and the light time, 0.23 day,
takes the `float jd2` from 2451546.25 down to 2451546; at the second it is 2 AU away and the
light time, 0.01 day, leaves `jd2` at 2451546.25. -/
theorem lightTimeLoop_never_returns (fuel : ℕ) :
    Single.lightTimeLoop oscillatingTables .Mars ⟨2451546, num (5033165 / 16777216)⟩ fuel
      (Single.lightTimeInit ⟨2451546, num (5033165 / 16777216)⟩ sampleUninit) = none := by
  obtain ⟨k1, k2, k3⟩ := oscillating_roundings
  obtain ⟨⟨a1, a2⟩, _, c1⟩ := oscillating_epochs
  obtain ⟨⟨p1, p2⟩, _⟩ := oscillating_lightTimes
  cases fuel with
  | zero => rfl
  | succ n =>
    have hT : (Single.lightTimeInit ⟨2451546, num (5033165 / 16777216)⟩ sampleUninit).T
        = num (roundF32 ((2451546 - 2451545 + 5033165 / 16777216) / 36525)) := by
      unfold Single.lightTimeInit
      simp [CFloat.roundSingle, ofInt]
      norm_num
    have hl : (Single.lightTimeInit ⟨2451546, num (5033165 / 16777216)⟩ sampleUninit).lastT
        = num 0 := rfl
    have hτ : (Single.lightTimeInit ⟨2451546, num (5033165 / 16777216)⟩ sampleUninit).TLight
        = num 0 := rfl
    obtain ⟨g1, g2, g3, g4⟩ := lightTimeBody_oscillating _ 0 hτ
    rw [Single.lightTimeLoop]
    rw [if_pos (by rw [hT, hl]; intro h; rw [h] at c1; norm_num at c1)]
    simp only [g1]
    rw [k1, k2 0 le_rfl (by norm_num)] at g2 g4
    apply lightTimeLoop_oscillating
    refine ⟨_, _, g4, by rw [g3, hT], Or.inl ⟨g2, ?_, p1, p2⟩⟩
    intro h; rw [h] at c1; linarith

/-! ## The altitude at the zenith -/

/-- When the hour angle is 0 and the declination equals the latitude (a body at the zenith),
the argument of `asin` in `equatorialToHorizontal` is exactly 1 in exact arithmetic, the edge
of the domain of `asin`: any excess over 1, such as a rounding of the sum in double
precision, gives `nan`. -/
theorem altitude_argument_at_zenith (phi : ℝ) :
    SIND (num phi) * SIND (num phi) + COSD (num phi) * COSD (num phi) * COSD (num 0) = num 1
    ∧ ∀ t : ℝ, 1 < t → asin (num t) = nan := by
  constructor
  · unfold SIND COSD PI CFloat.sin CFloat.cos
    simp [CFloat.map]
    have := Real.sin_sq_add_cos_sq (phi * 3.1415926535 / 180)
    nlinarith
  · intro t ht
    unfold CFloat.asin
    simp only []
    rw [if_neg (by intro h; linarith [h.2])]

end Ephemeris

end
